import Mathlib

/-!
# Branch lifecycle of the Barrim backend

A shallow embedding of `controllers/company_controller.go`, `controllers/auth_controller.go`
(`Signup`, `Login`, `GoogleLogin`, `ServeImage`), `controllers/user_controller.go`
(`UpdateProfile`), `models/user.go`, `middleware/jwt_middleware.go` and
`middleware/auth_middleware.go` (`RequireUserType`).

* A stored document of the `users` collection is modelled by the Go struct it decodes to
  (`models.User`); the collection is the list of its documents in natural order.
* Everything a handler reads from outside (the echo context, the clock, fresh identifiers,
  failures of store calls and of file operations) is an explicit input: `Request`, `Env`, `Lib`.
* Everything a handler does to the outside is explicit state: `World` holds the collection and
  the log of file-system operations.  `log.Printf` output is not modelled.
* `UpdateCompanyData` writes keys that no struct declares, so it runs on raw documents
  (`Document`, a list of BSON fields) with its own inputs `CompanyDataHTTP`, `CompanyDataEnv`.
* A Go run-time panic is the constructor `GoResult.panic`.
* `c.JSON` fails on a body that holds a NaN or an infinite float (`cJSON`): the handler
  returns the encoder error and the client gets the 500 of echo (`encodeFailure`).
* Signing, password hashing and JSON decoding into structs are parameters (`AuthLib`); what
  the account handlers draw from their environment is `AuthEnv`.
* `Branch.ID` is tagged `bson:"_id,omitempty"`: a branch with the zero ObjectID is stored
  without `_id`, so no `_id` filter of the store matches it (`Branch.matchesID`), while the
  Go loops compare the decoded IDs (`findBranch`).  The statements about a located branch
  therefore take a non-zero branch ID.
-/

namespace Barrim

/-! ## Primitive data -/

/-- Go `float64`, identified by its IEEE-754 bit pattern. -/
structure Float64 where
  bits : Nat
deriving DecidableEq, Repr

/-- The zero value of a `float64` field. -/
def Float64.zero : Float64 := ⟨0⟩

/-- The 12 bytes of a `primitive.ObjectID`, read as a big-endian number. -/
abbrev ObjectID := Nat

/-- The zero ObjectID `primitive.NilObjectID`. -/
def NilObjectID : ObjectID := 0

/-- Go `time.Time`, as an instant on a discrete time line. -/
abbrev Time := Int

/-- Value of one hexadecimal digit, as accepted by `encoding/hex`. -/
def hexVal (c : Char) : Option Nat :=
  if '0' ≤ c ∧ c ≤ '9' then some (c.toNat - '0'.toNat)
  else if 'a' ≤ c ∧ c ≤ 'f' then some (c.toNat - 'a'.toNat + 10)
  else if 'A' ≤ c ∧ c ≤ 'F' then some (c.toNat - 'A'.toNat + 10)
  else none

/-- Big-endian value of a list of hexadecimal digits, `none` on a character that is no digit. -/
def hexDecode : List Char → Nat → Option Nat
  | [], acc => some acc
  | c :: cs, acc =>
    match hexVal c with
    | some d => hexDecode cs (16 * acc + d)
    | none => none

/-- Library function `primitive.ObjectIDFromHex`: exactly 24 hexadecimal digits.  (Go tests
the length in bytes; a string of 24 bytes or of 24 characters that is not all ASCII holds a
character that is no digit, so both tests reject the same strings.) -/
def ObjectIDFromHex (s : String) : Option ObjectID :=
  if s.length ≠ 24 then none else hexDecode s.toList 0

/-- The lower-case hexadecimal digit of a number below 16. -/
def hexChar (n : Nat) : Char :=
  if n < 10 then Char.ofNat (48 + n) else Char.ofNat (87 + n)

/-- The last `k` hexadecimal digits of `n`, most significant first. -/
def hexDigits : Nat → Nat → List Char
  | 0, _ => []
  | k + 1, n => hexDigits k (n / 16) ++ [hexChar (n % 16)]

/-- Library method `ObjectID.Hex`: the 24 lower-case hexadecimal digits of the 12 bytes. -/
def ObjectID.Hex (o : ObjectID) : String := String.mk (hexDigits 24 o)

/-- A Go `interface{}` value as the handlers meet it: what `encoding/json` decodes into
(`nil`, `bool`, `float64`, `string`, slices and maps) and the `int` the type switches also
mention. -/
inductive Value where
  | null
  | bool (b : Bool)
  | float64 (f : Float64)
  | int (i : Int)
  | str (s : String)
  | array (xs : List Value)
  | object (kvs : List (String × Value))

/-- Go `map[string]interface{}`; `m[key]` is `lookup`. -/
abbrev JSONMap := List (String × Value)

/-- The two-valued map index expression `val, ok := data[key]`. -/
def mapIndex (data : JSONMap) (key : String) : Option Value := data.lookup key

/-- Library functions the handlers call, whose implementation is outside the repository. -/
structure Lib where
  /-- Function `strconv.ParseFloat(v, 64)`; `none` when it returns an error. -/
  ParseFloat : String → Option Float64
  /-- The conversion `float64(v)` of an `int`. -/
  float64OfInt : Int → Float64
  /-- Function `json.Unmarshal` into a `map[string]interface{}`; the error text on failure. -/
  jsonUnmarshal : String → Except String JSONMap

/-! ## Paths (`path/filepath`, separator `/`) -/

/-- Library function `filepath.Ext` on the characters of a path, scanned from the end:
`revAcc` holds the characters already passed. -/
def extScan : List Char → List Char → List Char
  | [], _ => []
  | c :: rest, revAcc =>
    if c = '/' then []
    else if c = '.' then c :: revAcc
    else extScan rest (c :: revAcc)

/-- Library function `filepath.Ext`: the suffix beginning at the final dot of the final
element of the path, empty when there is none. -/
def filepathExt (path : String) : String := String.mk (extScan path.toList.reverse [])

/-- Split a list of characters at every `/`. -/
def splitSlash : List Char → List (List Char)
  | [] => [[]]
  | c :: cs =>
    match splitSlash cs with
    | [] => [[c]]
    | e :: es => if c = '/' then [] :: e :: es else (c :: e) :: es

/-- One step of `filepath.Clean` over the elements of a path; `out` is the stack of the
elements kept so far, last one first. -/
def cleanStep (rooted : Bool) (out : List (List Char)) (e : List Char) : List (List Char) :=
  if e = [] ∨ e = ['.'] then out
  else if e = ['.', '.'] then
    match out with
    | top :: below => if top = ['.', '.'] then e :: out else below
    | [] => if rooted then [] else [e]
  else e :: out

/-- Join path elements with `/`. -/
def joinSlash : List (List Char) → List Char
  | [] => []
  | [e] => e
  | e :: es => e ++ '/' :: joinSlash es

/-- Library function `filepath.Clean`. -/
def filepathClean (path : String) : String :=
  match path.toList with
  | [] => "."
  | c :: cs =>
    let rooted : Bool := c = '/'
    let kept := ((splitSlash (c :: cs)).foldl (cleanStep rooted) []).reverse
    let body := joinSlash kept
    if rooted then String.mk ('/' :: body)
    else if body = [] then "." else String.mk body

/-- Library function `filepath.Join`: from the first non-empty element on, the elements are
joined by `/` and cleaned. -/
def filepathJoin : List String → String
  | [] => ""
  | e :: rest =>
    if e = "" then filepathJoin rest else filepathClean (String.intercalate "/" (e :: rest))

/-! ## Models (`models/user.go`) -/

structure OTPInfo where
  OTP : String
  ExpiresAt : Time
deriving DecidableEq, Repr

structure Location where
  City : String
  Country : String
  District : String
  Street : String
  PostalCode : String
  Lat : Float64
  Lng : Float64
  Allowed : Bool
deriving DecidableEq, Repr

structure Branch where
  ID : ObjectID
  Name : String
  Location : String
  Latitude : Float64
  Longitude : Float64
  Category : String
  SubCategory : String
  Phone : String
  Description : String
  Images : List String
  Rate : Float64
  CreatedAt : Time
  UpdatedAt : Time
deriving DecidableEq, Repr

structure Detail where
  Phone : String
  WhatsApp : String
  Website : String
  Facebook : String
  Instagram : String
deriving DecidableEq, Repr

structure CompanyInfo where
  Name : String
  Category : String
  CustomCategory : String
  Logo : String
  SubCategory : String
  Branches : List Branch
  Details : List Detail
deriving DecidableEq, Repr

structure WholesalerInfo where
  BusinessName : String
  Category : String
  ReferralCode : String
deriving DecidableEq, Repr

structure ServiceProviderInfo where
  ServiceType : String
  CustomServiceType : String
  YearsExperience : Int
  ProfilePhoto : String
  AvailableHours : List String
  AvailableDays : List String
deriving DecidableEq, Repr

structure User where
  ID : ObjectID
  Email : String
  Password : String
  FullName : String
  UserType : String
  DateOfBirth : String
  Gender : String
  Phone : String
  ReferralCode : String
  InterestedDeals : List String
  Location : Option Location
  CompanyInfo : Option CompanyInfo
  ServiceProviderInfo : Option ServiceProviderInfo
  WholesalerInfo : Option WholesalerInfo
  LogoPath : String
  OTPInfo : Option OTPInfo
  ResetPasswordToken : String
  ResetTokenExpiresAt : Time
  GoogleUID : String
  ProfilePic : String
  CreatedAt : Time
  UpdatedAt : Time
deriving DecidableEq, Repr

/-- The zero value `models.Branch{}`. -/
def Branch.zero : Branch :=
  { ID := NilObjectID, Name := "", Location := "", Latitude := Float64.zero,
    Longitude := Float64.zero, Category := "", SubCategory := "", Phone := "",
    Description := "", Images := [], Rate := Float64.zero, CreatedAt := 0, UpdatedAt := 0 }

/-- The zero value `models.CompanyInfo{}`. -/
def CompanyInfo.zero : CompanyInfo :=
  { Name := "", Category := "", CustomCategory := "", Logo := "", SubCategory := "",
    Branches := [], Details := [] }

/-- The zero value `models.User{}`. -/
def User.zero : User :=
  { ID := NilObjectID, Email := "", Password := "", FullName := "", UserType := "",
    DateOfBirth := "", Gender := "", Phone := "", ReferralCode := "", InterestedDeals := [],
    Location := none, CompanyInfo := none, ServiceProviderInfo := none, WholesalerInfo := none,
    LogoPath := "", OTPInfo := none, ResetPasswordToken := "", ResetTokenExpiresAt := 0,
    GoogleUID := "", ProfilePic := "", CreatedAt := 0, UpdatedAt := 0 }

/-- The branch sequence of an account: `user.CompanyInfo.Branches`, empty without a
`CompanyInfo`. -/
def User.branches (u : User) : List Branch :=
  match u.CompanyInfo with
  | some ci => ci.Branches
  | none => []

/-- The map a branch handler returns as `Data`. -/
structure BranchData where
  _id : String
  name : String
  location : String
  latitude : Float64
  longitude : Float64
  images : List String
  Phone : String
  Category : String
  SubCategory : String
  Description : String
deriving DecidableEq, Repr

/-- The `Data interface{}` of a response, for the handlers embedded here. -/
inductive ResponseData where
  | none
  | branch (d : BranchData)
  | branches (bs : List Branch)
  | signup (token : String) (id : ObjectID) (email fullName userType logoPath : String)
  | login (token : String) (id : ObjectID) (email fullName userType : String)
deriving DecidableEq, Repr

/-- The envelope `models.Response`. -/
structure Response where
  Status : Nat
  Message : String
  Data : ResponseData
deriving DecidableEq, Repr

/-- What `c.JSON(code, body)` sends. -/
structure HTTPResponse where
  code : Nat
  body : Response
deriving DecidableEq, Repr

/-- Outcome of running Go code that may panic. -/
inductive GoResult (α : Type) where
  | value (a : α)
  | panic (msg : String)
deriving DecidableEq, Repr

def StatusOK : Nat := 200
def StatusCreated : Nat := 201
def StatusBadRequest : Nat := 400
def StatusUnauthorized : Nat := 401
def StatusForbidden : Nat := 403
def StatusNotFound : Nat := 404
def StatusConflict : Nat := 409
def StatusInternalServerError : Nat := 500

/-- What `c.JSON(status, models.Response{Status: status, Message: message, Data: data})`
sends when the encoder accepts the body. -/
def respond (status : Nat) (message : String) (data : ResponseData) : GoResult HTTPResponse :=
  .value { code := status, body := { Status := status, Message := message, Data := data } }

/-- Whether `encoding/json` rejects the float with an `UnsupportedValueError`: a NaN or an
infinity, the bit patterns whose exponent field is all ones. -/
def Float64.unsupported (f : Float64) : Bool := (f.bits / 2 ^ 52) % 2 ^ 11 == 2047

/-- Whether `encoding/json` encodes the data: every float in it is finite. -/
def ResponseData.encodable : ResponseData → Bool
  | .branch d => !d.latitude.unsupported && !d.longitude.unsupported
  | .branches bs =>
    bs.all (fun b => !b.Latitude.unsupported && !b.Longitude.unsupported && !b.Rate.unsupported)
  | _ => true

/-- What the client gets when a handler returns the error of `c.JSON`: the encoder failed
before anything was written, and the error handler of echo (`main.go` installs no other)
answers 500.  The envelope stands for echo's body, whose only key is `message`. -/
def encodeFailure : GoResult HTTPResponse :=
  .value { code := StatusInternalServerError,
           body := { Status := StatusInternalServerError, Message := "Internal Server Error",
                     Data := .none } }

/-- The statement `return c.JSON(status, models.Response{...})` for data that may hold a
float: the body is sent when the encoder accepts it, otherwise the encoder error is
returned. -/
def cJSON (status : Nat) (message : String) (data : ResponseData) : GoResult HTTPResponse :=
  if data.encodable then respond status message data else encodeFailure

/-! ## Claims (`middleware/jwt_middleware.go`) -/

/-- The embedded `jwt.StandardClaims`. -/
structure StandardClaims where
  Audience : String
  ExpiresAt : Int
  Id : String
  IssuedAt : Int
  Issuer : String
  NotBefore : Int
  Subject : String
deriving DecidableEq, Repr

structure JwtCustomClaims where
  UserID : String
  Email : String
  UserType : String
  Standard : StandardClaims
deriving DecidableEq, Repr

/-- The zero value `jwt.StandardClaims{}`. -/
def StandardClaims.zero : StandardClaims :=
  { Audience := "", ExpiresAt := 0, Id := "", IssuedAt := 0, Issuer := "", NotBefore := 0,
    Subject := "" }

/-- The dynamic type of `token.Claims`. -/
inductive Claims where
  | custom (c : JwtCustomClaims)
  | map (m : JSONMap)
  | other

/-- What `c.Get("user")` holds: nothing that is a `*jwt.Token`, a nil `*jwt.Token`, or a
token with its claims. -/
inductive ContextUser where
  | missing
  | nilToken
  | token (claims : Claims)

/-- The type assertion `m[key].(string)`, which panics on a missing or non-string value. -/
def assertString (m : JSONMap) (key : String) : GoResult String :=
  match mapIndex m key with
  | some (.str s) => .value s
  | _ => .panic "interface conversion: interface {} is not string"

/-- Function `GetUserFromToken`; the result `none` is the nil pointer it returns for claims
of any other type. -/
def GetUserFromToken (user : ContextUser) : GoResult (Option JwtCustomClaims) :=
  match user with
  | .missing => .panic "interface conversion: interface {} is not *jwt.Token"
  | .nilToken => .panic "invalid memory address or nil pointer dereference"
  | .token (.custom claims) => .value (some claims)
  | .token (.map mapClaims) =>
    match assertString mapClaims "userId" with
    | .panic msg => .panic msg
    | .value userId =>
      match assertString mapClaims "userType" with
      | .panic msg => .panic msg
      | .value userType =>
        .value (some { UserID := userId, Email := "", UserType := userType,
                       Standard := StandardClaims.zero })
  | .token .other => .value none

/-! ## The outside world -/

/-- One operation on the file system. -/
inductive FSEvent where
  | mkdirAll (dir : String)
  | create (path : String)
  | write (path : String)
  | remove (path : String) (ok : Bool)
deriving DecidableEq, Repr

/-- The `users` collection and the log of file-system operations, oldest first. -/
structure World where
  users : List User
  fs : List FSEvent
deriving DecidableEq, Repr

/-- The paths `os.Remove` was called on, in order. -/
def removeAttempts : List FSEvent → List String
  | [] => []
  | .remove path _ :: rest => path :: removeAttempts rest
  | _ :: rest => removeAttempts rest

/-- What one request draws from its environment. -/
structure Env where
  /-- The result of `primitive.NewObjectID()`. -/
  newObjectID : ObjectID
  /-- The result of the `k`-th call of `time.Now()`. -/
  now : Nat → Time
  /-- The result of `uuid.New().String()` for the `i`-th uploaded file. -/
  uuid : Nat → String
  /-- Whether `file.Open()` fails for the `i`-th uploaded file. -/
  openErr : Nat → Bool
  /-- Whether `os.Create` fails for the `i`-th uploaded file. -/
  createErr : Nat → Bool
  /-- Whether `io.Copy` fails for the `i`-th uploaded file. -/
  copyErr : Nat → Bool
  /-- Whether the `i`-th call of `os.Remove` fails. -/
  removeErr : Nat → Bool
  /-- The error of `FindOne`, when it fails otherwise than with `ErrNoDocuments`. -/
  findErr : Option String
  /-- The error of the `$pull` update, when it fails. -/
  pullErr : Option String
  /-- The error of the `$push` update, when it fails. -/
  pushErr : Option String

/-- An uploaded file part, `*multipart.FileHeader`. -/
structure FileHeader where
  Filename : String
deriving DecidableEq, Repr

/-- The parsed form `*multipart.Form`. -/
structure MultipartForm where
  /-- The values `form.Value["data"]`. -/
  data : List String
  /-- The parts `form.File["images"]`. -/
  images : List FileHeader

/-- What a handler reads from the `echo.Context`. -/
structure Request where
  /-- The value `c.Get("user")`. -/
  user : ContextUser
  /-- The value `c.Param("id")`. -/
  paramID : String
  /-- The value `c.QueryParam("companyId")`. -/
  queryCompanyId : String
  /-- The result of `c.MultipartForm()`. -/
  form : Except String MultipartForm

/-! ## Store operations (MongoDB) -/

/-- The filter `{"_id": id}`. -/
def User.hasID (id : ObjectID) (u : User) : Bool := u.ID == id

/-- Whether a stored branch matches `{"_id": id}`.  The field is tagged `bson:"_id,omitempty"`,
so a branch with the zero ObjectID is stored without `_id` and matches no identifier. -/
def Branch.matchesID (id : ObjectID) (b : Branch) : Bool := b.ID != NilObjectID && b.ID == id

/-- The filter `{"_id": userID, "companyInfo.branches._id": branchID}`. -/
def User.hasBranch (userID branchID : ObjectID) (u : User) : Bool :=
  u.ID == userID && u.branches.any (Branch.matchesID branchID)

/-- Method `collection.FindOne(filter)`: the first document that matches, `none` for
`mongo.ErrNoDocuments`. -/
def FindOne (users : List User) (filter : User → Bool) : Option User := users.find? filter

/-- The update `{"$push": {"companyInfo.branches": branch}}` on one document; a missing
`companyInfo` is created. -/
def pushBranch (branch : Branch) (u : User) : User :=
  match u.CompanyInfo with
  | some ci => { u with CompanyInfo := some { ci with Branches := ci.Branches ++ [branch] } }
  | none => { u with CompanyInfo := some { CompanyInfo.zero with Branches := [branch] } }

/-- The update `{"$pull": {"companyInfo.branches": {"_id": branchID}}}` on one document. -/
def pullBranch (branchID : ObjectID) (u : User) : User :=
  match u.CompanyInfo with
  | some ci =>
    let kept := ci.Branches.filter (fun b => !Branch.matchesID branchID b)
    { u with CompanyInfo := some { ci with Branches := kept } }
  | none => u

/-- The documents after `collection.UpdateByID(id, update)`: the first document with that
`_id` is updated, the others are untouched. -/
def updateDocs (users : List User) (id : ObjectID) (update : User → User) : List User :=
  match users with
  | [] => []
  | u :: rest => if u.hasID id then update u :: rest else u :: updateDocs rest id update

/-- The `result.ModifiedCount` of `collection.UpdateByID(id, update)`. -/
def modifiedCount (users : List User) (id : ObjectID) (update : User → User) : Nat :=
  match FindOne users (User.hasID id) with
  | some u => if update u = u then 0 else 1
  | none => 0

/-! ## Helpers of `controllers/company_controller.go` -/

/-- Function `getString`: the string stored under `key`, or the default. -/
def getString (data : JSONMap) (key defaultValue : String) : String :=
  match mapIndex data key with
  | some (.str str) => str
  | _ => defaultValue

/-- The type switch on a coordinate `switch v := lat.(type)`: the new value of a field that
currently holds `field`. -/
def coordinateSwitch (lib : Lib) (v : Value) (field : Float64) : Float64 :=
  match v with
  | .float64 f => f
  | .int i => lib.float64OfInt i
  | .str s =>
    match lib.ParseFloat s with
    | some f => f
    | none => field
  | _ => field

/-- The coordinate block of `CreateBranch`: the field keeps its zero value unless the key is
present and not nil. -/
def createCoordinate (lib : Lib) (branchData : JSONMap) (key : String) : Float64 :=
  match mapIndex branchData key with
  | none => Float64.zero
  | some .null => Float64.zero
  | some v => coordinateSwitch lib v Float64.zero

/-- The coordinate block of `UpdateBranch`: the `else` arm copies the existing value, the
switch works on the zero value of the fresh struct. -/
def updateCoordinate (lib : Lib) (branchData : JSONMap) (key : String) (existing : Float64) :
    Float64 :=
  match mapIndex branchData key with
  | none => existing
  | some .null => existing
  | some v => coordinateSwitch lib v Float64.zero

/-- The path an uploaded file is saved under: `filepath.Join("uploads", uuid + ext)`. -/
def uploadPath (env : Env) (i : Nat) (file : FileHeader) : String :=
  filepathJoin ["uploads", env.uuid i ++ filepathExt file.Filename]

/-- The upload loop, its result: the paths appended to `imagePaths`, from file number `i` on. -/
def savedPaths (env : Env) : List FileHeader → Nat → List String
  | [], _ => []
  | file :: rest, i =>
    if env.openErr i ∨ env.createErr i ∨ env.copyErr i then savedPaths env rest (i + 1)
    else uploadPath env i file :: savedPaths env rest (i + 1)

/-- The upload loop, its effects on the file system, from file number `i` on. -/
def saveEvents (env : Env) : List FileHeader → Nat → List FSEvent
  | [], _ => []
  | file :: rest, i =>
    if env.openErr i then .mkdirAll "uploads" :: saveEvents env rest (i + 1)
    else if env.createErr i then .mkdirAll "uploads" :: saveEvents env rest (i + 1)
    else if env.copyErr i then
      .mkdirAll "uploads" :: .create (uploadPath env i file) :: saveEvents env rest (i + 1)
    else
      .mkdirAll "uploads" :: .create (uploadPath env i file) :: .write (uploadPath env i file)
        :: saveEvents env rest (i + 1)

/-- The loop over `os.Remove`, from call number `i` on: every path is tried, a failure is
only logged. -/
def removeEvents (env : Env) : List String → Nat → List FSEvent
  | [], _ => []
  | path :: rest, i => .remove path (!env.removeErr i) :: removeEvents env rest (i + 1)

/-- The loop `for _, branch := range user.CompanyInfo.Branches` with its `break`: the first
branch whose ID is `branchObjectID`. -/
def findBranch (user : User) (branchObjectID : ObjectID) : Option Branch :=
  user.branches.find? (fun branch => branch.ID == branchObjectID)

/-- The `Data` map of the create and update responses. -/
def branchData (branch : Branch) : ResponseData :=
  .branch { _id := ObjectID.Hex branch.ID, name := branch.Name, location := branch.Location,
            latitude := branch.Latitude, longitude := branch.Longitude,
            images := branch.Images, Phone := branch.Phone, Category := branch.Category,
            SubCategory := branch.SubCategory, Description := branch.Description }

/-- The panic of `claims.UserID` on the nil pointer `GetUserFromToken` may return. -/
def nilDereference : String := "invalid memory address or nil pointer dereference"

/-! ## Handlers -/

/-- The branch object `CreateBranch` builds from the payload and the saved images. -/
def newBranch (lib : Lib) (env : Env) (payload : JSONMap) (imagePaths : List String) : Branch :=
  { ID := env.newObjectID,
    Name := getString payload "name" "",
    Location := getString payload "location" "",
    Phone := getString payload "phone" "",
    Category := getString payload "category" "",
    SubCategory := getString payload "subCategory" "",
    Description := getString payload "description" "",
    Images := imagePaths,
    Rate := Float64.zero,
    CreatedAt := env.now 0,
    UpdatedAt := env.now 1,
    Latitude := createCoordinate lib payload "latitude",
    Longitude := createCoordinate lib payload "longitude" }

/-- Handler `CompanyController.CreateBranch`. -/
def CreateBranch (lib : Lib) (env : Env) (req : Request) (w : World) :
    World × GoResult HTTPResponse :=
  match GetUserFromToken req.user with
  | .panic msg => (w, .panic msg)
  | .value none => (w, .panic nilDereference)
  | .value (some claims) =>
  match ObjectIDFromHex claims.UserID with
  | none => (w, respond StatusBadRequest "Invalid user ID" .none)
  | some userID =>
  match req.form with
  | .error err => (w, respond StatusBadRequest ("Failed to parse form data: " ++ err) .none)
  | .ok form =>
  match form.data with
  | [] => (w, respond StatusBadRequest "Branch data is required" .none)
  | data0 :: _ =>
  match lib.jsonUnmarshal data0 with
  | .error err => (w, respond StatusBadRequest ("Invalid branch data format: " ++ err) .none)
  | .ok payload =>
    let imagePaths := savedPaths env form.images 0
    let w1 : World := { w with fs := w.fs ++ saveEvents env form.images 0 }
    let branch := newBranch lib env payload imagePaths
    match env.pushErr with
    | some err => (w1, respond StatusInternalServerError ("Failed to save branch: " ++ err) .none)
    | none =>
      ({ w1 with users := updateDocs w1.users userID (pushBranch branch) },
        cJSON StatusOK "Branch created successfully" (branchData branch))

/-- Handler `CompanyController.DeleteBranch`. -/
def DeleteBranch (env : Env) (req : Request) (w : World) : World × GoResult HTTPResponse :=
  match GetUserFromToken req.user with
  | .panic msg => (w, .panic msg)
  | .value none => (w, .panic nilDereference)
  | .value (some claims) =>
  match ObjectIDFromHex claims.UserID with
  | none => (w, respond StatusBadRequest "Invalid user ID" .none)
  | some userID =>
  if req.paramID = "" then (w, respond StatusBadRequest "Branch ID is required" .none) else
  match ObjectIDFromHex req.paramID with
  | none => (w, respond StatusBadRequest "Invalid branch ID format" .none)
  | some branchObjectID =>
  match env.findErr with
  | some err => (w, respond StatusInternalServerError ("Failed to find branch: " ++ err) .none)
  | none =>
  match FindOne w.users (User.hasBranch userID branchObjectID) with
  | none => (w, respond StatusNotFound "Branch not found" .none)
  | some user =>
    let imagesToDelete : List String :=
      match findBranch user branchObjectID with
      | some branch => branch.Images
      | none => []
    match env.pullErr with
    | some err =>
      (w, respond StatusInternalServerError ("Failed to delete branch: " ++ err) .none)
    | none =>
      let w1 : World := { w with users := updateDocs w.users userID (pullBranch branchObjectID) }
      if modifiedCount w.users userID (pullBranch branchObjectID) = 0 then
        (w1, respond StatusNotFound "Branch not found or already deleted" .none)
      else
        ({ w1 with fs := w1.fs ++ removeEvents env imagesToDelete 0 },
          respond StatusOK "Branch deleted successfully" .none)

/-- The branch object `UpdateBranch` rebuilds from the payload, the existing branch and the
final image paths. -/
def updatedBranch (lib : Lib) (env : Env) (branchObjectID : ObjectID) (payload : JSONMap)
    (existingBranch : Branch) (finalImagePaths : List String) : Branch :=
  { ID := branchObjectID,
    Name := getString payload "name" existingBranch.Name,
    Location := getString payload "location" existingBranch.Location,
    Phone := getString payload "phone" existingBranch.Phone,
    Category := getString payload "category" existingBranch.Category,
    SubCategory := getString payload "subCategory" existingBranch.SubCategory,
    Description := getString payload "description" existingBranch.Description,
    Images := finalImagePaths,
    Rate := Float64.zero,
    CreatedAt := existingBranch.CreatedAt,
    UpdatedAt := env.now 0,
    Latitude := updateCoordinate lib payload "latitude" existingBranch.Latitude,
    Longitude := updateCoordinate lib payload "longitude" existingBranch.Longitude }

/-- Handler `CompanyController.UpdateBranch`. -/
def UpdateBranch (lib : Lib) (env : Env) (req : Request) (w : World) :
    World × GoResult HTTPResponse :=
  match GetUserFromToken req.user with
  | .panic msg => (w, .panic msg)
  | .value none => (w, .panic nilDereference)
  | .value (some claims) =>
  match ObjectIDFromHex claims.UserID with
  | none => (w, respond StatusBadRequest "Invalid user ID" .none)
  | some userID =>
  if req.paramID = "" then (w, respond StatusBadRequest "Branch ID is required" .none) else
  match ObjectIDFromHex req.paramID with
  | none => (w, respond StatusBadRequest "Invalid branch ID format" .none)
  | some branchObjectID =>
  match req.form with
  | .error err => (w, respond StatusBadRequest ("Failed to parse form data: " ++ err) .none)
  | .ok form =>
  match form.data with
  | [] => (w, respond StatusBadRequest "Branch data is required" .none)
  | data0 :: _ =>
  match lib.jsonUnmarshal data0 with
  | .error err => (w, respond StatusBadRequest ("Invalid branch data format: " ++ err) .none)
  | .ok payload =>
  match env.findErr with
  | some err => (w, respond StatusInternalServerError ("Failed to find branch: " ++ err) .none)
  | none =>
  match FindOne w.users (User.hasBranch userID branchObjectID) with
  | none => (w, respond StatusNotFound "Branch not found" .none)
  | some user =>
    let existingBranch : Branch := (findBranch user branchObjectID).getD Branch.zero
    let existingImagePaths : List String :=
      match findBranch user branchObjectID with
      | some branch => branch.Images
      | none => []
    let newImagePaths := savedPaths env form.images 0
    let finalImagePaths := if newImagePaths.length > 0 then newImagePaths else existingImagePaths
    let removals : List FSEvent :=
      if newImagePaths.length > 0 then removeEvents env existingImagePaths 0 else []
    let w1 : World := { w with fs := w.fs ++ saveEvents env form.images 0 ++ removals }
    let branch := updatedBranch lib env branchObjectID payload existingBranch finalImagePaths
    match env.pullErr with
    | some err =>
      (w1, respond StatusInternalServerError ("Failed to update branch: " ++ err) .none)
    | none =>
      let w2 : World := { w1 with users := updateDocs w1.users userID (pullBranch branchObjectID) }
      match env.pushErr with
      | some err =>
        (w2, respond StatusInternalServerError ("Failed to update branch: " ++ err) .none)
      | none =>
        ({ w2 with users := updateDocs w2.users userID (pushBranch branch) },
          cJSON StatusOK "Branch updated successfully" (branchData branch))

/-! ## Vocabulary of the statements -/

/-- The caller's subject ID: the ObjectID the handlers parse out of the token claims. -/
def callerID (req : Request) : Option ObjectID :=
  match GetUserFromToken req.user with
  | .value (some claims) => ObjectIDFromHex claims.UserID
  | _ => none

/-- The payload a branch handler decodes from the first `data` value of the form. -/
def decodedPayload (lib : Lib) (req : Request) : Option JSONMap :=
  match req.form with
  | .ok form =>
    match form.data with
    | data0 :: _ =>
      match lib.jsonUnmarshal data0 with
      | .ok payload => some payload
      | .error _ => none
    | [] => none
  | .error _ => none

/-- The file parts `images` of the request, none when the form does not parse. -/
def uploads (req : Request) : List FileHeader :=
  match req.form with
  | .ok form => form.images
  | .error _ => []

/-- The branch sequence of the account with the given `_id`, when that account exists. -/
def ownerBranches (w : World) (userID : ObjectID) : Option (List Branch) :=
  (FindOne w.users (User.hasID userID)).map User.branches

/-- Coordinate coercion in the words of the specification: a number is taken as it is, a
string that parses as a number is the parsed number, anything else (an unparsable string, an
absent key, null) is zero. -/
def coerce (lib : Lib) (v : Option Value) : Float64 :=
  match v with
  | some (.float64 f) => f
  | some (.int i) => lib.float64OfInt i
  | some (.str s) => (lib.ParseFloat s).getD Float64.zero
  | _ => Float64.zero

/-- The image sequence `UpdateBranch` settles on: the newly saved paths when there are any,
the existing ones otherwise. -/
def finalImagePaths (env : Env) (files : List FileHeader) (existing : List String) :
    List String :=
  if (savedPaths env files 0).length > 0 then savedPaths env files 0 else existing

/-- The file-system operations of `UpdateBranch`: the uploads, then the removal of the old
images when a new one was saved. -/
def updateEvents (env : Env) (files : List FileHeader) (existing : List String) :
    List FSEvent :=
  saveEvents env files 0
    ++ (if (savedPaths env files 0).length > 0 then removeEvents env existing 0 else [])

/-- The branch `UpdateBranch` stores for the existing branch `b`. -/
def rebuiltBranch (lib : Lib) (env : Env) (req : Request) (branchID : ObjectID)
    (payload : JSONMap) (b : Branch) : Branch :=
  updatedBranch lib env branchID payload b (finalImagePaths env (uploads req) b.Images)

/-- The branch `CreateBranch` stores. -/
def createdBranch (lib : Lib) (env : Env) (req : Request) (payload : JSONMap) : Branch :=
  newBranch lib env payload (savedPaths env (uploads req) 0)

/-- The branch with the given ID in the stored sequence of the account `userID`. -/
def storedBranch (w : World) (userID branchID : ObjectID) : Option Branch :=
  (FindOne w.users (User.hasID userID)).bind (fun u => findBranch u branchID)

/-! ## Sample data of the worked examples -/

/-- The library functions, tabulated on the inputs the examples use: `33.8` and `33` are the
`float64` values `0x4040e66666666666` and `0x4040800000000000`. -/
def sampleLib : Lib :=
  { ParseFloat := fun s => if s = "33.8" then some ⟨0x4040e66666666666⟩ else none,
    float64OfInt := fun i => if i = 33 then ⟨0x4040800000000000⟩ else Float64.zero,
    jsonUnmarshal := fun s =>
      if s = "\x7b\"name\":\"X\"\x7d" then .ok [("name", .str "X")]
      else if s = "\x7b\"name\":\"Main\",\"latitude\":\"33.8\",\"longitude\":33\x7d" then
        .ok [("name", .str "Main"), ("latitude", .str "33.8"),
             ("longitude", .float64 ⟨0x4040800000000000⟩)]
      else .error "invalid character" }

/-- An environment in which no store call fails and the first `os.Remove` fails. -/
def sampleEnv : Env :=
  { newObjectID := 3,
    now := fun k => 2000 + k,
    uuid := fun _ => "123e4567-e89b-12d3-a456-426614174000",
    openErr := fun _ => false,
    createErr := fun _ => false,
    copyErr := fun _ => false,
    removeErr := fun i => i == 0,
    findErr := none,
    pullErr := none,
    pushErr := none }

/-- The token of the account with `_id` 1, as map claims. -/
def sampleCaller : ContextUser :=
  .token (.map [("userId", .str "000000000000000000000001"), ("userType", .str "company")])

/-- A branch with `_id` 2, latitude 33.9, longitude 35.5, rating 4.5 and two images. -/
def sampleBranch : Branch :=
  { Branch.zero with
    ID := 2, Name := "Main", Latitude := ⟨0x4040f33333333333⟩,
    Longitude := ⟨0x4041c00000000000⟩, Images := ["uploads/a.png", "uploads/b.png"],
    Rate := ⟨0x4012000000000000⟩, CreatedAt := 1000, UpdatedAt := 1000 }

/-- A company account with `_id` 1 that owns `sampleBranch`. -/
def sampleOwner : User :=
  { User.zero with
    ID := 1, Email := "a@x.com", UserType := "company",
    CompanyInfo := some { CompanyInfo.zero with Name := "Acme", Branches := [sampleBranch] } }

/-- A collection holding `sampleOwner` only, and an empty file-system log. -/
def sampleWorld : World := { users := [sampleOwner], fs := [] }

/-- The update of branch 2 with the payload `name: "X"` and no image. -/
def sampleUpdate : Request :=
  { user := sampleCaller, paramID := "000000000000000000000002", queryCompanyId := "",
    form := .ok { data := ["\x7b\"name\":\"X\"\x7d"], images := [] } }

/-- The creation of a branch `name: "Main", latitude: "33.8", longitude: 33` with no image. -/
def sampleCreate : Request :=
  { user := sampleCaller, paramID := "", queryCompanyId := "",
    form := .ok
      { data := ["\x7b\"name\":\"Main\",\"latitude\":\"33.8\",\"longitude\":33\x7d"],
        images := [] } }

/-- A company account with `_id` 1 and no `CompanyInfo` yet, created with email `a@x.com`. -/
def sampleNewOwner : User :=
  { User.zero with ID := 1, Email := "a@x.com", UserType := "company" }

/-- A collection holding `sampleNewOwner` only. -/
def sampleNewWorld : World := { users := [sampleNewOwner], fs := [] }

/-- A collection without any account. -/
def emptyWorld : World := { users := [], fs := [] }

/-- The deletion of branch 2 by the account with `_id` 1. -/
def sampleDelete : Request :=
  { user := sampleCaller, paramID := "000000000000000000000002", queryCompanyId := "",
    form := .error "no form" }

/-- The mutation of branch 9, which no account owns, with the payload `name: "X"`. -/
def sampleAbsent : Request :=
  { user := sampleCaller, paramID := "000000000000000000000009", queryCompanyId := "",
    form := .ok { data := ["\x7b\"name\":\"X\"\x7d"], images := [] } }

/-- A second company account, with `_id` 4, that owns a branch with `_id` 5. -/
def sampleOther : User :=
  { User.zero with
    ID := 4, Email := "b@x.com", UserType := "company",
    CompanyInfo := some
      { CompanyInfo.zero with
        Name := "Bolt", Branches := [{ Branch.zero with ID := 5, Name := "Depot" }] } }

/-- A collection holding `sampleOwner` and `sampleOther`. -/
def sampleTwoWorld : World := { users := [sampleOwner, sampleOther], fs := [] }

/-- The update, by the account with `_id` 1, of branch 5, which account 4 owns. -/
def sampleForeign : Request :=
  { user := sampleCaller, paramID := "000000000000000000000005", queryCompanyId := "",
    form := .ok { data := ["\x7b\"name\":\"X\"\x7d"], images := [] } }

/-- Function `ExtractUserID`: the subject ID of map claims, `userId` first and `id` as the
fallback; `Except.error` carries the text of the returned error. -/
def ExtractUserID (user : ContextUser) : GoResult (Except String String) :=
  match user with
  | .missing => .panic "interface conversion: interface {} is nil, not *jwt.Token"
  | .nilToken => .value (.error "invalid token")
  | .token (.map claims) =>
    match mapIndex claims "userId" with
    | some (.str userID) => .value (.ok userID)
    | _ =>
      match mapIndex claims "id" with
      | some (.str userID) => .value (.ok userID)
      | _ => .value (.error "invalid user ID in token")
  | .token _ => .panic "interface conversion: jwt.Claims is not jwt.MapClaims"

/-- The typed-struct payload that carries a subject ID, an email and a role. -/
def typedPayload (subjectID email role : String) (std : StandardClaims) : ContextUser :=
  .token (.custom { UserID := subjectID, Email := email, UserType := role, Standard := std })

/-- The generic map payload with the keys `userId`, `email` and `userType`. -/
def mapPayload (subjectID email role : String) : ContextUser :=
  .token (.map [("userId", .str subjectID), ("email", .str email), ("userType", .str role)])

/-- The triple `(subjectID, email, role)` of normalised claims. -/
def JwtCustomClaims.triple (c : JwtCustomClaims) : String × String × String :=
  (c.UserID, c.Email, c.UserType)

/-! ## Session issuer and account directory
(`middleware/jwt_middleware.go`, `controllers/auth_controller.go`) -/

structure LoginRequest where
  Email : String
  Password : String
deriving DecidableEq, Repr

structure SignupRequest where
  Email : String
  Password : String
  FullName : String
  UserType : String
  DateOfBirth : String
  Gender : String
  Phone : String
  ReferralCode : String
  InterestedDeals : List String
  Location : Option Location
  CompanyInfo : Option CompanyInfo
  ServiceProviderInfo : Option ServiceProviderInfo
  WholesalerInfo : Option WholesalerInfo
deriving DecidableEq, Repr

/-- The zero value `models.SignupRequest{}`. -/
def SignupRequest.zero : SignupRequest :=
  { Email := "", Password := "", FullName := "", UserType := "", DateOfBirth := "",
    Gender := "", Phone := "", ReferralCode := "", InterestedDeals := [], Location := none,
    CompanyInfo := none, ServiceProviderInfo := none, WholesalerInfo := none }

/-- Collaborators of the account handlers whose code is outside `src/`: the signing of the
`golang-jwt` library, the password hashing of the package `utils` (for the specification an
opaque `hash(secret) -> digest` and `verify(secret, digest) -> bool`) and the JSON decoding
of a signup payload. -/
structure AuthLib where
  /-- The call `jwt.NewWithClaims(jwt.SigningMethodHS256, claims).SignedString(key)`. -/
  SignedString : JwtCustomClaims → String → Except String String
  /-- Function `utils.HashPassword`. -/
  HashPassword : String → Except String String
  /-- Function `utils.CheckPassword(password, hash)`: `true` when it returns no error. -/
  CheckPassword : String → String → Bool
  /-- Function `json.Unmarshal` into a `models.SignupRequest`; the error text on failure. -/
  unmarshalSignup : String → Except String SignupRequest

/-- What one request of the account handlers draws from its environment. -/
structure AuthEnv where
  /-- The value `os.Getenv("JWT_SECRET")`, empty when the variable is not set. -/
  jwtSecret : String
  /-- The result of the `k`-th call of `time.Now()`, in seconds. -/
  now : Nat → Time
  /-- The result of `primitive.NewObjectID()` that names the logo file. -/
  logoObjectID : ObjectID
  /-- The `_id` the store gives the inserted document, `result.InsertedID`. -/
  insertedID : ObjectID
  /-- The error of `os.MkdirAll`, when it fails. -/
  mkdirErr : Option String
  /-- The error of `os.Create`, when it fails. -/
  createErr : Option String
  /-- The error of `io.Copy`, when it fails. -/
  copyErr : Option String
  /-- The error of `FindOne`, when it fails otherwise than with `ErrNoDocuments`. -/
  findErr : Option String
  /-- The error of `InsertOne`, when it fails. -/
  insertErr : Option String
  /-- The error of `UpdateOne`, when it fails. -/
  updateErr : Option String

/-- The method `Unix` of an instant: the time line counts seconds. -/
def unixSeconds (t : Time) : Int := t

/-- The method `Add(time.Hour * n)` of an instant. -/
def addHours (t : Time) (n : Int) : Time := t + 3600 * n

/-- Function `GenerateJWT`; `k` is the number of calls of `time.Now()` the request has made
before. -/
def GenerateJWT (lib : AuthLib) (env : AuthEnv) (k : Nat) (userID email userType : String) :
    Except String String :=
  let expiration := addHours (env.now k) 24
  let claims : JwtCustomClaims :=
    { UserID := userID, Email := email, UserType := userType,
      Standard := { StandardClaims.zero with
                    ExpiresAt := unixSeconds expiration,
                    IssuedAt := unixSeconds (env.now (k + 1)) } }
  lib.SignedString claims env.jwtSecret

/-- What `Signup` reads from the `echo.Context`. -/
structure SignupHTTP where
  /-- The header `Content-Type`. -/
  contentType : String
  /-- The error of `ParseMultipartForm`, when it fails. -/
  parseMultipartFormErr : Option String
  /-- The value `c.FormValue("data")`. -/
  dataField : String
  /-- The file part `logo`, when `FormFile("logo")` returns one without error. -/
  logo : Option FileHeader
  /-- The result of `c.Bind(&signupReq)` on the body. -/
  bind : Except String SignupRequest

/-- What `Login` reads from the `echo.Context`: the result of `c.Bind(&loginReq)`. -/
structure LoginHTTP where
  bind : Except String LoginRequest

/-- The test `contentType != "" && len(contentType) >= 9 && contentType[:9] == "multipart"`.
(Nine bytes that spell `multipart` are nine characters, so the test on characters accepts
the same strings.) -/
def isMultipart (contentType : String) : Bool :=
  contentType != "" && decide (contentType.length ≥ 9)
    && contentType.toList.take 9 == "multipart".toList

/-- The outcome of the first part of `Signup`, which reads the request: an early response, or
the payload and the path of the saved logo; both with the file operations done so far. -/
inductive SignupParse where
  | rejected (events : List FSEvent) (response : GoResult HTTPResponse)
  | parsed (signupReq : SignupRequest) (logoPath : String) (events : List FSEvent)

/-- The first part of `Signup`: the multipart form with its `data` field and its optional
logo file, or the plain body. -/
def parseSignup (lib : AuthLib) (env : AuthEnv) (req : SignupHTTP) : SignupParse :=
  if isMultipart req.contentType then
    match req.parseMultipartFormErr with
    | some err =>
      .rejected [] (respond StatusBadRequest ("Failed to parse multipart form: " ++ err) .none)
    | none =>
    if req.dataField = "" then
      .rejected [] (respond StatusBadRequest "Missing data field in multipart form" .none)
    else
    match lib.unmarshalSignup req.dataField with
    | .error err =>
      .rejected [] (respond StatusBadRequest ("Invalid JSON in data field: " ++ err) .none)
    | .ok signupReq =>
    match req.logo with
    | none => .parsed signupReq "" []
    | some fileHeader =>
      match env.mkdirErr with
      | some err =>
        .rejected []
          (respond StatusInternalServerError ("Failed to create uploads directory: " ++ err)
            .none)
      | none =>
      let fileExt := filepathExt fileHeader.Filename
      let newFilename := ObjectID.Hex env.logoObjectID ++ fileExt
      let logoPath := filepathJoin ["uploads", newFilename]
      match env.createErr with
      | some err =>
        .rejected [.mkdirAll "uploads"]
          (respond StatusInternalServerError ("Failed to create file: " ++ err) .none)
      | none =>
      match env.copyErr with
      | some err =>
        .rejected [.mkdirAll "uploads", .create logoPath]
          (respond StatusInternalServerError ("Failed to save file: " ++ err) .none)
      | none =>
        .parsed signupReq logoPath [.mkdirAll "uploads", .create logoPath, .write logoPath]
  else
    match req.bind with
    | .error _ => .rejected [] (respond StatusBadRequest "Invalid request body" .none)
    | .ok signupReq => .parsed signupReq "" []

/-- The map `validUserTypes` of `Signup`. -/
def validUserTypes : List (String × Bool) :=
  [("user", true), ("company", true), ("wholesaler", true), ("serviceProvider", true)]

/-- The index expression `validUserTypes[userType]`: `false` for a missing key. -/
def isValidUserType (userType : String) : Bool := (validUserTypes.lookup userType).getD false

/-- The filter `{"email": email}`. -/
def User.hasEmail (email : String) (u : User) : Bool := u.Email == email

/-- The test `err == nil` after `collection.FindOne(ctx, filter).Decode(&user)`. -/
def foundWithoutError (env : AuthEnv) (users : List User) (filter : User → Bool) : Bool :=
  env.findErr.isNone && (FindOne users filter).isSome

/-- The document `Signup` inserts, without its `_id`. -/
def newUser (env : AuthEnv) (signupReq : SignupRequest) (hashedPassword logoPath : String) :
    User :=
  { User.zero with
    Email := signupReq.Email,
    Password := hashedPassword,
    FullName := signupReq.FullName,
    UserType := signupReq.UserType,
    DateOfBirth := signupReq.DateOfBirth,
    Gender := signupReq.Gender,
    Phone := signupReq.Phone,
    ReferralCode := signupReq.ReferralCode,
    InterestedDeals := signupReq.InterestedDeals,
    Location := signupReq.Location,
    CompanyInfo := signupReq.CompanyInfo,
    ServiceProviderInfo := signupReq.ServiceProviderInfo,
    WholesalerInfo := signupReq.WholesalerInfo,
    LogoPath := logoPath,
    CreatedAt := env.now 0,
    UpdatedAt := env.now 0 }

/-- Method `collection.InsertOne(doc)` for a document without `_id`: the store adds the
document under the generated `_id`. -/
def insertDoc (users : List User) (id : ObjectID) (doc : User) : List User :=
  users ++ [{ doc with ID := id }]

/-- Handler `AuthController.Signup`. -/
def Signup (lib : AuthLib) (env : AuthEnv) (req : SignupHTTP) (w : World) :
    World × GoResult HTTPResponse :=
  match parseSignup lib env req with
  | .rejected events response => ({ w with fs := w.fs ++ events }, response)
  | .parsed signupReq logoPath events =>
  let w1 : World := { w with fs := w.fs ++ events }
  if signupReq.Email = "" ∨ signupReq.Password = "" ∨ signupReq.FullName = ""
      ∨ signupReq.UserType = "" then
    (w1, respond StatusBadRequest "Missing required fields" .none)
  else
  if !isValidUserType signupReq.UserType then
    (w1, respond StatusBadRequest "Invalid user type" .none)
  else
  if foundWithoutError env w1.users (User.hasEmail signupReq.Email) then
    (w1, respond StatusConflict "User with this email already exists" .none)
  else
  match lib.HashPassword signupReq.Password with
  | .error _ => (w1, respond StatusInternalServerError "Failed to hash password" .none)
  | .ok hashedPassword =>
  match env.insertErr with
  | some err =>
    (w1, respond StatusInternalServerError ("Failed to create user: " ++ err) .none)
  | none =>
  let w2 : World :=
    { w1 with users := insertDoc w1.users env.insertedID
                         (newUser env signupReq hashedPassword logoPath) }
  match GenerateJWT lib env 1 (ObjectID.Hex env.insertedID) signupReq.Email
      signupReq.UserType with
  | .error _ => (w2, respond StatusInternalServerError "Failed to generate token" .none)
  | .ok token =>
    (w2, respond StatusCreated "User created successfully"
      (.signup token env.insertedID signupReq.Email signupReq.FullName signupReq.UserType
        logoPath))

/-- Handler `AuthController.Login`. -/
def Login (lib : AuthLib) (env : AuthEnv) (req : LoginHTTP) (w : World) :
    World × GoResult HTTPResponse :=
  match req.bind with
  | .error _ => (w, respond StatusBadRequest "Invalid request body" .none)
  | .ok loginReq =>
  match env.findErr with
  | some _ => (w, respond StatusInternalServerError "Failed to find user" .none)
  | none =>
  match FindOne w.users (User.hasEmail loginReq.Email) with
  | none => (w, respond StatusUnauthorized "Invalid email or password" .none)
  | some user =>
  if !lib.CheckPassword loginReq.Password user.Password then
    (w, respond StatusUnauthorized "Invalid email or password" .none)
  else
  match GenerateJWT lib env 0 (ObjectID.Hex user.ID) user.Email user.UserType with
  | .error _ => (w, respond StatusInternalServerError "Failed to generate token" .none)
  | .ok token =>
    (w, respond StatusOK "Login successful"
      (.login token user.ID user.Email user.FullName user.UserType))

/-- The four required fields of a signup payload are non-empty and its role is one of the
four of the enumeration. -/
def validSignup (p : SignupRequest) : Bool :=
  p.Email != "" && p.Password != "" && p.FullName != ""
    && ["user", "company", "wholesaler", "serviceProvider"].contains p.UserType

/-- A stand-in for the collaborators in the examples: a signer that, like HMAC-SHA256, signs
with any key, the empty one included, and a hash that verifies. -/
def sampleAuthLib : AuthLib :=
  { SignedString := fun claims key =>
      .ok ("hs256." ++ claims.UserID ++ "." ++ claims.Email ++ "." ++ claims.UserType ++ "."
        ++ key),
    HashPassword := fun password => .ok ("bcrypt$" ++ password),
    CheckPassword := fun password hash => hash == "bcrypt$" ++ password,
    unmarshalSignup := fun _ => .error "unexpected end of JSON input" }

/-- An environment of the account handlers in which nothing fails and the secret is `s3cret`. -/
def sampleAuthEnv : AuthEnv :=
  { jwtSecret := "s3cret", now := fun k => 5000 + k, logoObjectID := 6, insertedID := 7,
    mkdirErr := none, createErr := none, copyErr := none, findErr := none, insertErr := none,
    updateErr := none }

/-- The environment of the examples without a signing secret. -/
def noSecretEnv : AuthEnv := { sampleAuthEnv with jwtSecret := "" }

/-- A valid signup payload for a plain user with the email `c@x.com`. -/
def sampleSignupRequest : SignupRequest :=
  { SignupRequest.zero with
    Email := "c@x.com", Password := "pw", FullName := "Cleo", UserType := "user" }

/-- A signup sent as a plain JSON body. -/
def sampleSignup (p : SignupRequest) : SignupHTTP :=
  { contentType := "application/json", parseMultipartFormErr := none, dataField := "",
    logo := none, bind := .ok p }

/-- A login sent as a JSON body. -/
def sampleLogin (email password : String) : LoginHTTP :=
  { bind := .ok { Email := email, Password := password } }

/-- A collection that already holds an account with the email `c@x.com`. -/
def sampleTakenWorld : World :=
  { users := [{ User.zero with ID := 8, Email := "c@x.com", Password := "bcrypt$old",
                               FullName := "Carl", UserType := "company" }],
    fs := [] }

/-! ## Profile update (`controllers/user_controller.go`) -/

/-- What `UpdateProfile` reads from the `echo.Context`. -/
structure ProfileHTTP where
  /-- The value `c.Get("user")`. -/
  user : ContextUser
  /-- The result of `c.Bind(&user)` on the body. -/
  bind : Except String User

/-- The `bson.M` under `$set` that `UpdateProfile` builds: one field for each key the handler
can assign, `none` while the key is not in the map. -/
structure ProfileUpdate where
  updatedAt : Time
  fullname : Option String
  gender : Option String
  dateOfBirth : Option String
  companyInfo : Option CompanyInfo
  location : Option Location
  serviceProviderInfo : Option ServiceProviderInfo
deriving DecidableEq, Repr

/-- The decoded document after `{"$set": update}`.  The keys `updatedAt`, `gender`,
`dateOfBirth`, `companyInfo`, `location` and `serviceProviderInfo` are the bson tags of the
fields they replace.  The key `fullname` is the tag of no field of `models.User` (the tag of
`FullName` is `fullName`), so the field it adds to the document is not read by decoding and
`FullName` keeps its value. -/
def applyProfileUpdate (update : ProfileUpdate) (u : User) : User :=
  { u with
    UpdatedAt := update.updatedAt,
    Gender := update.gender.getD u.Gender,
    DateOfBirth := update.dateOfBirth.getD u.DateOfBirth,
    CompanyInfo :=
      match update.companyInfo with
      | some ci => some ci
      | none => u.CompanyInfo,
    Location :=
      match update.location with
      | some l => some l
      | none => u.Location,
    ServiceProviderInfo :=
      match update.serviceProviderInfo with
      | some sp => some sp
      | none => u.ServiceProviderInfo }

/-- The first assignments of `UpdateProfile` to the update document, up to the first
`location`: none of them can end the request. -/
def profileFields (env : AuthEnv) (user : User) : ProfileUpdate :=
  let update : ProfileUpdate :=
    { updatedAt := env.now 0, fullname := none, gender := none, dateOfBirth := none,
      companyInfo := none, location := none, serviceProviderInfo := none }
  let update := if user.FullName ≠ "" then { update with fullname := some user.FullName }
    else update
  let update := if user.Gender ≠ "" then { update with gender := some user.Gender } else update
  let update := if user.DateOfBirth ≠ "" then
    { update with dateOfBirth := some user.DateOfBirth } else update
  let update :=
    match user.CompanyInfo with
    | some ci => { update with companyInfo := some ci }
    | none => update
  match user.Location with
  | some l => { update with location := some l }
  | none => update

/-- The part of `UpdateProfile` that builds the update document from the bound payload: the
document, or the early 400 response of one of its two checks. -/
def buildProfileUpdate (env : AuthEnv) (user : User) :
    Except (GoResult HTTPResponse) ProfileUpdate :=
  let update := profileFields env user
  let afterService : Except (GoResult HTTPResponse) ProfileUpdate :=
    match user.ServiceProviderInfo with
    | some sp =>
      if sp.ServiceType = "Other" ∧ sp.CustomServiceType = "" then
        .error (respond StatusBadRequest "Please specify your service type" .none)
      else .ok { update with serviceProviderInfo := some sp }
    | none => .ok update
  match afterService with
  | .error response => .error response
  | .ok update =>
    let afterCompany : Except (GoResult HTTPResponse) ProfileUpdate :=
      match user.CompanyInfo with
      | some ci =>
        if ci.Category = "Other" ∧ ci.Category = "" then
          .error (respond StatusBadRequest "Please specify your Category type" .none)
        else .ok { update with companyInfo := some ci }
      | none => .ok update
    match afterCompany with
    | .error response => .error response
    | .ok update =>
      match user.Location with
      | some l => .ok { update with location := some l }
      | none => .ok update

/-- Handler `UserController.UpdateProfile`. -/
def UpdateProfile (env : AuthEnv) (req : ProfileHTTP) (w : World) :
    World × GoResult HTTPResponse :=
  match GetUserFromToken req.user with
  | .panic msg => (w, .panic msg)
  | .value none => (w, .panic nilDereference)
  | .value (some claims) =>
  match ObjectIDFromHex claims.UserID with
  | none => (w, respond StatusBadRequest "Invalid user ID" .none)
  | some userID =>
  match req.bind with
  | .error _ => (w, respond StatusBadRequest "Invalid request body" .none)
  | .ok user =>
  match buildProfileUpdate env user with
  | .error response => (w, response)
  | .ok update =>
  match env.updateErr with
  | some _ => (w, respond StatusInternalServerError "Failed to update profile" .none)
  | none =>
  match FindOne w.users (User.hasID userID) with
  | none => (w, respond StatusNotFound "User not found" .none)
  | some _ =>
    ({ w with users := updateDocs w.users userID (applyProfileUpdate update) },
      respond StatusOK "Profile updated successfully" .none)

/-- The subject ID the handlers parse out of the token claims of `c.Get("user")`. -/
def tokenSubject (user : ContextUser) : Option ObjectID :=
  match GetUserFromToken user with
  | .value (some claims) => ObjectIDFromHex claims.UserID
  | _ => none

/-- An account with `_id` 1, the full name `Old Name` and a wholesaler profile. -/
def sampleProfileOwner : User :=
  { User.zero with
    ID := 1, Email := "a@x.com", FullName := "Old Name", UserType := "wholesaler",
    WholesalerInfo := some { BusinessName := "Old Co", Category := "Food", ReferralCode := "" } }

/-- A collection holding `sampleProfileOwner` only. -/
def sampleProfileWorld : World := { users := [sampleProfileOwner], fs := [] }

/-- A profile update by the account with `_id` 1 whose body binds to `payload`. -/
def sampleProfileRequest (payload : User) : ProfileHTTP :=
  { user := sampleCaller, bind := .ok payload }

/-- A coordinate value that is present and not nil but that the type switch of `UpdateBranch`
cannot use: a string that does not parse, a boolean, a slice or a map. -/
def unusableCoordinate (lib : Lib) : Value → Bool
  | .str s => (lib.ParseFloat s).isNone
  | .bool _ => true
  | .array _ => true
  | .object _ => true
  | _ => false

/-- The library functions of the examples with one more payload,
`latitude: "north", longitude: true`. -/
def sampleCoordLib : Lib :=
  { sampleLib with
    jsonUnmarshal := fun s =>
      if s = "\x7b\"latitude\":\"north\",\"longitude\":true\x7d" then
        .ok [("latitude", .str "north"), ("longitude", .bool true)]
      else sampleLib.jsonUnmarshal s }

/-- The update of branch 2 with the payload `latitude: "north", longitude: true`. -/
def sampleCoordUpdate : Request :=
  { user := sampleCaller, paramID := "000000000000000000000002", queryCompanyId := "",
    form := .ok { data := ["\x7b\"latitude\":\"north\",\"longitude\":true\x7d"], images := [] } }

/-- The one payload `UpdateProfile` rejects: a `ServiceProviderInfo` whose service type is
`Other` and whose custom service type is empty. -/
def rejectedProfile (payload : User) : Bool :=
  match payload.ServiceProviderInfo with
  | some sp => sp.ServiceType == "Other" && sp.CustomServiceType == ""
  | none => false

/-- An environment of the account handlers in which the lookup fails. -/
def sampleLookupFails : AuthEnv := { sampleAuthEnv with findErr := some "context deadline exceeded" }

/-! ## Role gate (`middleware/auth_middleware.go`) -/

/-- An `echo.HandlerFunc` over contexts of type `Ctx`. -/
abbrev HandlerFunc (Ctx : Type) := Ctx → World → World × GoResult HTTPResponse

/-- The loop of `RequireUserType` over the allowed types: `true` when it reaches
`return next(c)`, `false` when it ends; reading `claims.UserType` from a nil pointer panics. -/
def allowedTypeLoop (claims : Option JwtCustomClaims) : List String → GoResult Bool
  | [] => .value false
  | allowedType :: rest =>
    match claims with
    | none => .panic nilDereference
    | some cl =>
      if cl.UserType = allowedType then .value true else allowedTypeLoop claims rest

/-- Middleware `RequireUserType(allowedTypes...)` applied to the handler `next`; `user` reads
`c.Get("user")` from the context. -/
def RequireUserType {Ctx : Type} (allowedTypes : List String) (user : Ctx → ContextUser)
    (next : HandlerFunc Ctx) : HandlerFunc Ctx :=
  fun c w =>
    match GetUserFromToken (user c) with
    | .panic msg => (w, .panic msg)
    | .value claims =>
      match allowedTypeLoop claims allowedTypes with
      | .panic msg => (w, .panic msg)
      | .value true => next c w
      | .value false => (w, respond StatusForbidden "Access denied for your user type" .none)

/-- A handler that answers 200 and logs a file operation, for the examples. -/
def sampleHandler : HandlerFunc ContextUser :=
  fun _ w => ({ w with fs := w.fs ++ [.write "uploads/logo.png"] },
    respond StatusOK "Logo uploaded successfully" .none)

/-! ## Identity-provider login (`controllers/auth_controller.go`) -/

structure GoogleUser where
  Email : String
  DisplayName : String
  PhotoURL : String
  UID : String
deriving DecidableEq, Repr

/-- What `GoogleLogin` reads from the `echo.Context`: the result of `c.Bind(&googleUser)`. -/
structure GoogleHTTP where
  bind : Except String GoogleUser

/-- The documents after `collection.UpdateOne(filter, update)`: the first document that
matches is updated, the others are untouched. -/
def updateOneDoc (users : List User) (filter : User → Bool) (update : User → User) :
    List User :=
  match users with
  | [] => []
  | u :: rest => if filter u then update u :: rest else u :: updateOneDoc rest filter update

/-- The account `GoogleLogin` inserts for an unknown email, without its `_id`. -/
def newGoogleUser (env : AuthEnv) (googleUser : GoogleUser) : User :=
  { User.zero with
    Email := googleUser.Email,
    FullName := googleUser.DisplayName,
    UserType := "user",
    GoogleUID := googleUser.UID,
    ProfilePic := googleUser.PhotoURL,
    CreatedAt := env.now 0,
    UpdatedAt := env.now 0 }

/-- The decoded document after the `$set` of `GoogleLogin`: the keys `googleUID`, `fullName`,
`profilePic` and `updatedAt` are the bson tags of the four fields. -/
def applyGoogleUpdate (env : AuthEnv) (googleUser : GoogleUser) (u : User) : User :=
  { u with
    GoogleUID := googleUser.UID,
    FullName := googleUser.DisplayName,
    ProfilePic := googleUser.PhotoURL,
    UpdatedAt := env.now 0 }

/-- Handler `AuthController.GoogleLogin`. -/
def GoogleLogin (lib : AuthLib) (env : AuthEnv) (req : GoogleHTTP) (w : World) :
    World × GoResult HTTPResponse :=
  match req.bind with
  | .error _ => (w, respond StatusBadRequest "Invalid request body" .none)
  | .ok googleUser =>
  if googleUser.Email = "" ∨ googleUser.UID = "" then
    (w, respond StatusBadRequest "Email and UID are required" .none)
  else
  match env.findErr with
  | some _ => (w, respond StatusInternalServerError "Database error" .none)
  | none =>
  match FindOne w.users (User.hasEmail googleUser.Email) with
  | none =>
    match env.insertErr with
    | some _ => (w, respond StatusInternalServerError "Failed to create user" .none)
    | none =>
    let w1 : World :=
      { w with users := insertDoc w.users env.insertedID (newGoogleUser env googleUser) }
    match GenerateJWT lib env 1 (ObjectID.Hex env.insertedID) googleUser.Email "user" with
    | .error _ => (w1, respond StatusInternalServerError "Failed to generate token" .none)
    | .ok token =>
      (w1, respond StatusOK "Login successful"
        (.login token env.insertedID googleUser.Email googleUser.DisplayName "user"))
  | some user =>
    match env.updateErr with
    | some _ => (w, respond StatusInternalServerError "Failed to update user" .none)
    | none =>
    let w1 : World :=
      { w with users := updateOneDoc w.users (User.hasEmail googleUser.Email)
                          (applyGoogleUpdate env googleUser) }
    match GenerateJWT lib env 1 (ObjectID.Hex user.ID) user.Email user.UserType with
    | .error _ => (w1, respond StatusInternalServerError "Failed to generate token" .none)
    | .ok token =>
      (w1, respond StatusOK "Login successful"
        (.login token user.ID user.Email user.FullName user.UserType))

/-- A Google identity for the email `c@x.com`. -/
def sampleGoogleUser : GoogleUser :=
  { Email := "c@x.com", DisplayName := "Cleo G", PhotoURL := "https://pic/1", UID := "g-1" }

/-! ## Image serving (`controllers/auth_controller.go`) -/

/-- Library function `filepath.Base`: the last element of the path, after the trailing
slashes are dropped; `.` for the empty path and `/` for a path of slashes only. -/
def filepathBase (path : String) : String :=
  if path = "" then "."
  else
    let stripped := (path.toList.reverse.dropWhile (fun c => c = '/')).reverse
    let last := (stripped.reverse.takeWhile (fun c => c ≠ '/')).reverse
    if last = [] then "/" else String.mk last

/-- What `ServeImage` answers: the JSON error with status 404, or the file `c.File(path)`
serves. -/
inductive ImageResponse where
  | notFound (error : String)
  | file (path : String)
deriving DecidableEq, Repr

/-- The path `ServeImage` resolves for the route parameter `filename`. -/
def servedPath (filename : String) : String :=
  filepathJoin ["uploads", filepathBase filename]

/-- Handler `controllers.ServeImage`; `notExist path` tells whether `os.Stat(path)` fails
with an error for which `os.IsNotExist` holds. -/
def ServeImage (notExist : String → Bool) (filename : String) : ImageResponse :=
  let filename := filepathBase filename
  let path := filepathJoin ["uploads", filename]
  if notExist path then .notFound "Image not found" else .file path

/-- The text `uuid.New().String()` returns: 36 characters, each a lower-case hexadecimal
digit or a hyphen. -/
def isUUIDString (s : String) : Bool :=
  s.length == 36
    && s.toList.all (fun c => c == '-' || ('0' ≤ c && c ≤ '9') || ('a' ≤ c && c ≤ 'f'))

/-- An environment that draws a different identifier for the second uploaded file. -/
def sampleTwoUploads : Env :=
  { sampleEnv with
    uuid := fun i =>
      if i = 0 then "123e4567-e89b-12d3-a456-426614174000"
      else "9b2d7f1c-0a4e-4c6b-8f3a-5d1e2c3b4a59" }

/-! ## Raw documents (`UpdateCompanyData`) -/

/-- A BSON value as the store holds it.  `UpdateCompanyData` writes keys that no Go struct of
the repository declares, so its documents are modelled field by field. -/
inductive Bson where
  | null
  | bool (b : Bool)
  | double (f : Float64)
  | int (i : Int)
  | str (s : String)
  | array (xs : List Bson)
  | document (fields : List (String × Bson))
  | dateTime (t : Time)
  | objectID (id : ObjectID)

/-- A stored document: its top-level fields in order. -/
abbrev Document := List (String × Bson)

mutual
/-- The BSON encoding of a Go `interface{}` value; the keys of a map keep the order of the
list that models it. -/
def Value.toBson : Value → Bson
  | .null => .null
  | .bool b => .bool b
  | .float64 f => .double f
  | .int i => .int i
  | .str s => .str s
  | .array xs => .array (Value.toBsonList xs)
  | .object kvs => .document (Value.toBsonFields kvs)
/-- The BSON encoding of a slice, element by element. -/
def Value.toBsonList : List Value → List Bson
  | [] => []
  | x :: xs => Value.toBson x :: Value.toBsonList xs
/-- The BSON encoding of the entries of a map. -/
def Value.toBsonFields : List (String × Value) → List (String × Bson)
  | [] => []
  | (k, x) :: kvs => (k, Value.toBson x) :: Value.toBsonFields kvs
end

mutual
/-- Whether two BSON values are the same. -/
def Bson.same : Bson → Bson → Bool
  | .null, .null => true
  | .bool a, .bool b => a == b
  | .double a, .double b => a == b
  | .int a, .int b => a == b
  | .str a, .str b => a == b
  | .array xs, .array ys => Bson.sameList xs ys
  | .document xs, .document ys => Bson.sameFields xs ys
  | .dateTime a, .dateTime b => a == b
  | .objectID a, .objectID b => a == b
  | _, _ => false
/-- Whether two arrays are the same. -/
def Bson.sameList : List Bson → List Bson → Bool
  | [], [] => true
  | x :: xs, y :: ys => Bson.same x y && Bson.sameList xs ys
  | _, _ => false
/-- Whether two documents have the same fields in the same order. -/
def Bson.sameFields : List (String × Bson) → List (String × Bson) → Bool
  | [], [] => true
  | (k, x) :: xs, (l, y) :: ys => k == l && Bson.same x y && Bson.sameFields xs ys
  | _, _ => false
end

/-- The filter `bson.M{"_id": objectID}`. -/
def Document.hasID (id : ObjectID) (doc : Document) : Bool :=
  match doc.lookup "_id" with
  | some (.objectID i) => i == id
  | _ => false

/-- The operator `$set` on one top-level field: an existing field is replaced in place, a
missing one is appended. -/
def setField (doc : Document) (key : String) (v : Bson) : Document :=
  match doc with
  | [] => [(key, v)]
  | (k, old) :: rest =>
    if key = k then (k, v) :: rest else (k, old) :: setField rest key v

/-- The update `{"$set": fields}` on one document.  `fields` is a `bson.M`, which has no
order of its own: the store applies the fields in the lexicographic order of their keys, so
the keys the document lacks are appended in that order. -/
def applySet (fields : List (String × Bson)) (doc : Document) : Document :=
  (fields.insertionSort (fun a b => a.1.toList < b.1.toList)).foldl
    (fun d kv => setField d kv.1 kv.2) doc

/-- The documents after `collection.UpdateOne(filter, update)` on raw documents: the first
document that matches is updated. -/
def updateOneRaw (docs : List Document) (filter : Document → Bool)
    (update : Document → Document) : List Document :=
  match docs with
  | [] => []
  | d :: rest => if filter d then update d :: rest else d :: updateOneRaw rest filter update

/-- The `result.ModifiedCount` of `UpdateOne` on raw documents. -/
def modifiedCountRaw (docs : List Document) (filter : Document → Bool)
    (update : Document → Document) : Nat :=
  match docs.find? filter with
  | some d => if Bson.sameFields (update d) d then 0 else 1
  | none => 0

/-- What one request of `UpdateCompanyData` draws from its environment. -/
structure CompanyDataEnv where
  /-- The result of `time.Now()`, in seconds. -/
  now : Time
  /-- The text of the error `primitive.ObjectIDFromHex` returns for a string it rejects. -/
  hexErr : String → String
  /-- The error of `UpdateOne`, when it fails. -/
  updateErr : Option String
  /-- The error of `FindOne(filter).Decode(&user)` on a document that exists, when the
  lookup or the decoding fails. -/
  decodeErr : Option String

/-- The inputs of `UpdateCompanyData`: the context value `user` and the result of
`c.Bind(&updateData)` into a `map[string]interface{}`. -/
structure CompanyDataHTTP where
  user : ContextUser
  bind : Except String JSONMap

/-- The expression `updateData[key]` as a BSON value: `nil` for a key the map lacks. -/
def bodyField (updateData : JSONMap) (key : String) : Bson :=
  Value.toBson ((mapIndex updateData key).getD .null)

/-- The `$set` document `UpdateCompanyData` builds. -/
def companyDataSet (env : CompanyDataEnv) (updateData : JSONMap) : List (String × Bson) :=
  [("phone", bodyField updateData "phone"),
   ("whatsapp", bodyField updateData "whatsapp"),
   ("website", bodyField updateData "website"),
   ("facebook", bodyField updateData "facebook"),
   ("instagram", bodyField updateData "instagram"),
   ("updatedAt", .dateTime env.now)]

/-- Method `CompanyController.UpdateCompanyData` on the raw `users` collection. -/
def UpdateCompanyData (env : CompanyDataEnv) (req : CompanyDataHTTP) (docs : List Document) :
    List Document × GoResult HTTPResponse :=
  match ExtractUserID req.user with
  | .panic msg => (docs, .panic msg)
  | .value (.error err) =>
    (docs, respond StatusUnauthorized ("Invalid or expired token: " ++ err) .none)
  | .value (.ok userID) =>
    match req.bind with
    | .error err => (docs, respond StatusBadRequest ("Invalid request format: " ++ err) .none)
    | .ok updateData =>
      match ObjectIDFromHex userID with
      | none =>
        (docs, respond StatusBadRequest ("Invalid user ID format: " ++ env.hexErr userID) .none)
      | some objectID =>
        let update := applySet (companyDataSet env updateData)
        let filter := Document.hasID objectID
        match env.updateErr with
        | some err =>
          (docs, respond StatusInternalServerError
            ("Failed to update company data: " ++ err) .none)
        | none =>
          let docs' := updateOneRaw docs filter update
          if modifiedCountRaw docs filter update = 0 then
            match docs'.find? filter, env.decodeErr with
            | some _, none => (docs', respond StatusOK "No changes made to company data" .none)
            | _, _ => (docs', respond StatusNotFound "User not found" .none)
          else (docs', respond StatusOK "Company data updated successfully" .none)

/-- A stored company account with a phone number and a website. -/
def sampleCompanyDoc : Document :=
  [("_id", .objectID 1), ("email", .str "a@x.com"), ("phone", .str "01"),
   ("website", .str "https://x.com"), ("updatedAt", .dateTime 5)]

/-- A request of account 1 whose body holds only a phone number. -/
def sampleCompanyData : CompanyDataHTTP :=
  { user := .token (.map [("userId", .str "000000000000000000000001")]),
    bind := .ok [("phone", .str "02")] }

/-- An environment in which no call fails. -/
def sampleCompanyDataEnv : CompanyDataEnv :=
  { now := 9, hexErr := fun _ => "the provided hex string is not a valid ObjectID",
    updateErr := none, decodeErr := none }

/-- The library functions of the examples with the string `NaN`, which `strconv.ParseFloat`
parses to the NaN of bit pattern `0x7ff8000000000001`, and one more payload,
`latitude: "north", longitude: "NaN"`. -/
def sampleNaNLib : Lib :=
  { sampleLib with
    ParseFloat := fun s =>
      if s = "NaN" then some ⟨0x7ff8000000000001⟩ else sampleLib.ParseFloat s,
    jsonUnmarshal := fun s =>
      if s = "\x7b\"latitude\":\"north\",\"longitude\":\"NaN\"\x7d" then
        .ok [("latitude", .str "north"), ("longitude", .str "NaN")]
      else sampleLib.jsonUnmarshal s }

/-- The creation of a branch `latitude: "north", longitude: "NaN"` with no image. -/
def sampleNaNCreate : Request :=
  { user := sampleCaller, paramID := "", queryCompanyId := "",
    form := .ok
      { data := ["\x7b\"latitude\":\"north\",\"longitude\":\"NaN\"\x7d"], images := [] } }

/-- The branch `sampleNaNCreate` stores: `_id` 3, latitude 0, longitude NaN. -/
def sampleNaNBranch : Branch :=
  { Branch.zero with
    ID := 3, Longitude := ⟨0x7ff8000000000001⟩, CreatedAt := 2000, UpdatedAt := 2001 }

/-- The company account with `_id` 1 once it owns `sampleNaNBranch`. -/
def sampleNaNOwner : User :=
  { sampleNewOwner with
    CompanyInfo := some { CompanyInfo.zero with Branches := [sampleNaNBranch] } }

/-- The collection `sampleNaNCreate` leaves behind: `sampleNaNOwner` only. -/
def sampleNaNWorld : World := { users := [sampleNaNOwner], fs := [] }

theorem ObjectIDFromHex_empty : ObjectIDFromHex "" = none := by decide

theorem pushBranch_ID (branch : Branch) (u : User) : (pushBranch branch u).ID = u.ID := by
  unfold pushBranch
  split <;> rfl

theorem pullBranch_ID (branchID : ObjectID) (u : User) : (pullBranch branchID u).ID = u.ID := by
  unfold pullBranch
  split <;> rfl

theorem pushBranch_branches (branch : Branch) (u : User) :
    (pushBranch branch u).branches = u.branches ++ [branch] := by
  unfold pushBranch User.branches
  cases h : u.CompanyInfo <;> simp [CompanyInfo.zero]

theorem pullBranch_branches (branchID : ObjectID) (u : User) :
    (pullBranch branchID u).branches
      = u.branches.filter (fun b => !Branch.matchesID branchID b) := by
  unfold pullBranch User.branches
  cases h : u.CompanyInfo <;> simp [h]

theorem updateDocs_filter_ne (users : List User) (id : ObjectID) (update : User → User)
    (hid : ∀ u, (update u).ID = u.ID) :
    (updateDocs users id update).filter (fun u => u.ID ≠ id)
      = users.filter (fun u => u.ID ≠ id) := by
  induction users with
  | nil => rfl
  | cons u rest ih =>
    unfold updateDocs
    by_cases h : u.ID = id
    · simp [User.hasID, h, hid]
    · simp only [decide_not] at ih
      simp [User.hasID, h, ih]

theorem FindOne_updateDocs (users : List User) (id : ObjectID) (update : User → User)
    (hid : ∀ u, (update u).ID = u.ID) :
    FindOne (updateDocs users id update) (User.hasID id)
      = (FindOne users (User.hasID id)).map update := by
  induction users with
  | nil => rfl
  | cons u rest ih =>
    unfold updateDocs
    by_cases h : u.ID = id
    · simp [FindOne, User.hasID, h, hid]
    · simp only [FindOne] at ih
      simp [FindOne, User.hasID, h, ih]

theorem FindOne_hasBranch_of_owner (users : List User) (userID branchID : ObjectID)
    (owner : User) (howner : FindOne users (User.hasID userID) = some owner)
    (hany : owner.branches.any (Branch.matchesID branchID) = true) :
    FindOne users (User.hasBranch userID branchID) = some owner := by
  induction users with
  | nil => simp [FindOne] at howner
  | cons u rest ih =>
    simp only [FindOne, List.find?_cons] at howner ih ⊢
    by_cases h : u.ID = userID
    · have hu : u.hasID userID = true := by simp [User.hasID, h]
      rw [hu] at howner
      simp only [Option.some.injEq] at howner
      subst howner
      have : User.hasBranch userID branchID u = true := by
        simp only [User.hasBranch, Bool.and_eq_true, beq_iff_eq]
        exact ⟨h, hany⟩
      rw [this]
    · have hu : u.hasID userID = false := by simp [User.hasID, h]
      rw [hu] at howner
      have : User.hasBranch userID branchID u = false := by
        simp [User.hasBranch, h]
      rw [this]
      exact ih howner

theorem findBranch_matches (u : User) (branchID : ObjectID) (b : Branch)
    (hb : findBranch u branchID = some b) (hnz : branchID ≠ NilObjectID) :
    b ∈ u.branches ∧ b.ID = branchID ∧ Branch.matchesID branchID b = true := by
  unfold findBranch at hb
  have hmem := List.mem_of_find?_eq_some hb
  have hp := List.find?_some hb
  have hid : b.ID = branchID := by simpa using hp
  refine ⟨hmem, hid, ?_⟩
  simp [Branch.matchesID, hid, hnz]

theorem any_matches_of_findBranch (u : User) (branchID : ObjectID) (b : Branch)
    (hb : findBranch u branchID = some b) (hnz : branchID ≠ NilObjectID) :
    u.branches.any (Branch.matchesID branchID) = true := by
  obtain ⟨hmem, _, hm⟩ := findBranch_matches u branchID b hb hnz
  exact List.any_eq_true.mpr ⟨b, hmem, hm⟩

theorem callerID_claims (req : Request) (userID : ObjectID)
    (h : callerID req = some userID) :
    ∃ claims, GetUserFromToken req.user = .value (some claims)
      ∧ ObjectIDFromHex claims.UserID = some userID := by
  unfold callerID at h
  split at h
  · next claims hc => exact ⟨claims, hc, h⟩
  · simp at h

theorem decodedPayload_form (lib : Lib) (req : Request) (payload : JSONMap)
    (h : decodedPayload lib req = some payload) :
    ∃ form data0 rest, req.form = .ok form ∧ form.data = data0 :: rest
      ∧ lib.jsonUnmarshal data0 = .ok payload ∧ uploads req = form.images := by
  unfold decodedPayload at h
  split at h
  · next form hf =>
    split at h
    · next data0 rest hd =>
      split at h
      · next p hp =>
        simp only [Option.some.injEq] at h
        subst h
        exact ⟨form, data0, rest, hf, hd, hp, by simp [uploads, hf]⟩
      · simp at h
    · simp at h
  · simp at h

theorem paramID_ne_empty (req : Request) (branchID : ObjectID)
    (h : ObjectIDFromHex req.paramID = some branchID) : req.paramID ≠ "" := by
  intro he
  rw [he, ObjectIDFromHex_empty] at h
  simp at h

theorem removeAttempts_append (xs ys : List FSEvent) :
    removeAttempts (xs ++ ys) = removeAttempts xs ++ removeAttempts ys := by
  induction xs with
  | nil => rfl
  | cons e rest ih => cases e <;> simp [removeAttempts, ih]

theorem removeAttempts_removeEvents (env : Env) (paths : List String) (i : Nat) :
    removeAttempts (removeEvents env paths i) = paths := by
  induction paths generalizing i with
  | nil => rfl
  | cons p rest ih => simp [removeEvents, removeAttempts, ih]

/-! ## `UpdateBranch` on a branch that is found -/

theorem UpdateBranch_found (lib : Lib) (env : Env) (req : Request) (w : World)
    (userID branchID : ObjectID) (payload : JSONMap) (owner : User) (b : Branch)
    (hcaller : callerID req = some userID)
    (hparam : ObjectIDFromHex req.paramID = some branchID)
    (hpayload : decodedPayload lib req = some payload)
    (hfind : env.findErr = none)
    (howner : FindOne w.users (User.hasID userID) = some owner)
    (hb : findBranch owner branchID = some b) (hnz : branchID ≠ NilObjectID) :
    UpdateBranch lib env req w =
      match env.pullErr with
      | some err =>
        ({ users := w.users, fs := w.fs ++ updateEvents env (uploads req) b.Images },
          respond StatusInternalServerError ("Failed to update branch: " ++ err) .none)
      | none =>
        match env.pushErr with
        | some err =>
          ({ users := updateDocs w.users userID (pullBranch branchID),
             fs := w.fs ++ updateEvents env (uploads req) b.Images },
            respond StatusInternalServerError ("Failed to update branch: " ++ err) .none)
        | none =>
          ({ users := updateDocs (updateDocs w.users userID (pullBranch branchID)) userID
                        (pushBranch (rebuiltBranch lib env req branchID payload b)),
             fs := w.fs ++ updateEvents env (uploads req) b.Images },
            cJSON StatusOK "Branch updated successfully"
              (branchData (rebuiltBranch lib env req branchID payload b))) := by
  obtain ⟨claims, hc, huid⟩ := callerID_claims req userID hcaller
  obtain ⟨form, data0, rest, hform, hdata, hjson, hup⟩ :=
    decodedPayload_form lib req payload hpayload
  have hne := paramID_ne_empty req branchID hparam
  have hfound := FindOne_hasBranch_of_owner w.users userID branchID owner howner
    (any_matches_of_findBranch owner branchID b hb hnz)
  simp only [UpdateBranch, hc, huid, hne, hparam, hform, hdata, hjson, hfind, hfound, hb, hup,
    rebuiltBranch, finalImagePaths, updateEvents, if_false, Option.getD_some, List.append_assoc]

theorem ownerBranches_pull_push (users : List User) (fs : List FSEvent)
    (userID branchID : ObjectID) (branch : Branch) (owner : User)
    (howner : FindOne users (User.hasID userID) = some owner) :
    ownerBranches
        { users := updateDocs (updateDocs users userID (pullBranch branchID)) userID
                     (pushBranch branch),
          fs := fs }
        userID
      = some (owner.branches.filter (fun x => !Branch.matchesID branchID x) ++ [branch]) := by
  simp only [ownerBranches]
  rw [FindOne_updateDocs _ _ _ (pushBranch_ID branch),
    FindOne_updateDocs _ _ _ (pullBranch_ID branchID), howner]
  simp [pushBranch_branches, pullBranch_branches]

theorem find?_filter_not_matches (bs : List Branch) (branchID : ObjectID) (branch : Branch)
    (hid : branch.ID = branchID) (hnz : branchID ≠ NilObjectID) :
    (bs.filter (fun x => !Branch.matchesID branchID x) ++ [branch]).find?
        (fun x => x.ID == branchID)
      = some branch := by
  induction bs with
  | nil => simp [hid]
  | cons x rest ih =>
    by_cases hx : x.ID = branchID
    · have : Branch.matchesID branchID x = true := by simp [Branch.matchesID, hx, hnz]
      simpa [List.filter_cons, this] using ih
    · have : Branch.matchesID branchID x = false := by simp [Branch.matchesID, hx]
      simpa [List.filter_cons, this, List.find?_cons, hx] using ih

theorem storedBranch_pull_push (users : List User) (fs : List FSEvent)
    (userID branchID : ObjectID) (branch : Branch) (owner : User)
    (howner : FindOne users (User.hasID userID) = some owner)
    (hid : branch.ID = branchID) (hnz : branchID ≠ NilObjectID) :
    storedBranch
        { users := updateDocs (updateDocs users userID (pullBranch branchID)) userID
                     (pushBranch branch),
          fs := fs }
        userID branchID
      = some branch := by
  simp only [storedBranch]
  rw [FindOne_updateDocs _ _ _ (pushBranch_ID branch),
    FindOne_updateDocs _ _ _ (pullBranch_ID branchID), howner]
  simp only [Option.map_some', Option.some_bind, findBranch, pushBranch_branches,
    pullBranch_branches]
  exact find?_filter_not_matches owner.branches branchID branch hid hnz

theorem getString_absent (data : JSONMap) (key dflt : String)
    (h : mapIndex data key = none) : getString data key dflt = dflt := by
  simp [getString, h]

theorem getString_str (data : JSONMap) (key dflt s : String)
    (h : mapIndex data key = some (.str s)) : getString data key dflt = s := by
  simp [getString, h]

theorem updateCoordinate_absent (lib : Lib) (data : JSONMap) (key : String) (x : Float64)
    (h : mapIndex data key = none) : updateCoordinate lib data key x = x := by
  simp [updateCoordinate, h]

theorem updateCoordinate_str (lib : Lib) (data : JSONMap) (key s : String) (x f : Float64)
    (h : mapIndex data key = some (.str s)) (hf : lib.ParseFloat s = some f) :
    updateCoordinate lib data key x = f := by
  simp [updateCoordinate, h, coordinateSwitch, hf]

/-- C1. `UpdateBranch` is a field-by-field partial update.  For the branch `b` that the
(non-zero) ID locates in the owner's sequence and every payload, when no store call fails
the branch then stored under that ID is the one handed to `c.JSON` (answered 200 when its
coordinates are finite) and has: for each of name, location, phone, category, subCategory,
description, latitude and longitude whose key the payload omits, exactly the value of `b`;
for each of the six text fields whose key carries a string, that string; and for a
coordinate whose key carries a string that parses, the parsed number. -/
theorem UpdateBranch_partial_update (lib : Lib) (env : Env) (req : Request) (w : World)
    (userID branchID : ObjectID) (payload : JSONMap) (owner : User) (b : Branch)
    (hcaller : callerID req = some userID)
    (hparam : ObjectIDFromHex req.paramID = some branchID)
    (hpayload : decodedPayload lib req = some payload)
    (hfind : env.findErr = none) (hpull : env.pullErr = none) (hpush : env.pushErr = none)
    (howner : FindOne w.users (User.hasID userID) = some owner)
    (hb : findBranch owner branchID = some b) (hnz : branchID ≠ NilObjectID) :
    ∃ stored : Branch,
      (UpdateBranch lib env req w).2
          = cJSON StatusOK "Branch updated successfully" (branchData stored)
      ∧ storedBranch (UpdateBranch lib env req w).1 userID branchID = some stored
      ∧ (mapIndex payload "name" = none → stored.Name = b.Name)
      ∧ (mapIndex payload "location" = none → stored.Location = b.Location)
      ∧ (mapIndex payload "phone" = none → stored.Phone = b.Phone)
      ∧ (mapIndex payload "category" = none → stored.Category = b.Category)
      ∧ (mapIndex payload "subCategory" = none → stored.SubCategory = b.SubCategory)
      ∧ (mapIndex payload "description" = none → stored.Description = b.Description)
      ∧ (mapIndex payload "latitude" = none → stored.Latitude = b.Latitude)
      ∧ (mapIndex payload "longitude" = none → stored.Longitude = b.Longitude)
      ∧ (∀ s, mapIndex payload "name" = some (.str s) → stored.Name = s)
      ∧ (∀ s, mapIndex payload "location" = some (.str s) → stored.Location = s)
      ∧ (∀ s, mapIndex payload "phone" = some (.str s) → stored.Phone = s)
      ∧ (∀ s, mapIndex payload "category" = some (.str s) → stored.Category = s)
      ∧ (∀ s, mapIndex payload "subCategory" = some (.str s) → stored.SubCategory = s)
      ∧ (∀ s, mapIndex payload "description" = some (.str s) → stored.Description = s)
      ∧ (∀ s f, mapIndex payload "latitude" = some (.str s) → lib.ParseFloat s = some f →
          stored.Latitude = f)
      ∧ (∀ s f, mapIndex payload "longitude" = some (.str s) → lib.ParseFloat s = some f →
          stored.Longitude = f) := by
  have hrun := UpdateBranch_found lib env req w userID branchID payload owner b hcaller hparam
    hpayload hfind howner hb hnz
  rw [hpull, hpush] at hrun
  refine ⟨rebuiltBranch lib env req branchID payload b, ?_, ?_, ?_⟩
  · rw [hrun]
  · rw [hrun]
    exact storedBranch_pull_push w.users _ userID branchID _ owner howner rfl hnz
  · simp only [rebuiltBranch, updatedBranch]
    refine ⟨?_, ?_, ?_, ?_, ?_, ?_, ?_, ?_, ?_, ?_, ?_, ?_, ?_, ?_, ?_, ?_⟩
    · exact getString_absent _ _ _
    · exact getString_absent _ _ _
    · exact getString_absent _ _ _
    · exact getString_absent _ _ _
    · exact getString_absent _ _ _
    · exact getString_absent _ _ _
    · exact updateCoordinate_absent _ _ _ _
    · exact updateCoordinate_absent _ _ _ _
    · exact fun s => getString_str _ _ _ s
    · exact fun s => getString_str _ _ _ s
    · exact fun s => getString_str _ _ _ s
    · exact fun s => getString_str _ _ _ s
    · exact fun s => getString_str _ _ _ s
    · exact fun s => getString_str _ _ _ s
    · exact fun s f => updateCoordinate_str _ _ _ s _ f
    · exact fun s f => updateCoordinate_str _ _ _ s _ f

/-- Witness of C1: the branch created with latitude 33.9 and longitude 35.5, updated with
the payload `name: "X"` only, is stored with latitude 33.9, longitude 35.5 and name `X`. -/
theorem UpdateBranch_partial_update_witness :
    ∃ stored : Branch,
      storedBranch (UpdateBranch sampleLib sampleEnv sampleUpdate sampleWorld).1 1 2
          = some stored
      ∧ stored.Latitude = ⟨0x4040f33333333333⟩
      ∧ stored.Longitude = ⟨0x4041c00000000000⟩
      ∧ stored.Name = "X" := by
  obtain ⟨stored, _, hstored, _, _, _, _, _, _, hlat, hlng, hname, _⟩ :=
    UpdateBranch_partial_update sampleLib sampleEnv sampleUpdate sampleWorld 1 2
      [("name", .str "X")] sampleOwner sampleBranch (by decide) (by decide) rfl rfl rfl rfl
      (by decide) (by decide) (by decide)
  exact ⟨stored, hstored, hlat rfl, hlng rfl, hname "X" rfl⟩

/-- C2 (evaluation of the defect). The branch of the example has rating 4.5; after the
successful update with the payload `name: "X"`, which says nothing about the rating, the
branch stored under the same ID has rating 0: the struct literal of `UpdateBranch` copies
the ID, the creation time and every payload field, and leaves `Rate` out. -/
theorem UpdateBranch_drops_rate :
    findBranch sampleOwner 2 = some sampleBranch
    ∧ sampleBranch.Rate = ⟨0x4012000000000000⟩
    ∧ mapIndex [("name", Value.str "X")] "rate" = none
    ∧ ((UpdateBranch sampleLib sampleEnv sampleUpdate sampleWorld).2
        = respond StatusOK "Branch updated successfully"
            (branchData { sampleBranch with Name := "X", Rate := Float64.zero,
                                            UpdatedAt := 2000 }))
    ∧ (storedBranch (UpdateBranch sampleLib sampleEnv sampleUpdate sampleWorld).1 1 2).map
        Branch.Rate = some Float64.zero := by
  refine ⟨by decide, rfl, rfl, ?_, by decide⟩
  decide

/-! ## `CreateBranch` -/

theorem cJSON_encodable (status : Nat) (message : String) (data : ResponseData)
    (h : data.encodable = true) : cJSON status message data = respond status message data := by
  simp [cJSON, h]

theorem cJSON_not_encodable (status : Nat) (message : String) (data : ResponseData)
    (h : data.encodable = false) : cJSON status message data = encodeFailure := by
  simp [cJSON, h]

theorem branchData_encodable (branch : Branch) :
    (branchData branch).encodable
      = (!branch.Latitude.unsupported && !branch.Longitude.unsupported) := rfl

theorem CreateBranch_run (lib : Lib) (env : Env) (req : Request) (w : World)
    (userID : ObjectID) (payload : JSONMap)
    (hcaller : callerID req = some userID)
    (hpayload : decodedPayload lib req = some payload) :
    CreateBranch lib env req w =
      match env.pushErr with
      | some err =>
        ({ users := w.users, fs := w.fs ++ saveEvents env (uploads req) 0 },
          respond StatusInternalServerError ("Failed to save branch: " ++ err) .none)
      | none =>
        ({ users := updateDocs w.users userID (pushBranch (createdBranch lib env req payload)),
           fs := w.fs ++ saveEvents env (uploads req) 0 },
          cJSON StatusOK "Branch created successfully"
            (branchData (createdBranch lib env req payload))) := by
  obtain ⟨claims, hc, huid⟩ := callerID_claims req userID hcaller
  obtain ⟨form, data0, rest, hform, hdata, hjson, hup⟩ :=
    decodedPayload_form lib req payload hpayload
  simp only [CreateBranch, hc, huid, hform, hdata, hjson, hup, createdBranch]

theorem ownerBranches_push (users : List User) (fs : List FSEvent) (userID : ObjectID)
    (branch : Branch) (owner : User)
    (howner : FindOne users (User.hasID userID) = some owner) :
    ownerBranches { users := updateDocs users userID (pushBranch branch), fs := fs } userID
      = some (owner.branches ++ [branch]) := by
  simp only [ownerBranches]
  rw [FindOne_updateDocs _ _ _ (pushBranch_ID branch), howner]
  simp [pushBranch_branches]

theorem createCoordinate_eq_coerce (lib : Lib) (payload : JSONMap) (key : String) :
    createCoordinate lib payload key = coerce lib (mapIndex payload key) := by
  unfold createCoordinate coerce
  cases h : mapIndex payload key with
  | none => rfl
  | some v =>
    cases v with
    | str s => cases hs : lib.ParseFloat s <;> simp [coordinateSwitch, hs]
    | _ => simp [coordinateSwitch]

/-- C3 (counterexample). The payload `latitude: "north", longitude: "NaN"` has a latitude
string that does not parse, and it is stored as 0; the longitude string parses to a NaN and
is stored too; the encoder rejects the response, so the creation is answered 500 and not
200, while the branch is in the owner's sequence. -/
theorem CreateBranch_unparsable_latitude_answered_500 :
    decodedPayload sampleNaNLib sampleNaNCreate
        = some [("latitude", .str "north"), ("longitude", .str "NaN")]
    ∧ sampleNaNLib.ParseFloat "north" = none
    ∧ ownerBranches (CreateBranch sampleNaNLib sampleEnv sampleNaNCreate sampleNewWorld).1 1
        = some [{ Branch.zero with
                  ID := 3, Latitude := Float64.zero, Longitude := ⟨0x7ff8000000000001⟩,
                  CreatedAt := 2000, UpdatedAt := 2001 }]
    ∧ (CreateBranch sampleNaNLib sampleEnv sampleNaNCreate sampleNewWorld).1 = sampleNaNWorld
    ∧ (CreateBranch sampleNaNLib sampleEnv sampleNaNCreate sampleNewWorld).2 = encodeFailure
    ∧ (∀ r, (CreateBranch sampleNaNLib sampleEnv sampleNaNCreate sampleNewWorld).2 = .value r →
        r.code = StatusInternalServerError) := by
  refine ⟨rfl, rfl, by decide, by decide, by decide, ?_⟩
  intro r hr
  have h : (CreateBranch sampleNaNLib sampleEnv sampleNaNCreate sampleNewWorld).2
      = encodeFailure := by decide
  rw [h] at hr
  simp only [encodeFailure, GoResult.value.injEq] at hr
  rw [← hr]

/-- C3 (amended). `CreateBranch` coerces the coordinates.  For every payload, when the push
succeeds the branch appended to the owner's sequence has latitude `coerce (payload.latitude)`
and longitude `coerce (payload.longitude)`: a number as it is, a string that parses as the
parsed number, anything else zero.  The creation is answered 200 when both stored
coordinates are finite, so a coordinate dropped to zero does not make it fail beside a
finite one; when a stored coordinate is a NaN or an infinity, the branch is stored all the
same and the answer is 500. -/
theorem CreateBranch_coordinate_coercion (lib : Lib) (env : Env) (req : Request) (w : World)
    (userID : ObjectID) (payload : JSONMap) (owner : User)
    (hcaller : callerID req = some userID)
    (hpayload : decodedPayload lib req = some payload)
    (hpush : env.pushErr = none)
    (howner : FindOne w.users (User.hasID userID) = some owner) :
    ∃ stored : Branch,
      ownerBranches (CreateBranch lib env req w).1 userID = some (owner.branches ++ [stored])
      ∧ stored.Latitude = coerce lib (mapIndex payload "latitude")
      ∧ stored.Longitude = coerce lib (mapIndex payload "longitude")
      ∧ (stored.Latitude.unsupported = false → stored.Longitude.unsupported = false →
          (CreateBranch lib env req w).2
            = respond StatusOK "Branch created successfully" (branchData stored))
      ∧ (stored.Latitude = Float64.zero → stored.Longitude.unsupported = false →
          (CreateBranch lib env req w).2
            = respond StatusOK "Branch created successfully" (branchData stored))
      ∧ (stored.Longitude = Float64.zero → stored.Latitude.unsupported = false →
          (CreateBranch lib env req w).2
            = respond StatusOK "Branch created successfully" (branchData stored))
      ∧ (stored.Latitude.unsupported = true ∨ stored.Longitude.unsupported = true →
          (CreateBranch lib env req w).2 = encodeFailure) := by
  have hrun := CreateBranch_run lib env req w userID payload hcaller hpayload
  rw [hpush] at hrun
  have hzero : Float64.zero.unsupported = false := by decide
  have hok : ∀ b : Branch, b.Latitude.unsupported = false → b.Longitude.unsupported = false →
      cJSON StatusOK "Branch created successfully" (branchData b)
        = respond StatusOK "Branch created successfully" (branchData b) := by
    intro b h1 h2
    exact cJSON_encodable _ _ _ (by rw [branchData_encodable, h1, h2]; rfl)
  refine ⟨createdBranch lib env req payload, ?_, ?_, ?_, ?_, ?_, ?_, ?_⟩
  · rw [hrun]
    exact ownerBranches_push w.users _ userID _ owner howner
  · exact createCoordinate_eq_coerce lib payload "latitude"
  · exact createCoordinate_eq_coerce lib payload "longitude"
  · intro h1 h2
    rw [hrun]
    exact hok _ h1 h2
  · intro h1 h2
    rw [hrun]
    exact hok _ (by rw [h1]; exact hzero) h2
  · intro h2 h1
    rw [hrun]
    exact hok _ h1 (by rw [h2]; exact hzero)
  · intro h
    rw [hrun]
    apply cJSON_not_encodable
    rw [branchData_encodable]
    rcases h with h | h <;> simp [h]

/-- Witness of C3: the payload `name: "Main", latitude: "33.8", longitude: 33` is stored
with latitude 33.8 and longitude 33.0 and answered 200. -/
theorem CreateBranch_coordinate_coercion_witness :
    ∃ stored : Branch,
      ownerBranches (CreateBranch sampleLib sampleEnv sampleCreate sampleNewWorld).1 1
          = some [stored]
      ∧ stored.Latitude = ⟨0x4040e66666666666⟩
      ∧ stored.Longitude = ⟨0x4040800000000000⟩
      ∧ (CreateBranch sampleLib sampleEnv sampleCreate sampleNewWorld).2
          = respond StatusOK "Branch created successfully" (branchData stored) := by
  obtain ⟨stored, hseq, hlat, hlng, hok, _⟩ :=
    CreateBranch_coordinate_coercion sampleLib sampleEnv sampleCreate sampleNewWorld 1
      [("name", .str "Main"), ("latitude", .str "33.8"),
       ("longitude", .float64 ⟨0x4040800000000000⟩)]
      sampleNewOwner (by decide) rfl rfl (by decide)
  have hlat2 : stored.Latitude = ⟨0x4040e66666666666⟩ := hlat
  have hlng2 : stored.Longitude = ⟨0x4040800000000000⟩ := hlng
  exact ⟨stored, hseq, hlat2, hlng2,
    hok (by rw [hlat2]; decide) (by rw [hlng2]; decide)⟩

/-! ## `DeleteBranch` -/

theorem pullBranch_ne_of_matches (branchID : ObjectID) (u : User)
    (hany : u.branches.any (Branch.matchesID branchID) = true) :
    pullBranch branchID u ≠ u := by
  intro h
  have hb := congrArg User.branches h
  rw [pullBranch_branches, List.filter_eq_self] at hb
  obtain ⟨b, hmem, hm⟩ := List.any_eq_true.mp hany
  have := hb b hmem
  simp [hm] at this

theorem modifiedCount_pull (users : List User) (userID branchID : ObjectID) (owner : User)
    (howner : FindOne users (User.hasID userID) = some owner)
    (hany : owner.branches.any (Branch.matchesID branchID) = true) :
    modifiedCount users userID (pullBranch branchID) = 1 := by
  simp [modifiedCount, howner, pullBranch_ne_of_matches branchID owner hany]

theorem DeleteBranch_found (env : Env) (req : Request) (w : World)
    (userID branchID : ObjectID) (owner : User) (b : Branch)
    (hcaller : callerID req = some userID)
    (hparam : ObjectIDFromHex req.paramID = some branchID)
    (hfind : env.findErr = none)
    (howner : FindOne w.users (User.hasID userID) = some owner)
    (hb : findBranch owner branchID = some b) (hnz : branchID ≠ NilObjectID) :
    DeleteBranch env req w =
      match env.pullErr with
      | some err =>
        (w, respond StatusInternalServerError ("Failed to delete branch: " ++ err) .none)
      | none =>
        ({ users := updateDocs w.users userID (pullBranch branchID),
           fs := w.fs ++ removeEvents env b.Images 0 },
          respond StatusOK "Branch deleted successfully" .none) := by
  obtain ⟨claims, hc, huid⟩ := callerID_claims req userID hcaller
  have hne := paramID_ne_empty req branchID hparam
  have hany := any_matches_of_findBranch owner branchID b hb hnz
  have hfound := FindOne_hasBranch_of_owner w.users userID branchID owner howner hany
  have hmod := modifiedCount_pull w.users userID branchID owner howner hany
  simp only [DeleteBranch, hc, huid, hne, hparam, hfind, hfound, hb, hmod, if_false]
  cases env.pullErr <;> simp

theorem ownerBranches_pull (users : List User) (fs : List FSEvent) (userID branchID : ObjectID)
    (owner : User) (howner : FindOne users (User.hasID userID) = some owner) :
    ownerBranches { users := updateDocs users userID (pullBranch branchID), fs := fs } userID
      = some (owner.branches.filter (fun x => !Branch.matchesID branchID x)) := by
  simp only [ownerBranches]
  rw [FindOne_updateDocs _ _ _ (pullBranch_ID branchID), howner]
  simp [pullBranch_branches]

theorem filter_not_matches_eq_erase (bs : List Branch) (b : Branch)
    (hnodup : (bs.map Branch.ID).Nodup) (hmem : b ∈ bs) (hnz : b.ID ≠ NilObjectID) :
    bs.filter (fun x => !Branch.matchesID b.ID x) = bs.erase b := by
  induction bs with
  | nil => simp at hmem
  | cons x rest ih =>
    simp only [List.map_cons, List.nodup_cons, List.mem_map, not_exists, not_and] at hnodup
    obtain ⟨hx, hrest⟩ := hnodup
    by_cases hxb : x = b
    · subst hxb
      have hm : Branch.matchesID x.ID x = true := by simp [Branch.matchesID, hnz]
      have hkeep : rest.filter (fun y => !Branch.matchesID x.ID y) = rest := by
        rw [List.filter_eq_self]
        intro y hy
        have : y.ID ≠ x.ID := hx y hy
        simp [Branch.matchesID, this]
      simp [List.filter_cons, hm, hkeep]
    · have hmem' : b ∈ rest := by
        rcases List.mem_cons.mp hmem with h | h
        · exact absurd h.symm hxb
        · exact h
      have hid : x.ID ≠ b.ID := fun h => hx b hmem' h.symm
      have hm : Branch.matchesID b.ID x = false := by simp [Branch.matchesID, hid]
      have hbeq : (x == b) = false := by simpa using hxb
      simp [List.filter_cons, hm, List.erase_cons, hbeq, ih hrest hmem']

/-- C4. The outcome of `DeleteBranch` does not depend on the removal of the image files.
For the branch `b` that the (non-zero) ID locates in the owner's sequence and every pattern
`env.removeErr` of failing removals, when no store call fails `DeleteBranch` answers 200,
calls `os.Remove` on every image path of `b` in order, and leaves as the owner's sequence
the prior one without the branches of that ID, the others unchanged and in the same order;
with distinct IDs in the sequence that is the prior sequence with `b` erased. -/
theorem DeleteBranch_ignores_removal_failures (env : Env) (req : Request) (w : World)
    (userID branchID : ObjectID) (owner : User) (b : Branch)
    (hcaller : callerID req = some userID)
    (hparam : ObjectIDFromHex req.paramID = some branchID)
    (hfind : env.findErr = none) (hpull : env.pullErr = none)
    (howner : FindOne w.users (User.hasID userID) = some owner)
    (hb : findBranch owner branchID = some b) (hnz : branchID ≠ NilObjectID) :
    (DeleteBranch env req w).2 = respond StatusOK "Branch deleted successfully" .none
    ∧ (DeleteBranch env req w).1.fs = w.fs ++ removeEvents env b.Images 0
    ∧ removeAttempts (DeleteBranch env req w).1.fs = removeAttempts w.fs ++ b.Images
    ∧ ownerBranches (DeleteBranch env req w).1 userID
        = some (owner.branches.filter (fun x => !Branch.matchesID branchID x))
    ∧ ((owner.branches.map Branch.ID).Nodup →
        ownerBranches (DeleteBranch env req w).1 userID = some (owner.branches.erase b)) := by
  have hrun := DeleteBranch_found env req w userID branchID owner b hcaller hparam hfind howner
    hb hnz
  rw [hpull] at hrun
  obtain ⟨hmem, hid, _⟩ := findBranch_matches owner branchID b hb hnz
  have hseq := ownerBranches_pull w.users (w.fs ++ removeEvents env b.Images 0) userID branchID
    owner howner
  rw [hrun]
  refine ⟨rfl, rfl, ?_, hseq, ?_⟩
  · simp [removeAttempts_append, removeAttempts_removeEvents]
  · intro hnodup
    rw [hseq, ← hid, filter_not_matches_eq_erase owner.branches b hnodup hmem (hid ▸ hnz)]

/-- Witness of C4: deleting the branch of the example, whose first image cannot be removed,
answers 200, tries both image paths and leaves the owner without branches. -/
theorem DeleteBranch_ignores_removal_failures_witness :
    (DeleteBranch sampleEnv sampleDelete sampleWorld).2
        = respond StatusOK "Branch deleted successfully" .none
    ∧ (DeleteBranch sampleEnv sampleDelete sampleWorld).1.fs
        = [.remove "uploads/a.png" false, .remove "uploads/b.png" true]
    ∧ ownerBranches (DeleteBranch sampleEnv sampleDelete sampleWorld).1 1 = some [] := by
  obtain ⟨hresp, hfs, _, _, hseq⟩ :=
    DeleteBranch_ignores_removal_failures sampleEnv sampleDelete sampleWorld 1 2 sampleOwner
      sampleBranch (by decide) (by decide) rfl rfl (by decide) (by decide) (by decide)
  exact ⟨hresp, hfs, hseq (by decide)⟩

/-! ## Mutating a branch that is not there -/

theorem FindOne_hasID_of_mem (users : List User) (u : User)
    (hnodup : (users.map User.ID).Nodup) (hmem : u ∈ users) :
    FindOne users (User.hasID u.ID) = some u := by
  induction users with
  | nil => simp at hmem
  | cons x rest ih =>
    simp only [List.map_cons, List.nodup_cons, List.mem_map, not_exists, not_and] at hnodup
    obtain ⟨hx, hrest⟩ := hnodup
    simp only [FindOne, List.find?_cons] at ih ⊢
    rcases List.mem_cons.mp hmem with h | h
    · subst h
      simp [User.hasID]
    · have hne : x.ID ≠ u.ID := fun he => hx u h he.symm
      have hx' : User.hasID u.ID x = false := by simp [User.hasID, hne]
      rw [hx']
      exact ih hrest h

theorem FindOne_hasBranch_none (users : List User) (userID branchID : ObjectID)
    (hnodup : (users.map User.ID).Nodup)
    (habsent : ∀ owner, FindOne users (User.hasID userID) = some owner →
      ∀ b ∈ owner.branches, b.ID ≠ branchID) :
    FindOne users (User.hasBranch userID branchID) = none := by
  simp only [FindOne, List.find?_eq_none]
  intro u hu hmatch
  simp only [User.hasBranch, Bool.and_eq_true, beq_iff_eq, List.any_eq_true] at hmatch
  obtain ⟨hid, b, hb, hm⟩ := hmatch
  have hfirst := FindOne_hasID_of_mem users u hnodup hu
  rw [hid] at hfirst
  have := habsent u hfirst b hb
  simp [Branch.matchesID, this] at hm

theorem FindOne_hasBranch_after_pull (users : List User) (userID branchID : ObjectID)
    (hnodup : (users.map User.ID).Nodup) :
    FindOne (updateDocs users userID (pullBranch branchID)) (User.hasBranch userID branchID)
      = none := by
  induction users with
  | nil => rfl
  | cons x rest ih =>
    simp only [List.map_cons, List.nodup_cons, List.mem_map, not_exists, not_and] at hnodup
    obtain ⟨hx, hrest⟩ := hnodup
    unfold updateDocs
    by_cases h : x.ID = userID
    · have hpulled : User.hasBranch userID branchID (pullBranch branchID x) = false := by
        simp only [User.hasBranch, pullBranch_branches, Bool.and_eq_false_iff]
        right
        simp [List.any_eq_false]
      have hnone : rest.find? (User.hasBranch userID branchID) = none := by
        rw [List.find?_eq_none]
        intro u hu hmatch
        simp only [User.hasBranch, Bool.and_eq_true, beq_iff_eq] at hmatch
        exact hx u hu (hmatch.1.trans h.symm)
      simp [FindOne, User.hasID, h, hpulled, hnone]
    · have hx' : User.hasBranch userID branchID x = false := by simp [User.hasBranch, h]
      simp only [FindOne] at ih
      simp [FindOne, User.hasID, h, hx', ih hrest]

theorem DeleteBranch_not_found (env : Env) (req : Request) (w : World)
    (userID branchID : ObjectID)
    (hcaller : callerID req = some userID)
    (hparam : ObjectIDFromHex req.paramID = some branchID)
    (hfind : env.findErr = none)
    (hnone : FindOne w.users (User.hasBranch userID branchID) = none) :
    DeleteBranch env req w = (w, respond StatusNotFound "Branch not found" .none) := by
  obtain ⟨claims, hc, huid⟩ := callerID_claims req userID hcaller
  have hne := paramID_ne_empty req branchID hparam
  simp only [DeleteBranch, hc, huid, hne, hparam, hfind, hnone, if_false]

theorem UpdateBranch_not_found (lib : Lib) (env : Env) (req : Request) (w : World)
    (userID branchID : ObjectID) (payload : JSONMap)
    (hcaller : callerID req = some userID)
    (hparam : ObjectIDFromHex req.paramID = some branchID)
    (hpayload : decodedPayload lib req = some payload)
    (hfind : env.findErr = none)
    (hnone : FindOne w.users (User.hasBranch userID branchID) = none) :
    UpdateBranch lib env req w = (w, respond StatusNotFound "Branch not found" .none) := by
  obtain ⟨claims, hc, huid⟩ := callerID_claims req userID hcaller
  obtain ⟨form, data0, rest, hform, hdata, hjson, _⟩ :=
    decodedPayload_form lib req payload hpayload
  have hne := paramID_ne_empty req branchID hparam
  simp only [UpdateBranch, hc, huid, hne, hparam, hform, hdata, hjson, hfind, hnone, if_false]

theorem DeleteBranch_ok_users (env : Env) (req : Request) (w : World)
    (userID branchID : ObjectID)
    (hcaller : callerID req = some userID)
    (hparam : ObjectIDFromHex req.paramID = some branchID)
    (hok : (DeleteBranch env req w).2 = respond StatusOK "Branch deleted successfully" .none) :
    (DeleteBranch env req w).1.users = updateDocs w.users userID (pullBranch branchID) := by
  obtain ⟨claims, hc, huid⟩ := callerID_claims req userID hcaller
  have hne := paramID_ne_empty req branchID hparam
  simp only [DeleteBranch, hc, huid, hne, hparam, if_false] at hok ⊢
  cases hfe : env.findErr with
  | some err => simp [hfe, respond, StatusOK, StatusInternalServerError] at hok
  | none =>
    simp only [hfe] at hok ⊢
    cases hfo : FindOne w.users (User.hasBranch userID branchID) with
    | none => simp [hfo, respond, StatusOK, StatusNotFound] at hok
    | some user =>
      simp only [hfo] at hok ⊢
      cases hpe : env.pullErr with
      | some err => simp [hpe, respond, StatusOK, StatusInternalServerError] at hok
      | none =>
        simp only [hpe] at hok ⊢
        split
        · next hz => simp [hz, respond, StatusOK, StatusNotFound] at hok
        · rfl

/-- C5. Mutating a branch that is not there is NotFound.  In a collection with distinct
`_id`s, for a caller and a well-formed branch ID: when that ID is the ID of no branch in the
sequence of the caller's account, `DeleteBranch` and (for a payload that decodes)
`UpdateBranch` both answer 404 and leave the collection and the files as they were; and when
a `DeleteBranch` has answered 200, the same deletion again answers 404. -/
theorem mutate_absent_branch_not_found (lib : Lib) (env env2 : Env) (req : Request)
    (w : World) (userID branchID : ObjectID)
    (hnodup : (w.users.map User.ID).Nodup)
    (hcaller : callerID req = some userID)
    (hparam : ObjectIDFromHex req.paramID = some branchID)
    (hfind : env.findErr = none) (hfind2 : env2.findErr = none) :
    ((∀ owner, FindOne w.users (User.hasID userID) = some owner →
          ∀ b ∈ owner.branches, b.ID ≠ branchID) →
        DeleteBranch env req w = (w, respond StatusNotFound "Branch not found" .none)
        ∧ ∀ payload, decodedPayload lib req = some payload →
            UpdateBranch lib env req w = (w, respond StatusNotFound "Branch not found" .none))
    ∧ ((DeleteBranch env req w).2 = respond StatusOK "Branch deleted successfully" .none →
        DeleteBranch env2 req (DeleteBranch env req w).1
          = ((DeleteBranch env req w).1, respond StatusNotFound "Branch not found" .none)) := by
  constructor
  · intro habsent
    have hnone := FindOne_hasBranch_none w.users userID branchID hnodup habsent
    exact ⟨DeleteBranch_not_found env req w userID branchID hcaller hparam hfind hnone,
      fun payload hpayload =>
        UpdateBranch_not_found lib env req w userID branchID payload hcaller hparam hpayload
          hfind hnone⟩
  · intro hok
    have husers := DeleteBranch_ok_users env req w userID branchID hcaller hparam hok
    apply DeleteBranch_not_found env2 req _ userID branchID hcaller hparam hfind2
    rw [husers]
    exact FindOne_hasBranch_after_pull w.users userID branchID hnodup

/-- Witness of C5: branch 9 is not owned by the account of the example, so deleting and
updating it answer 404 and change nothing; deleting branch 2 answers 200 and deleting it
again answers 404. -/
theorem mutate_absent_branch_not_found_witness :
    (DeleteBranch sampleEnv sampleAbsent sampleWorld
        = (sampleWorld, respond StatusNotFound "Branch not found" .none)
      ∧ UpdateBranch sampleLib sampleEnv sampleAbsent sampleWorld
        = (sampleWorld, respond StatusNotFound "Branch not found" .none))
    ∧ (DeleteBranch sampleEnv sampleDelete sampleWorld).2
        = respond StatusOK "Branch deleted successfully" .none
    ∧ (DeleteBranch sampleEnv sampleDelete (DeleteBranch sampleEnv sampleDelete sampleWorld).1).2
        = respond StatusNotFound "Branch not found" .none := by
  have habsent := (mutate_absent_branch_not_found sampleLib sampleEnv sampleEnv sampleAbsent
    sampleWorld 1 9 (by decide) (by decide) (by decide) rfl rfl).1
  have htwice := (mutate_absent_branch_not_found sampleLib sampleEnv sampleEnv sampleDelete
    sampleWorld 1 2 (by decide) (by decide) (by decide) rfl rfl).2
  have hfirst : (DeleteBranch sampleEnv sampleDelete sampleWorld).2
      = respond StatusOK "Branch deleted successfully" .none := by decide
  have hnot : ∀ owner, FindOne sampleWorld.users (User.hasID 1) = some owner →
      ∀ b ∈ owner.branches, b.ID ≠ 9 := by
    intro owner howner b hb
    have : owner = sampleOwner := by
      have h : FindOne sampleWorld.users (User.hasID 1) = some sampleOwner := by decide
      rw [h] at howner
      exact (Option.some.inj howner).symm
    subst this
    have hb' : b = sampleBranch := by simpa [sampleOwner, User.branches, CompanyInfo.zero] using hb
    subst hb'
    decide
  obtain ⟨hdel, hupd⟩ := habsent hnot
  refine ⟨⟨hdel, hupd [("name", .str "X")] rfl⟩, hfirst, ?_⟩
  rw [htwice hfirst]

/-! ## `GetBranches` -/

/-- C7 (evaluation of the defect). The caller of the example holds a token for the subject
ID 1; in a collection without any account `CreateBranch` still answers 200 "Branch created
successfully", with the data of a branch that is stored nowhere: the result of `UpdateByID`
is logged and its `MatchedCount` never looked at. -/
theorem CreateBranch_unknown_owner_reports_success :
    callerID sampleCreate = some 1
    ∧ FindOne emptyWorld.users (User.hasID 1) = none
    ∧ CreateBranch sampleLib sampleEnv sampleCreate emptyWorld
        = (emptyWorld,
            respond StatusOK "Branch created successfully"
              (.branch { _id := "000000000000000000000003", name := "Main", location := "",
                         latitude := ⟨0x4040e66666666666⟩, longitude := ⟨0x4040800000000000⟩,
                         images := [], Phone := "", Category := "", SubCategory := "",
                         Description := "" })) := by
  refine ⟨by decide, by decide, ?_⟩
  decide

/-! ## Writes stay inside the caller's document -/

theorem CreateBranch_users (lib : Lib) (env : Env) (req : Request) (w : World)
    (userID : ObjectID) (hcaller : callerID req = some userID) :
    (CreateBranch lib env req w).1.users = w.users
    ∨ ∃ branch, (CreateBranch lib env req w).1.users
        = updateDocs w.users userID (pushBranch branch) := by
  obtain ⟨claims, hc, huid⟩ := callerID_claims req userID hcaller
  simp only [CreateBranch, hc, huid]
  repeat' split
  all_goals first
    | exact Or.inl rfl
    | exact Or.inr ⟨_, rfl⟩

theorem DeleteBranch_users (env : Env) (req : Request) (w : World)
    (userID : ObjectID) (hcaller : callerID req = some userID) :
    (DeleteBranch env req w).1.users = w.users
    ∨ ∃ branchID, (DeleteBranch env req w).1.users
        = updateDocs w.users userID (pullBranch branchID) := by
  obtain ⟨claims, hc, huid⟩ := callerID_claims req userID hcaller
  simp only [DeleteBranch, hc, huid]
  repeat' split
  all_goals first
    | exact Or.inl rfl
    | exact Or.inr ⟨_, rfl⟩

theorem UpdateBranch_users (lib : Lib) (env : Env) (req : Request) (w : World)
    (userID : ObjectID) (hcaller : callerID req = some userID) :
    (UpdateBranch lib env req w).1.users = w.users
    ∨ (∃ branchID, (UpdateBranch lib env req w).1.users
        = updateDocs w.users userID (pullBranch branchID))
    ∨ ∃ branchID branch, (UpdateBranch lib env req w).1.users
        = updateDocs (updateDocs w.users userID (pullBranch branchID)) userID
            (pushBranch branch) := by
  obtain ⟨claims, hc, huid⟩ := callerID_claims req userID hcaller
  simp only [UpdateBranch, hc, huid]
  repeat' split
  all_goals first
    | exact Or.inl rfl
    | exact Or.inr (Or.inl ⟨_, rfl⟩)
    | exact Or.inr (Or.inr ⟨_, _, rfl⟩)

/-- C8. No cross-account write.  For a caller with subject ID `A`, any payload and any
branch ID, the account documents whose `_id` is not `A` are the same, in the same order,
after `CreateBranch`, after `UpdateBranch` and after `DeleteBranch` as before. -/
theorem no_cross_account_write (lib : Lib) (env : Env) (req : Request) (w : World)
    (A : ObjectID) (hcaller : callerID req = some A) :
    (CreateBranch lib env req w).1.users.filter (fun u => u.ID ≠ A)
        = w.users.filter (fun u => u.ID ≠ A)
    ∧ (UpdateBranch lib env req w).1.users.filter (fun u => u.ID ≠ A)
        = w.users.filter (fun u => u.ID ≠ A)
    ∧ (DeleteBranch env req w).1.users.filter (fun u => u.ID ≠ A)
        = w.users.filter (fun u => u.ID ≠ A) := by
  refine ⟨?_, ?_, ?_⟩
  · rcases CreateBranch_users lib env req w A hcaller with h | ⟨branch, h⟩
    · rw [h]
    · rw [h, updateDocs_filter_ne _ _ _ (pushBranch_ID branch)]
  · rcases UpdateBranch_users lib env req w A hcaller with h | ⟨branchID, h⟩ | ⟨branchID, branch, h⟩
    · rw [h]
    · rw [h, updateDocs_filter_ne _ _ _ (pullBranch_ID branchID)]
    · rw [h, updateDocs_filter_ne _ _ _ (pushBranch_ID branch),
        updateDocs_filter_ne _ _ _ (pullBranch_ID branchID)]
  · rcases DeleteBranch_users env req w A hcaller with h | ⟨branchID, h⟩
    · rw [h]
    · rw [h, updateDocs_filter_ne _ _ _ (pullBranch_ID branchID)]

/-- Witness of C8: account 1 asks to update branch 5, which account 4 owns; the answer is
404 and the document of account 4 is what it was. -/
theorem no_cross_account_write_witness :
    (UpdateBranch sampleLib sampleEnv sampleForeign sampleTwoWorld).2
        = respond StatusNotFound "Branch not found" .none
    ∧ (UpdateBranch sampleLib sampleEnv sampleForeign sampleTwoWorld).1.users.filter
        (fun u => u.ID ≠ 1) = [sampleOther]
    ∧ (CreateBranch sampleLib sampleEnv sampleCreate sampleTwoWorld).1.users.filter
        (fun u => u.ID ≠ 1) = [sampleOther]
    ∧ (DeleteBranch sampleEnv sampleForeign sampleTwoWorld).1.users.filter
        (fun u => u.ID ≠ 1) = [sampleOther] := by
  obtain ⟨_, hupd, hdel⟩ :=
    no_cross_account_write sampleLib sampleEnv sampleForeign sampleTwoWorld 1 (by decide)
  obtain ⟨hcre, _, _⟩ :=
    no_cross_account_write sampleLib sampleEnv sampleCreate sampleTwoWorld 1 (by decide)
  have hkeep : sampleTwoWorld.users.filter (fun u => u.ID ≠ 1) = [sampleOther] := by decide
  refine ⟨by decide, ?_, ?_, ?_⟩
  · rw [hupd, hkeep]
  · rw [hcre, hkeep]
  · rw [hdel, hkeep]

/-! ## Image replacement and listing -/

/-- C11 (counterexample). For the subject `u1`, the email `a@x.com` and the role `company`,
the typed payload yields the triple with the email and the map payload yields the triple
with an empty email: the two shapes do not normalise to the same triple. -/
theorem GetUserFromToken_shapes_differ :
    (∃ c c' : JwtCustomClaims,
      GetUserFromToken (typedPayload "u1" "a@x.com" "company" StandardClaims.zero)
          = .value (some c)
      ∧ GetUserFromToken (mapPayload "u1" "a@x.com" "company") = .value (some c')
      ∧ c.triple = ("u1", "a@x.com", "company")
      ∧ c'.triple = ("u1", "", "company")
      ∧ c.triple ≠ c'.triple) :=
  ⟨_, _, rfl, rfl, rfl, rfl, by decide⟩

/-- C11 (amended). For every subject ID, email and role, `GetUserFromToken` returns the typed
payload unchanged, standard claims included, and turns the map payload with the keys
`userId`, `email` and `userType` into claims with the same subject ID and the same role;
the email of the map payload is not read, the email of the result is empty. -/
theorem GetUserFromToken_normalises (subjectID email role : String) (std : StandardClaims) :
    GetUserFromToken (typedPayload subjectID email role std)
        = .value (some { UserID := subjectID, Email := email, UserType := role,
                         Standard := std })
    ∧ GetUserFromToken (mapPayload subjectID email role)
        = .value (some { UserID := subjectID, Email := "", UserType := role,
                         Standard := StandardClaims.zero }) := by
  refine ⟨rfl, ?_⟩
  have h1 : mapIndex [("userId", Value.str subjectID), ("email", Value.str email),
      ("userType", Value.str role)] "userId" = some (.str subjectID) := rfl
  have h2 : mapIndex [("userId", Value.str subjectID), ("email", Value.str email),
      ("userType", Value.str role)] "userType" = some (.str role) := by
    simp [mapIndex, List.lookup]
  simp only [GetUserFromToken, mapPayload, assertString, h1, h2]

/-- C12 (evaluation of the defect). Map claims without `userId`, map claims whose `userId`
is a number and map claims without `userType` make `GetUserFromToken` panic on its
one-valued type assertion `.(string)`; it has no error result. -/
theorem GetUserFromToken_panics_on_malformed_map :
    GetUserFromToken (.token (.map [("userType", .str "company")]))
        = .panic "interface conversion: interface {} is not string"
    ∧ GetUserFromToken (.token (.map [("userId", .float64 ⟨0x4045000000000000⟩),
          ("userType", .str "company")]))
        = .panic "interface conversion: interface {} is not string"
    ∧ GetUserFromToken (.token (.map [("userId", .str "000000000000000000000001")]))
        = .panic "interface conversion: interface {} is not string"
    ∧ ExtractUserID (.token (.map [("userType", .str "company")]))
        = .value (.error "invalid user ID in token") :=
  ⟨rfl, rfl, rfl, rfl⟩

/-- C13. `ExtractUserID` on map claims: the string under `userId` when there is one,
whatever `id` holds; otherwise the string under `id` when there is one; otherwise the error
`invalid user ID in token`. -/
theorem ExtractUserID_fallback_order (m : JSONMap) :
    (∀ s, mapIndex m "userId" = some (.str s) →
        ExtractUserID (.token (.map m)) = .value (.ok s))
    ∧ ((∀ s, mapIndex m "userId" ≠ some (.str s)) → ∀ t, mapIndex m "id" = some (.str t) →
        ExtractUserID (.token (.map m)) = .value (.ok t))
    ∧ ((∀ s, mapIndex m "userId" ≠ some (.str s)) → (∀ t, mapIndex m "id" ≠ some (.str t)) →
        ExtractUserID (.token (.map m)) = .value (.error "invalid user ID in token"))
    ∧ (∀ s t, mapIndex m "userId" = some (.str s) → mapIndex m "id" = some (.str t) →
        ExtractUserID (.token (.map m)) = .value (.ok s)) := by
  have hfirst : ∀ s, mapIndex m "userId" = some (.str s) →
      ExtractUserID (.token (.map m)) = .value (.ok s) := by
    intro s hs
    simp only [ExtractUserID, hs]
  have hskip : (∀ s, mapIndex m "userId" ≠ some (.str s)) →
      ExtractUserID (.token (.map m)) =
        match mapIndex m "id" with
        | some (.str userID) => .value (.ok userID)
        | _ => .value (.error "invalid user ID in token") := by
    intro hno
    have hdef : ExtractUserID (.token (.map m)) =
        match mapIndex m "userId" with
        | some (.str userID) => .value (.ok userID)
        | _ =>
          match mapIndex m "id" with
          | some (.str userID) => .value (.ok userID)
          | _ => .value (.error "invalid user ID in token") := rfl
    rw [hdef]
    split
    · next s hs => exact absurd hs (hno s)
    · rfl
  refine ⟨hfirst, ?_, ?_, fun s _ hs _ => hfirst s hs⟩
  · intro hno t ht
    rw [hskip hno, ht]
  · intro hno hnoid
    rw [hskip hno]
    split
    · next t ht => exact absurd ht (hnoid t)
    · rfl

/-- Witness of C13: with both keys `userId` wins, with `id` only `id` is returned, with
neither the call fails. -/
theorem ExtractUserID_fallback_order_witness :
    ExtractUserID (.token (.map [("id", .str "b"), ("userId", .str "a")])) = .value (.ok "a")
    ∧ ExtractUserID (.token (.map [("id", .str "b"), ("userId", .float64 ⟨0⟩)]))
        = .value (.ok "b")
    ∧ ExtractUserID (.token (.map [("email", .str "a@x.com")]))
        = .value (.error "invalid user ID in token") := by
  refine ⟨?_, ?_, ?_⟩
  · exact (ExtractUserID_fallback_order [("id", .str "b"), ("userId", .str "a")]).2.2.2
      "a" "b" rfl rfl
  · exact (ExtractUserID_fallback_order [("id", .str "b"), ("userId", .float64 ⟨0⟩)]).2.1
      (fun s h => by simp [mapIndex, List.lookup] at h) "b" rfl
  · exact (ExtractUserID_fallback_order [("email", .str "a@x.com")]).2.2.1
      (fun s h => by simp [mapIndex, List.lookup] at h)
      (fun s h => by simp [mapIndex, List.lookup] at h)

/-! ## Session issuer -/

/-- C14 (counterexample). With no signing secret configured and a signer that signs with any
key, `GenerateJWT` returns a credential: it has no check of the secret. -/
theorem GenerateJWT_signs_without_secret :
    noSecretEnv.jwtSecret = ""
    ∧ GenerateJWT sampleAuthLib noSecretEnv 0 "000000000000000000000001" "a@x.com" "company"
        = .ok "hs256.000000000000000000000001.a@x.com.company." :=
  ⟨rfl, rfl⟩

/-- C14 (amended). `GenerateJWT` does not look at the secret: for every subject ID, email and
role its result, credential or error, is the result of signing, with whatever
`JWT_SECRET` holds as the key, the claims that bind the three fields, the issue time and
the expiry 24 hours later; so without a secret it returns whatever signing with the empty
key returns. -/
theorem GenerateJWT_passes_secret_through (lib : AuthLib) (env : AuthEnv) (k : Nat)
    (userID email userType : String) :
    GenerateJWT lib env k userID email userType
        = lib.SignedString
            { UserID := userID, Email := email, UserType := userType,
              Standard := { StandardClaims.zero with
                            ExpiresAt := env.now k + 86400, IssuedAt := env.now (k + 1) } }
            env.jwtSecret
    ∧ (env.jwtSecret = "" → ∀ token,
        lib.SignedString
            { UserID := userID, Email := email, UserType := userType,
              Standard := { StandardClaims.zero with
                            ExpiresAt := env.now k + 86400, IssuedAt := env.now (k + 1) } }
            "" = .ok token →
        GenerateJWT lib env k userID email userType = .ok token) := by
  have hrun : GenerateJWT lib env k userID email userType
      = lib.SignedString
          { UserID := userID, Email := email, UserType := userType,
            Standard := { StandardClaims.zero with
                          ExpiresAt := env.now k + 86400, IssuedAt := env.now (k + 1) } }
          env.jwtSecret := by
    simp only [GenerateJWT, addHours, unixSeconds]
    norm_num
  refine ⟨hrun, ?_⟩
  intro hempty token hsign
  rw [hrun, hempty, hsign]

/-! ## `Signup` and `Login` -/

theorem isValidUserType_iff (t : String) :
    isValidUserType t = true
      ↔ t = "user" ∨ t = "company" ∨ t = "wholesaler" ∨ t = "serviceProvider" := by
  by_cases h1 : t = "user"
  · subst h1; decide
  by_cases h2 : t = "company"
  · subst h2; decide
  by_cases h3 : t = "wholesaler"
  · subst h3; decide
  by_cases h4 : t = "serviceProvider"
  · subst h4; decide
  have b1 : (t == "user") = false := by simpa using h1
  have b2 : (t == "company") = false := by simpa using h2
  have b3 : (t == "wholesaler") = false := by simpa using h3
  have b4 : (t == "serviceProvider") = false := by simpa using h4
  simp [isValidUserType, validUserTypes, List.lookup, h1, h2, h3, h4, b1, b2, b3, b4]

theorem validSignup_iff (p : SignupRequest) :
    validSignup p = true
      ↔ ¬(p.Email = "" ∨ p.Password = "" ∨ p.FullName = "" ∨ p.UserType = "")
        ∧ isValidUserType p.UserType = true := by
  rw [isValidUserType_iff]
  simp only [validSignup, Bool.and_eq_true, bne_iff_ne, ne_eq, List.contains_iff_exists_mem_beq,
    not_or]
  constructor
  · rintro ⟨⟨⟨h1, h2⟩, h3⟩, t, ht, hbeq⟩
    have heq : p.UserType = t := by simpa using hbeq
    have hmem : p.UserType = "user" ∨ p.UserType = "company" ∨ p.UserType = "wholesaler"
        ∨ p.UserType = "serviceProvider" := by
      rw [heq]
      simpa using ht
    refine ⟨⟨h1, h2, h3, ?_⟩, hmem⟩
    rcases hmem with h | h | h | h <;> rw [h] <;> decide
  · rintro ⟨⟨h1, h2, h3, _⟩, hmem⟩
    refine ⟨⟨⟨h1, h2⟩, h3⟩, p.UserType, ?_, by simp⟩
    simpa using hmem

theorem Signup_missing_fields (lib : AuthLib) (env : AuthEnv) (req : SignupHTTP) (w : World)
    (p : SignupRequest) (logoPath : String) (events : List FSEvent)
    (hparse : parseSignup lib env req = .parsed p logoPath events)
    (hempty : p.Email = "" ∨ p.Password = "" ∨ p.FullName = "" ∨ p.UserType = "") :
    Signup lib env req w
      = ({ w with fs := w.fs ++ events },
          respond StatusBadRequest "Missing required fields" .none) := by
  simp only [Signup, hparse, hempty, if_true]

theorem Signup_invalid_type (lib : AuthLib) (env : AuthEnv) (req : SignupHTTP) (w : World)
    (p : SignupRequest) (logoPath : String) (events : List FSEvent)
    (hparse : parseSignup lib env req = .parsed p logoPath events)
    (hfull : ¬(p.Email = "" ∨ p.Password = "" ∨ p.FullName = "" ∨ p.UserType = ""))
    (htype : isValidUserType p.UserType = false) :
    Signup lib env req w
      = ({ w with fs := w.fs ++ events },
          respond StatusBadRequest "Invalid user type" .none) := by
  simp only [Signup, hparse, hfull, if_false, htype, Bool.not_false, if_true]

theorem Signup_valid_run (lib : AuthLib) (env : AuthEnv) (req : SignupHTTP) (w : World)
    (p : SignupRequest) (logoPath : String) (events : List FSEvent)
    (hparse : parseSignup lib env req = .parsed p logoPath events)
    (hvalid : validSignup p = true) :
    Signup lib env req w =
      if foundWithoutError env w.users (User.hasEmail p.Email) then
        ({ w with fs := w.fs ++ events },
          respond StatusConflict "User with this email already exists" .none)
      else
        match lib.HashPassword p.Password with
        | .error _ =>
          ({ w with fs := w.fs ++ events },
            respond StatusInternalServerError "Failed to hash password" .none)
        | .ok hashedPassword =>
          match env.insertErr with
          | some err =>
            ({ w with fs := w.fs ++ events },
              respond StatusInternalServerError ("Failed to create user: " ++ err) .none)
          | none =>
            match GenerateJWT lib env 1 (ObjectID.Hex env.insertedID) p.Email p.UserType with
            | .error _ =>
              ({ users := insertDoc w.users env.insertedID
                            (newUser env p hashedPassword logoPath),
                 fs := w.fs ++ events },
                respond StatusInternalServerError "Failed to generate token" .none)
            | .ok token =>
              ({ users := insertDoc w.users env.insertedID
                            (newUser env p hashedPassword logoPath),
                 fs := w.fs ++ events },
                respond StatusCreated "User created successfully"
                  (.signup token env.insertedID p.Email p.FullName p.UserType logoPath)) := by
  obtain ⟨hfull, htype⟩ := (validSignup_iff p).mp hvalid
  simp only [Signup, hparse, hfull, if_false, htype, Bool.not_true, Bool.false_eq_true]

/-- C15. The input validation of `Signup`.  For every request that parses to a payload: if
one of email, password, fullName and userType is empty, or userType is none of `user`,
`company`, `wholesaler`, `serviceProvider`, the answer is 400 and the collection is what it
was; and if all four are non-empty and userType is one of the four, the answer is a response
whose status is not 400. -/
theorem Signup_input_validation (lib : AuthLib) (env : AuthEnv) (req : SignupHTTP) (w : World)
    (p : SignupRequest) (logoPath : String) (events : List FSEvent)
    (hparse : parseSignup lib env req = .parsed p logoPath events) :
    (validSignup p = false →
      ((Signup lib env req w).2 = respond StatusBadRequest "Missing required fields" .none
        ∨ (Signup lib env req w).2 = respond StatusBadRequest "Invalid user type" .none)
      ∧ (Signup lib env req w).1.users = w.users)
    ∧ ((p.Email = "" ∨ p.Password = "" ∨ p.FullName = "" ∨ p.UserType = "") →
        (Signup lib env req w).2 = respond StatusBadRequest "Missing required fields" .none)
    ∧ (validSignup p = true →
        ∃ r, (Signup lib env req w).2 = .value r ∧ r.code ≠ StatusBadRequest) := by
  refine ⟨?_, ?_, ?_⟩
  · intro hinvalid
    have hnot : ¬(validSignup p = true) := by simp [hinvalid]
    rw [validSignup_iff] at hnot
    by_cases hempty : p.Email = "" ∨ p.Password = "" ∨ p.FullName = "" ∨ p.UserType = ""
    · rw [Signup_missing_fields lib env req w p logoPath events hparse hempty]
      exact ⟨Or.inl rfl, rfl⟩
    · have htype : isValidUserType p.UserType = false := by
        cases h : isValidUserType p.UserType
        · rfl
        · exact absurd ⟨hempty, h⟩ hnot
      rw [Signup_invalid_type lib env req w p logoPath events hparse hempty htype]
      exact ⟨Or.inr rfl, rfl⟩
  · intro hempty
    rw [Signup_missing_fields lib env req w p logoPath events hparse hempty]
  · intro hvalid
    rw [Signup_valid_run lib env req w p logoPath events hparse hvalid]
    repeat' split
    all_goals
      exact ⟨_, rfl, by simp [StatusBadRequest, StatusConflict, StatusInternalServerError,
        StatusCreated]⟩

/-- Witness of C15: a payload without a password and a payload with the role `admin` are
answered 400 with nothing stored; the valid payload of the example is answered 201. -/
theorem Signup_input_validation_witness :
    (Signup sampleAuthLib sampleAuthEnv
        (sampleSignup { sampleSignupRequest with Password := "" }) emptyWorld).2
      = respond StatusBadRequest "Missing required fields" .none
    ∧ ((Signup sampleAuthLib sampleAuthEnv
          (sampleSignup { sampleSignupRequest with UserType := "admin" }) emptyWorld).2
        = respond StatusBadRequest "Invalid user type" .none
      ∧ (Signup sampleAuthLib sampleAuthEnv
          (sampleSignup { sampleSignupRequest with UserType := "admin" }) emptyWorld).1.users
        = [])
    ∧ ∃ r, (Signup sampleAuthLib sampleAuthEnv (sampleSignup sampleSignupRequest)
              emptyWorld).2 = .value r
        ∧ r.code ≠ StatusBadRequest := by
  have h1 := (Signup_input_validation sampleAuthLib sampleAuthEnv
    (sampleSignup { sampleSignupRequest with Password := "" }) emptyWorld
    { sampleSignupRequest with Password := "" } "" [] rfl).2.1 (by decide)
  have h2 := (Signup_input_validation sampleAuthLib sampleAuthEnv
    (sampleSignup { sampleSignupRequest with UserType := "admin" }) emptyWorld
    { sampleSignupRequest with UserType := "admin" } "" [] rfl).1 (by decide)
  have h3 := (Signup_input_validation sampleAuthLib sampleAuthEnv
    (sampleSignup sampleSignupRequest) emptyWorld sampleSignupRequest "" [] rfl).2.2
    (by decide)
  refine ⟨h1, ⟨?_, h2.2⟩, h3⟩
  rcases h2.1 with h | h
  · exact absurd h (by decide)
  · exact h

theorem FindOne_isSome_of_mem (users : List User) (filter : User → Bool) (u : User)
    (hmem : u ∈ users) (hmatch : filter u = true) : (FindOne users filter).isSome = true := by
  simp only [FindOne, List.find?_isSome]
  exact ⟨u, hmem, hmatch⟩

theorem FindOne_none_of_forall (users : List User) (filter : User → Bool)
    (hnone : ∀ u ∈ users, filter u = false) : FindOne users filter = none := by
  simp only [FindOne, List.find?_eq_none]
  intro u hu
  simp [hnone u hu]

/-- The duplicate check of `Signup` when the lookup works: for a valid payload whose email is
the email of a stored account and a lookup that returns no error, the answer is 409 and the
collection is what it was. -/
theorem Signup_duplicate_email (lib : AuthLib) (env : AuthEnv) (req : SignupHTTP) (w : World)
    (p : SignupRequest) (logoPath : String) (events : List FSEvent) (account : User)
    (hparse : parseSignup lib env req = .parsed p logoPath events)
    (hvalid : validSignup p = true)
    (hfind : env.findErr = none)
    (hmem : account ∈ w.users) (hemail : account.Email = p.Email) :
    (Signup lib env req w).2
        = respond StatusConflict "User with this email already exists" .none
    ∧ (Signup lib env req w).1.users = w.users := by
  have hfound : foundWithoutError env w.users (User.hasEmail p.Email) = true := by
    simp only [foundWithoutError, hfind, Option.isNone_none, Bool.true_and]
    exact FindOne_isSome_of_mem w.users _ account hmem (by simp [User.hasEmail, hemail])
  rw [Signup_valid_run lib env req w p logoPath events hparse hvalid, hfound]
  exact ⟨rfl, rfl⟩

/-- C16 (evaluation of the defect). The collection holds an account with the email
`c@x.com` and the lookup by email returns an error other than "no documents"; the valid
signup with that email is answered 201, not 409, and a second account with the email is
stored: `Signup` only tests `err == nil` and takes every failed lookup for a free email. -/
theorem Signup_lookup_error_inserts_duplicate :
    validSignup sampleSignupRequest = true
    ∧ (∃ account ∈ sampleTakenWorld.users, account.Email = sampleSignupRequest.Email)
    ∧ sampleLookupFails.findErr = some "context deadline exceeded"
    ∧ (∃ r, (Signup sampleAuthLib sampleLookupFails (sampleSignup sampleSignupRequest)
          sampleTakenWorld).2 = .value r ∧ r.code = StatusCreated)
    ∧ (Signup sampleAuthLib sampleLookupFails (sampleSignup sampleSignupRequest)
        sampleTakenWorld).1.users.map User.Email = ["c@x.com", "c@x.com"]
    ∧ (Signup sampleAuthLib sampleLookupFails (sampleSignup sampleSignupRequest)
        sampleTakenWorld).1.users.map User.ID = [8, 7] := by
  refine ⟨by decide, ⟨_, List.mem_singleton.mpr rfl, rfl⟩, rfl, ⟨_, rfl, by decide⟩, by decide,
    by decide⟩

theorem FindOne_insertDoc_fresh (users : List User) (id : ObjectID) (doc : User)
    (email : String) (hfresh : ∀ u ∈ users, u.Email ≠ email) (hdoc : doc.Email = email) :
    FindOne (insertDoc users id doc) (User.hasEmail email) = some { doc with ID := id } := by
  have hnone : users.find? (User.hasEmail email) = none := by
    rw [List.find?_eq_none]
    intro u hu
    simp [User.hasEmail, hfresh u hu]
  simp [FindOne, insertDoc, List.find?_append, hnone, User.hasEmail, hdoc]

/-- C17. `Signup` then `Login`.  Assume the hashing collaborator hashes the password `p` to a
digest `h` with `verify(p, h)` and `h ≠ p`.  For every valid signup with the password `p`
and an email no stored account has, when the insert and the signing do not fail `Signup`
answers 201, the stored account has the password field `h`, which is not `p`, and a `Login`
with the same email and `p` afterwards answers 200 with the credential `GenerateJWT` issues
for the ID, the email and the role of that account. -/
theorem Signup_then_Login (lib : AuthLib) (env env2 : AuthEnv) (req : SignupHTTP) (w : World)
    (p : SignupRequest) (logoPath : String) (events : List FSEvent)
    (h token token2 : String)
    (hparse : parseSignup lib env req = .parsed p logoPath events)
    (hvalid : validSignup p = true)
    (hfresh : ∀ u ∈ w.users, u.Email ≠ p.Email)
    (hhash : lib.HashPassword p.Password = .ok h)
    (hverify : lib.CheckPassword p.Password h = true)
    (hne : h ≠ p.Password)
    (hinsert : env.insertErr = none)
    (hsign : GenerateJWT lib env 1 (ObjectID.Hex env.insertedID) p.Email p.UserType
      = .ok token)
    (hfind2 : env2.findErr = none)
    (hsign2 : GenerateJWT lib env2 0 (ObjectID.Hex env.insertedID) p.Email p.UserType
      = .ok token2) :
    ∃ stored : User,
      (Signup lib env req w).2
          = respond StatusCreated "User created successfully"
              (.signup token env.insertedID p.Email p.FullName p.UserType logoPath)
      ∧ FindOne (Signup lib env req w).1.users (User.hasEmail p.Email) = some stored
      ∧ stored.ID = env.insertedID ∧ stored.Email = p.Email ∧ stored.UserType = p.UserType
      ∧ stored.Password = h ∧ stored.Password ≠ p.Password
      ∧ Login lib env2 { bind := .ok { Email := p.Email, Password := p.Password } }
            (Signup lib env req w).1
          = ((Signup lib env req w).1,
              respond StatusOK "Login successful"
                (.login token2 stored.ID stored.Email stored.FullName stored.UserType)) := by
  have hnofind : foundWithoutError env w.users (User.hasEmail p.Email) = false := by
    have hnone := FindOne_none_of_forall w.users (User.hasEmail p.Email)
      (fun u hu => by simp [User.hasEmail, hfresh u hu])
    simp [foundWithoutError, hnone]
  have hrun := Signup_valid_run lib env req w p logoPath events hparse hvalid
  rw [hnofind] at hrun
  simp only [Bool.false_eq_true, if_false, hhash, hinsert, hsign] at hrun
  have hstored := FindOne_insertDoc_fresh w.users env.insertedID (newUser env p h logoPath)
    p.Email hfresh rfl
  refine ⟨{ newUser env p h logoPath with ID := env.insertedID }, ?_, ?_, rfl, rfl, rfl, rfl,
    hne, ?_⟩
  · rw [hrun]
  · rw [hrun]
    exact hstored
  · rw [hrun]
    simp only [Login, hfind2, hstored]
    simp only [newUser, hverify, Bool.not_true, Bool.false_eq_true, if_false, hsign2]

/-- Witness of C17: the signup of the example into an empty collection stores the digest
`bcrypt$pw` for the password `pw`, and the login with `pw` afterwards is answered 200 with a
credential for the ID 7, the email `c@x.com` and the role `user`. -/
theorem Signup_then_Login_witness :
    ∃ stored : User,
      FindOne (Signup sampleAuthLib sampleAuthEnv (sampleSignup sampleSignupRequest)
          emptyWorld).1.users (User.hasEmail "c@x.com") = some stored
      ∧ stored.Password = "bcrypt$pw"
      ∧ (Login sampleAuthLib sampleAuthEnv (sampleLogin "c@x.com" "pw")
          (Signup sampleAuthLib sampleAuthEnv (sampleSignup sampleSignupRequest)
            emptyWorld).1).2
        = respond StatusOK "Login successful"
            (.login "hs256.000000000000000000000007.c@x.com.user.s3cret" 7 "c@x.com" "Cleo"
              "user") := by
  obtain ⟨stored, _, hstored, hid, hemail, hrole, hpw, _, hlogin⟩ :=
    Signup_then_Login sampleAuthLib sampleAuthEnv sampleAuthEnv
      (sampleSignup sampleSignupRequest) emptyWorld sampleSignupRequest "" [] "bcrypt$pw"
      "hs256.000000000000000000000007.c@x.com.user.s3cret"
      "hs256.000000000000000000000007.c@x.com.user.s3cret"
      rfl (by decide) (by intro u hu; simp [emptyWorld] at hu) rfl (by decide) (by decide) rfl
      rfl rfl rfl
  refine ⟨stored, hstored, hpw, ?_⟩
  have hname : stored.FullName = "Cleo" := by
    have h2 : FindOne (Signup sampleAuthLib sampleAuthEnv (sampleSignup sampleSignupRequest)
        emptyWorld).1.users (User.hasEmail sampleSignupRequest.Email)
        = some { newUser sampleAuthEnv sampleSignupRequest "bcrypt$pw" "" with ID := 7 } := by
      decide
    rw [Option.some.inj (hstored.symm.trans h2)]
    rfl
  have hl : Login sampleAuthLib sampleAuthEnv (sampleLogin "c@x.com" "pw")
      (Signup sampleAuthLib sampleAuthEnv (sampleSignup sampleSignupRequest) emptyWorld).1
      = _ := hlogin
  rw [hl, hid, hemail, hrole, hname]
  rfl

/-- C18. `Login` does not tell whether an account exists.  For every login request, the
response in a store where no account has the email and the response in a store where an
account has it and the password fails verification are the same, 401 with the same message,
and that status is not 404. -/
theorem Login_does_not_reveal_existence (lib : AuthLib) (env : AuthEnv) (req : LoginHTTP)
    (w1 w2 : World) (loginReq : LoginRequest) (user : User)
    (hbind : req.bind = .ok loginReq)
    (hfind : env.findErr = none)
    (habsent : FindOne w1.users (User.hasEmail loginReq.Email) = none)
    (hpresent : FindOne w2.users (User.hasEmail loginReq.Email) = some user)
    (hfails : lib.CheckPassword loginReq.Password user.Password = false) :
    (Login lib env req w1).2 = (Login lib env req w2).2
    ∧ (Login lib env req w1).2 = respond StatusUnauthorized "Invalid email or password" .none
    ∧ (Login lib env req w2).2 = respond StatusUnauthorized "Invalid email or password" .none
    ∧ StatusUnauthorized = 401 ∧ StatusUnauthorized ≠ StatusNotFound := by
  have h1 : (Login lib env req w1).2
      = respond StatusUnauthorized "Invalid email or password" .none := by
    simp only [Login, hbind, hfind, habsent]
  have h2 : (Login lib env req w2).2
      = respond StatusUnauthorized "Invalid email or password" .none := by
    simp only [Login, hbind, hfind, hpresent, hfails, Bool.not_false, if_true]
  exact ⟨h1.trans h2.symm, h1, h2, rfl, by decide⟩

/-- Witness of C18: logging in as `c@x.com` against the empty collection and, with a wrong
password, against the collection that holds the account get the same 401. -/
theorem Login_does_not_reveal_existence_witness :
    (Login sampleAuthLib sampleAuthEnv (sampleLogin "c@x.com" "guess") emptyWorld).2
      = (Login sampleAuthLib sampleAuthEnv (sampleLogin "c@x.com" "guess") sampleTakenWorld).2
    ∧ (Login sampleAuthLib sampleAuthEnv (sampleLogin "c@x.com" "guess") sampleTakenWorld).2
      = respond StatusUnauthorized "Invalid email or password" .none := by
  obtain ⟨hsame, _, h2, _⟩ :=
    Login_does_not_reveal_existence sampleAuthLib sampleAuthEnv
      (sampleLogin "c@x.com" "guess") emptyWorld sampleTakenWorld
      { Email := "c@x.com", Password := "guess" }
      { User.zero with ID := 8, Email := "c@x.com", Password := "bcrypt$old",
                       FullName := "Carl", UserType := "company" }
      rfl rfl (by decide) (by decide) (by decide)
  exact ⟨hsame, h2⟩

/-! ## `UpdateProfile` -/

/-- C19 (evaluation of the defect). The account of the example has the full name
`Old Name`; the update with the payload `fullName: "New Name"` is answered 200 and the
stored account still has the full name `Old Name`: the handler sets the key `fullname`,
while the field written at signup and read back by decoding is `fullName`. -/
theorem UpdateProfile_keeps_old_full_name :
    sampleProfileOwner.FullName = "Old Name"
    ∧ buildProfileUpdate sampleAuthEnv { User.zero with FullName := "New Name" }
        = .ok { updatedAt := 5000, fullname := some "New Name", gender := none,
                dateOfBirth := none, companyInfo := none, location := none,
                serviceProviderInfo := none }
    ∧ (UpdateProfile sampleAuthEnv
          (sampleProfileRequest { User.zero with FullName := "New Name" })
          sampleProfileWorld).2
        = respond StatusOK "Profile updated successfully" .none
    ∧ (FindOne (UpdateProfile sampleAuthEnv
          (sampleProfileRequest { User.zero with FullName := "New Name" })
          sampleProfileWorld).1.users (User.hasID 1)).map User.FullName
        = some "Old Name" := by
  refine ⟨rfl, rfl, ?_, ?_⟩
  · decide
  · decide

theorem profileFields_sub_objects (env : AuthEnv) (user : User) :
    (profileFields env user).companyInfo = user.CompanyInfo
    ∧ (profileFields env user).location = user.Location
    ∧ (profileFields env user).serviceProviderInfo = none := by
  unfold profileFields
  cases user.CompanyInfo <;> cases user.Location <;> simp only [] <;>
    split_ifs <;> simp

theorem buildProfileUpdate_error (env : AuthEnv) (user : User) (response : GoResult HTTPResponse)
    (h : buildProfileUpdate env user = .error response) :
    response = respond StatusBadRequest "Please specify your service type" .none
    ∨ response = respond StatusBadRequest "Please specify your Category type" .none := by
  unfold buildProfileUpdate at h
  generalize profileFields env user = base at h
  cases hsp : user.ServiceProviderInfo <;> cases hci : user.CompanyInfo <;>
    cases hl : user.Location <;> simp only [hsp, hci, hl] at h <;>
    (try split_ifs at h) <;> simp_all

theorem buildProfileUpdate_sub_objects (env : AuthEnv) (user : User) (update : ProfileUpdate)
    (h : buildProfileUpdate env user = .ok update) :
    update.companyInfo = user.CompanyInfo
    ∧ update.serviceProviderInfo = user.ServiceProviderInfo
    ∧ update.location = user.Location := by
  obtain ⟨hbci, hbl, hbsp⟩ := profileFields_sub_objects env user
  unfold buildProfileUpdate at h
  generalize profileFields env user = base at h hbci hbl hbsp
  cases hsp : user.ServiceProviderInfo <;> cases hci : user.CompanyInfo <;>
    cases hl : user.Location <;> simp only [hsp, hci, hl] at h hbci hbl hbsp <;>
    (try split_ifs at h) <;> simp_all <;> (subst h; simp_all)

theorem tokenSubject_claims (user : ContextUser) (userID : ObjectID)
    (h : tokenSubject user = some userID) :
    ∃ claims, GetUserFromToken user = .value (some claims)
      ∧ ObjectIDFromHex claims.UserID = some userID := by
  unfold tokenSubject at h
  split at h
  · next claims hc => exact ⟨claims, hc, h⟩
  · simp at h

theorem applyProfileUpdate_ID (update : ProfileUpdate) (u : User) :
    (applyProfileUpdate update u).ID = u.ID := rfl

theorem UpdateProfile_ok_run (env : AuthEnv) (req : ProfileHTTP) (w : World)
    (userID : ObjectID) (payload : User)
    (hsubject : tokenSubject req.user = some userID)
    (hbind : req.bind = .ok payload)
    (hok : (UpdateProfile env req w).2 = respond StatusOK "Profile updated successfully" .none) :
    ∃ update, buildProfileUpdate env payload = .ok update
      ∧ (UpdateProfile env req w).1.users
          = updateDocs w.users userID (applyProfileUpdate update) := by
  obtain ⟨claims, hc, huid⟩ := tokenSubject_claims req.user userID hsubject
  simp only [UpdateProfile, hc, huid, hbind] at hok ⊢
  cases hb : buildProfileUpdate env payload with
  | error response =>
    simp only [hb] at hok
    rcases buildProfileUpdate_error env payload response hb with h | h <;>
      simp [h, respond, StatusOK, StatusBadRequest] at hok
  | ok update =>
    simp only [hb] at hok ⊢
    cases hue : env.updateErr with
    | some err => simp [hue, respond, StatusOK, StatusInternalServerError] at hok
    | none =>
      simp only [hue] at hok ⊢
      cases hf : FindOne w.users (User.hasID userID) with
      | none => simp [hf, respond, StatusOK, StatusNotFound] at hok
      | some account => exact ⟨update, rfl, rfl⟩

/-- C20 (counterexample). The account of the example has the wholesaler profile `Old Co`; the
update whose payload carries the wholesaler profile `New Co` is answered 200 and the stored
wholesaler profile is still `Old Co`: the payload's sub-object did not replace it. -/
theorem UpdateProfile_ignores_wholesaler_info :
    (UpdateProfile sampleAuthEnv
        (sampleProfileRequest
          { User.zero with
            WholesalerInfo := some { BusinessName := "New Co", Category := "Tools",
                                     ReferralCode := "" } })
        sampleProfileWorld).2
      = respond StatusOK "Profile updated successfully" .none
    ∧ (FindOne (UpdateProfile sampleAuthEnv
        (sampleProfileRequest
          { User.zero with
            WholesalerInfo := some { BusinessName := "New Co", Category := "Tools",
                                     ReferralCode := "" } })
        sampleProfileWorld).1.users (User.hasID 1)).map User.WholesalerInfo
      = some (some { BusinessName := "Old Co", Category := "Food", ReferralCode := "" }) := by
  constructor
  · decide
  · decide

/-- C20 (amended). `UpdateProfile` replaces `CompanyInfo` and `ServiceProviderInfo`
wholesale and does not touch `WholesalerInfo`.  For every existing account and every payload,
after an `UpdateProfile` answered 200: a `CompanyInfo` present in the payload is the stored
one, entirely, and so is a `ServiceProviderInfo`; each of the two that is absent from the
payload is what it was; and the stored `WholesalerInfo` is what it was, whether or not the
payload carries one. -/
theorem UpdateProfile_sub_objects (env : AuthEnv) (req : ProfileHTTP) (w : World)
    (userID : ObjectID) (payload account : User)
    (hsubject : tokenSubject req.user = some userID)
    (hbind : req.bind = .ok payload)
    (haccount : FindOne w.users (User.hasID userID) = some account)
    (hok : (UpdateProfile env req w).2 = respond StatusOK "Profile updated successfully" .none) :
    ∃ stored : User,
      FindOne (UpdateProfile env req w).1.users (User.hasID userID) = some stored
      ∧ (∀ ci, payload.CompanyInfo = some ci → stored.CompanyInfo = some ci)
      ∧ (payload.CompanyInfo = none → stored.CompanyInfo = account.CompanyInfo)
      ∧ (∀ sp, payload.ServiceProviderInfo = some sp → stored.ServiceProviderInfo = some sp)
      ∧ (payload.ServiceProviderInfo = none →
          stored.ServiceProviderInfo = account.ServiceProviderInfo)
      ∧ stored.WholesalerInfo = account.WholesalerInfo := by
  obtain ⟨update, hbuild, husers⟩ := UpdateProfile_ok_run env req w userID payload hsubject
    hbind hok
  obtain ⟨hci, hsp, _⟩ := buildProfileUpdate_sub_objects env payload update hbuild
  refine ⟨applyProfileUpdate update account, ?_, ?_, ?_, ?_, ?_, rfl⟩
  · rw [husers, FindOne_updateDocs _ _ _ (applyProfileUpdate_ID update), haccount]
    rfl
  · intro ci h
    simp [applyProfileUpdate, hci, h]
  · intro h
    simp [applyProfileUpdate, hci, h]
  · intro sp h
    simp [applyProfileUpdate, hsp, h]
  · intro h
    simp [applyProfileUpdate, hsp, h]

/-- Witness of C20: a payload with a company profile and no service-provider profile, sent
for the account of the example, stores that company profile and leaves the absent
service-provider profile and the wholesaler profile as they were. -/
theorem UpdateProfile_sub_objects_witness :
    ∃ stored : User,
      FindOne (UpdateProfile sampleAuthEnv
          (sampleProfileRequest
            { User.zero with CompanyInfo := some { CompanyInfo.zero with Name := "Acme" } })
          sampleProfileWorld).1.users (User.hasID 1) = some stored
      ∧ stored.CompanyInfo = some { CompanyInfo.zero with Name := "Acme" }
      ∧ stored.ServiceProviderInfo = none
      ∧ stored.WholesalerInfo
          = some { BusinessName := "Old Co", Category := "Food", ReferralCode := "" } := by
  obtain ⟨stored, hstored, hci, _, _, hsp, hwi⟩ :=
    UpdateProfile_sub_objects sampleAuthEnv
      (sampleProfileRequest
        { User.zero with CompanyInfo := some { CompanyInfo.zero with Name := "Acme" } })
      sampleProfileWorld 1
      { User.zero with CompanyInfo := some { CompanyInfo.zero with Name := "Acme" } }
      sampleProfileOwner (by decide) rfl (by decide) (by decide)
  exact ⟨stored, hstored, hci _ rfl, hsp rfl, hwi⟩

/-! ## `UpdateBranch`: position, unusable coordinates, failure between the two steps -/

theorem filter_not_matches_eq_filter_ne (bs : List Branch) (branchID : ObjectID)
    (hnz : branchID ≠ NilObjectID) :
    bs.filter (fun x => !Branch.matchesID branchID x) = bs.filter (fun x => x.ID ≠ branchID) := by
  apply List.filter_congr
  intro x _
  by_cases h : x.ID = branchID
  · simp [Branch.matchesID, h, hnz]
  · simp [Branch.matchesID, h]

/-- C25. `UpdateBranch` moves the branch to the end and keeps its identity.  For an owner
sequence `s` in which the (non-zero) ID `i` locates the branch `b`, after an `UpdateBranch`
whose store steps succeed, as they do in every update answered 200, the owner's sequence is
`s` without every element of ID `i`, the others unchanged and in order, followed by the one
rebuilt branch, the one handed to `c.JSON`, whose ID is `i` and whose creation time is that
of `b`; so the elements of ID `i` are that one branch and it is the last element. -/
theorem UpdateBranch_repositions (lib : Lib) (env : Env) (req : Request) (w : World)
    (userID branchID : ObjectID) (payload : JSONMap) (owner : User) (b : Branch)
    (hcaller : callerID req = some userID)
    (hparam : ObjectIDFromHex req.paramID = some branchID)
    (hpayload : decodedPayload lib req = some payload)
    (hfind : env.findErr = none) (hpull : env.pullErr = none) (hpush : env.pushErr = none)
    (howner : FindOne w.users (User.hasID userID) = some owner)
    (hb : findBranch owner branchID = some b) (hnz : branchID ≠ NilObjectID) :
    ∃ rebuilt : Branch,
      (UpdateBranch lib env req w).2
          = cJSON StatusOK "Branch updated successfully" (branchData rebuilt)
      ∧ ownerBranches (UpdateBranch lib env req w).1 userID
          = some (owner.branches.filter (fun x => x.ID ≠ branchID) ++ [rebuilt])
      ∧ rebuilt.ID = branchID
      ∧ rebuilt.CreatedAt = b.CreatedAt
      ∧ (owner.branches.filter (fun x => x.ID ≠ branchID) ++ [rebuilt]).filter
          (fun x => x.ID = branchID) = [rebuilt]
      ∧ (owner.branches.filter (fun x => x.ID ≠ branchID) ++ [rebuilt]).getLast?
          = some rebuilt := by
  have hrun := UpdateBranch_found lib env req w userID branchID payload owner b hcaller hparam
    hpayload hfind howner hb hnz
  rw [hpull, hpush] at hrun
  refine ⟨rebuiltBranch lib env req branchID payload b, ?_, ?_, rfl, rfl, ?_, ?_⟩
  · rw [hrun]
  · rw [hrun, ← filter_not_matches_eq_filter_ne owner.branches branchID hnz]
    exact ownerBranches_pull_push w.users _ userID branchID _ owner howner
  · have hid : (rebuiltBranch lib env req branchID payload b).ID = branchID := rfl
    simp [List.filter_append, List.filter_filter, hid]
  · simp

/-- Witness of C25: the owner of the example holds the branches 2 and 5; after updating
branch 2 the sequence is branch 5 followed by the rebuilt branch 2 with its creation time. -/
theorem UpdateBranch_repositions_witness :
    ∃ rebuilt : Branch,
      ownerBranches
          (UpdateBranch sampleLib sampleEnv sampleUpdate
            { users := [pushBranch { Branch.zero with ID := 5, Name := "Depot" } sampleOwner],
              fs := [] }).1 1
        = some [{ Branch.zero with ID := 5, Name := "Depot" }, rebuilt]
      ∧ rebuilt.ID = 2 ∧ rebuilt.CreatedAt = 1000 := by
  obtain ⟨rebuilt, _, hseq, hid, hcreated, _, _⟩ :=
    UpdateBranch_repositions sampleLib sampleEnv sampleUpdate
      { users := [pushBranch { Branch.zero with ID := 5, Name := "Depot" } sampleOwner],
        fs := [] }
      1 2 [("name", .str "X")]
      (pushBranch { Branch.zero with ID := 5, Name := "Depot" } sampleOwner) sampleBranch
      (by decide) (by decide) rfl rfl rfl rfl (by decide) (by decide) (by decide)
  exact ⟨rebuilt, hseq, hid, hcreated⟩

theorem updateCoordinate_unusable (lib : Lib) (data : JSONMap) (key : String) (v : Value)
    (x : Float64) (h : mapIndex data key = some v) (hv : unusableCoordinate lib v = true) :
    updateCoordinate lib data key x = Float64.zero := by
  cases v with
  | str s =>
    have hs : lib.ParseFloat s = none := by
      simpa [unusableCoordinate, Option.isNone_iff_eq_none] using hv
    simp [updateCoordinate, h, coordinateSwitch, hs]
  | null => simp [unusableCoordinate] at hv
  | float64 f => simp [unusableCoordinate] at hv
  | int i => simp [unusableCoordinate] at hv
  | bool b => simp [updateCoordinate, h, coordinateSwitch]
  | array xs => simp [updateCoordinate, h, coordinateSwitch]
  | object kvs => simp [updateCoordinate, h, coordinateSwitch]

theorem updateCoordinate_null (lib : Lib) (data : JSONMap) (key : String) (x : Float64)
    (h : mapIndex data key = some .null) : updateCoordinate lib data key x = x := by
  simp [updateCoordinate, h]

/-- C26. `UpdateBranch` with a coordinate that is present but unusable.  For the branch `b`
that the (non-zero) ID locates and every payload, after an update whose store steps
succeed, the stored branch being the one handed to `c.JSON`: a latitude
key that holds a string that does not parse, a boolean, a slice or a map leaves the stored
latitude 0, whatever the latitude of `b` was; an absent key and a null key keep the latitude
of `b`; and the same holds for the longitude. -/
theorem UpdateBranch_unusable_coordinate (lib : Lib) (env : Env) (req : Request) (w : World)
    (userID branchID : ObjectID) (payload : JSONMap) (owner : User) (b : Branch)
    (hcaller : callerID req = some userID)
    (hparam : ObjectIDFromHex req.paramID = some branchID)
    (hpayload : decodedPayload lib req = some payload)
    (hfind : env.findErr = none) (hpull : env.pullErr = none) (hpush : env.pushErr = none)
    (howner : FindOne w.users (User.hasID userID) = some owner)
    (hb : findBranch owner branchID = some b) (hnz : branchID ≠ NilObjectID) :
    ∃ stored : Branch,
      (UpdateBranch lib env req w).2
          = cJSON StatusOK "Branch updated successfully" (branchData stored)
      ∧ storedBranch (UpdateBranch lib env req w).1 userID branchID = some stored
      ∧ (∀ v, mapIndex payload "latitude" = some v → unusableCoordinate lib v = true →
          stored.Latitude = Float64.zero)
      ∧ (∀ v, mapIndex payload "longitude" = some v → unusableCoordinate lib v = true →
          stored.Longitude = Float64.zero)
      ∧ (mapIndex payload "latitude" = none ∨ mapIndex payload "latitude" = some .null →
          stored.Latitude = b.Latitude)
      ∧ (mapIndex payload "longitude" = none ∨ mapIndex payload "longitude" = some .null →
          stored.Longitude = b.Longitude) := by
  have hrun := UpdateBranch_found lib env req w userID branchID payload owner b hcaller hparam
    hpayload hfind howner hb hnz
  rw [hpull, hpush] at hrun
  refine ⟨rebuiltBranch lib env req branchID payload b, ?_, ?_, ?_, ?_, ?_, ?_⟩
  · rw [hrun]
  · rw [hrun]
    exact storedBranch_pull_push w.users _ userID branchID _ owner howner rfl hnz
  · exact fun v h hv => updateCoordinate_unusable lib payload "latitude" v _ h hv
  · exact fun v h hv => updateCoordinate_unusable lib payload "longitude" v _ h hv
  · rintro (h | h)
    · exact updateCoordinate_absent lib payload "latitude" _ h
    · exact updateCoordinate_null lib payload "latitude" _ h
  · rintro (h | h)
    · exact updateCoordinate_absent lib payload "longitude" _ h
    · exact updateCoordinate_null lib payload "longitude" _ h

/-- Witness of C26: the branch of the example has latitude 33.9 and longitude 35.5; updated
with `latitude: "north", longitude: true` it is stored with latitude 0 and longitude 0. -/
theorem UpdateBranch_unusable_coordinate_witness :
    sampleBranch.Latitude = ⟨0x4040f33333333333⟩
    ∧ ∃ stored : Branch,
      storedBranch (UpdateBranch sampleCoordLib sampleEnv sampleCoordUpdate sampleWorld).1 1 2
          = some stored
      ∧ stored.Latitude = Float64.zero ∧ stored.Longitude = Float64.zero := by
  obtain ⟨stored, _, hstored, hlat, hlng, _, _⟩ :=
    UpdateBranch_unusable_coordinate sampleCoordLib sampleEnv sampleCoordUpdate sampleWorld 1 2
      [("latitude", .str "north"), ("longitude", .bool true)] sampleOwner sampleBranch
      (by decide) (by decide) rfl rfl rfl rfl (by decide) (by decide) (by decide)
  exact ⟨rfl, stored, hstored, hlat (.str "north") rfl rfl, hlng (.bool true) rfl rfl⟩

theorem foundWithoutError_iff (env : AuthEnv) (users : List User) (email : String) :
    foundWithoutError env users (User.hasEmail email) = true
      ↔ env.findErr = none ∧ ∃ account ∈ users, account.Email = email := by
  simp only [foundWithoutError, Bool.and_eq_true, Option.isNone_iff_eq_none, FindOne,
    List.find?_isSome, User.hasEmail, beq_iff_eq]

/-- C28. The duplicate check of `Signup` fires only on a lookup that succeeds.  For every
valid payload, `Signup` answers 409 exactly when the email lookup returns an account without
error, that is when the lookup does not fail and a stored account has the email; in every
other case, a failing lookup included, it goes on to hash the password and, when hashing and
insert do not fail, the collection afterwards is the prior one with the new account added. -/
theorem Signup_conflict_iff_lookup_succeeds (lib : AuthLib) (env : AuthEnv) (req : SignupHTTP)
    (w : World) (p : SignupRequest) (logoPath : String) (events : List FSEvent)
    (hparse : parseSignup lib env req = .parsed p logoPath events)
    (hvalid : validSignup p = true) :
    ((Signup lib env req w).2
          = respond StatusConflict "User with this email already exists" .none
        ↔ env.findErr = none ∧ ∃ account ∈ w.users, account.Email = p.Email)
    ∧ (¬(env.findErr = none ∧ ∃ account ∈ w.users, account.Email = p.Email) →
        (∀ h, lib.HashPassword p.Password = .ok h → env.insertErr = none →
          (Signup lib env req w).1.users
            = insertDoc w.users env.insertedID (newUser env p h logoPath))
        ∧ (∀ e, lib.HashPassword p.Password = .error e →
          (Signup lib env req w).2
            = respond StatusInternalServerError "Failed to hash password" .none)) := by
  have hrun := Signup_valid_run lib env req w p logoPath events hparse hvalid
  rw [← foundWithoutError_iff]
  cases hfound : foundWithoutError env w.users (User.hasEmail p.Email) with
  | true =>
    rw [hfound] at hrun
    simp only [if_true] at hrun
    refine ⟨⟨fun _ => rfl, fun _ => by rw [hrun]⟩, fun h => absurd rfl h⟩
  | false =>
    rw [hfound] at hrun
    simp only [Bool.false_eq_true, if_false] at hrun
    refine ⟨⟨?_, fun h => by simp at h⟩, fun _ => ⟨?_, ?_⟩⟩
    · intro h409
      rw [hrun] at h409
      revert h409
      repeat' split
      all_goals simp [respond, StatusConflict, StatusInternalServerError, StatusCreated]
    · intro h hhash hinsert
      rw [hrun, hhash, hinsert]
      simp only []
      split <;> rfl
    · intro e hhash
      rw [hrun, hhash]

/-- Witness of C28: with the account `c@x.com` stored, the signup with that email is answered
409 when the lookup works, and is answered 201 with a second account of that email stored
when the lookup fails. -/
theorem Signup_conflict_iff_lookup_succeeds_witness :
    (Signup sampleAuthLib sampleAuthEnv (sampleSignup sampleSignupRequest) sampleTakenWorld).2
        = respond StatusConflict "User with this email already exists" .none
    ∧ (Signup sampleAuthLib sampleLookupFails (sampleSignup sampleSignupRequest)
        sampleTakenWorld).1.users.map User.Email = ["c@x.com", "c@x.com"] := by
  have h1 := (Signup_conflict_iff_lookup_succeeds sampleAuthLib sampleAuthEnv
    (sampleSignup sampleSignupRequest) sampleTakenWorld sampleSignupRequest "" [] rfl
    (by decide)).1
  have h2 := (Signup_conflict_iff_lookup_succeeds sampleAuthLib sampleLookupFails
    (sampleSignup sampleSignupRequest) sampleTakenWorld sampleSignupRequest "" [] rfl
    (by decide)).2
  refine ⟨h1.mpr ⟨rfl, _, List.mem_singleton.mpr rfl, rfl⟩, ?_⟩
  have hins := (h2 (fun h => by simp [sampleLookupFails] at h)).1 "bcrypt$pw" rfl rfl
  rw [hins]
  decide

theorem buildProfileUpdate_rejected (env : AuthEnv) (user : User)
    (h : rejectedProfile user = true) :
    buildProfileUpdate env user
      = .error (respond StatusBadRequest "Please specify your service type" .none) := by
  unfold rejectedProfile at h
  cases hsp : user.ServiceProviderInfo with
  | none => simp [hsp] at h
  | some sp =>
    simp only [hsp, Bool.and_eq_true, beq_iff_eq] at h
    unfold buildProfileUpdate
    simp only [hsp, h, and_self, if_true]

theorem buildProfileUpdate_accepted (env : AuthEnv) (user : User)
    (h : rejectedProfile user = false) :
    ∃ update, buildProfileUpdate env user = .ok update := by
  have hnever : ∀ s : String, ¬(s = "Other" ∧ s = "") := by
    rintro s ⟨h1, h2⟩
    rw [h1] at h2
    exact absurd h2 (by decide)
  unfold rejectedProfile at h
  unfold buildProfileUpdate
  generalize profileFields env user = base
  cases hsp : user.ServiceProviderInfo <;> cases hci : user.CompanyInfo <;>
    cases hl : user.Location <;> simp only [hsp, hci, hl] at h ⊢ <;>
    (try split_ifs) <;>
    first
      | (exfalso; exact hnever _ (by assumption))
      | simp_all

/-- C29. The only payload `UpdateProfile` rejects.  For every caller with a subject ID and
every bound payload, the answer is a 400 exactly when the payload carries a
`ServiceProviderInfo` whose service type is `Other` and whose custom service type is empty,
and then nothing is written; in particular a payload without `ServiceProviderInfo` is never
answered 400, whatever its `CompanyInfo` is. -/
theorem UpdateProfile_only_rejection (env : AuthEnv) (req : ProfileHTTP) (w : World)
    (userID : ObjectID) (payload : User)
    (hsubject : tokenSubject req.user = some userID)
    (hbind : req.bind = .ok payload) :
    ((∃ r, (UpdateProfile env req w).2 = .value r ∧ r.code = StatusBadRequest)
        ↔ ∃ sp, payload.ServiceProviderInfo = some sp ∧ sp.ServiceType = "Other"
            ∧ sp.CustomServiceType = "")
    ∧ ((∃ sp, payload.ServiceProviderInfo = some sp ∧ sp.ServiceType = "Other"
            ∧ sp.CustomServiceType = "") →
        UpdateProfile env req w
          = (w, respond StatusBadRequest "Please specify your service type" .none))
    ∧ (payload.ServiceProviderInfo = none →
        ¬∃ r, (UpdateProfile env req w).2 = .value r ∧ r.code = StatusBadRequest) := by
  obtain ⟨claims, hc, huid⟩ := tokenSubject_claims req.user userID hsubject
  have hcond : rejectedProfile payload = true
      ↔ ∃ sp, payload.ServiceProviderInfo = some sp ∧ sp.ServiceType = "Other"
          ∧ sp.CustomServiceType = "" := by
    unfold rejectedProfile
    cases payload.ServiceProviderInfo <;> simp
  have hreject : rejectedProfile payload = true →
      UpdateProfile env req w
        = (w, respond StatusBadRequest "Please specify your service type" .none) := by
    intro h
    simp only [UpdateProfile, hc, huid, hbind, buildProfileUpdate_rejected env payload h]
  have haccept : rejectedProfile payload = false →
      ¬∃ r, (UpdateProfile env req w).2 = .value r ∧ r.code = StatusBadRequest := by
    intro h
    obtain ⟨update, hupdate⟩ := buildProfileUpdate_accepted env payload h
    simp only [UpdateProfile, hc, huid, hbind, hupdate]
    rintro ⟨r, hr, hcode⟩
    revert hr
    repeat' split
    all_goals
      intro hr
      simp only [respond, GoResult.value.injEq] at hr
      rw [← hr] at hcode
      simp [StatusBadRequest, StatusInternalServerError, StatusNotFound, StatusOK] at hcode
  refine ⟨?_, fun h => hreject (hcond.mpr h), ?_⟩
  · rw [← hcond]
    constructor
    · intro h
      by_contra hne
      exact haccept (by simpa using hne) h
    · intro h
      rw [hreject h]
      exact ⟨_, rfl, rfl⟩
  · intro hnone
    apply haccept
    simp [rejectedProfile, hnone]

/-- Witness of C29: for the account of the example a payload with the service type `Other`
and no custom service type is answered 400 and writes nothing, and a payload with the
category `Other` and no custom category is answered 200. -/
theorem UpdateProfile_only_rejection_witness :
    UpdateProfile sampleAuthEnv
        (sampleProfileRequest
          { User.zero with
            ServiceProviderInfo := some
              { ServiceType := "Other", CustomServiceType := "", YearsExperience := 2,
                ProfilePhoto := "", AvailableHours := [], AvailableDays := [] } })
        sampleProfileWorld
      = (sampleProfileWorld,
          respond StatusBadRequest "Please specify your service type" .none)
    ∧ (UpdateProfile sampleAuthEnv
        (sampleProfileRequest
          { User.zero with
            CompanyInfo := some { CompanyInfo.zero with Category := "Other" } })
        sampleProfileWorld).2
      = respond StatusOK "Profile updated successfully" .none := by
  have h1 := (UpdateProfile_only_rejection sampleAuthEnv
    (sampleProfileRequest
      { User.zero with
        ServiceProviderInfo := some
          { ServiceType := "Other", CustomServiceType := "", YearsExperience := 2,
            ProfilePhoto := "", AvailableHours := [], AvailableDays := [] } })
    sampleProfileWorld 1 _ (by decide) rfl).2.1 ⟨_, rfl, rfl, rfl⟩
  exact ⟨h1, by decide⟩

/-! ## Role gate -/

theorem allowedTypeLoop_some (cl : JwtCustomClaims) (allowedTypes : List String) :
    allowedTypeLoop (some cl) allowedTypes = .value (decide (cl.UserType ∈ allowedTypes)) := by
  induction allowedTypes with
  | nil => simp [allowedTypeLoop]
  | cons t rest ih =>
    unfold allowedTypeLoop
    by_cases h : cl.UserType = t
    · simp [h]
    · simp [h, ih]

/-- C22. The role gate.  For every list `L` of allowed roles, every wrapped handler and every
request whose token yields claims: when the role of the claims is an element of `L` the
result of `RequireUserType(L)` is the result of the wrapped handler on that request; when
it is not, the result is 403 with the world untouched, whatever the wrapped handler is, so
the handler is not run; and with an empty `L` every such request is refused. -/
theorem RequireUserType_gate {Ctx : Type} (L : List String) (user : Ctx → ContextUser)
    (c : Ctx) (w : World) (claims : JwtCustomClaims)
    (hclaims : GetUserFromToken (user c) = .value (some claims)) :
    (claims.UserType ∈ L →
        ∀ next : HandlerFunc Ctx, RequireUserType L user next c w = next c w)
    ∧ (claims.UserType ∉ L →
        ∀ next : HandlerFunc Ctx, RequireUserType L user next c w
          = (w, respond StatusForbidden "Access denied for your user type" .none))
    ∧ (∀ next : HandlerFunc Ctx, RequireUserType [] user next c w
          = (w, respond StatusForbidden "Access denied for your user type" .none)) := by
  refine ⟨?_, ?_, ?_⟩
  · intro hmem next
    simp [RequireUserType, hclaims, allowedTypeLoop_some, hmem]
  · intro hmem next
    simp [RequireUserType, hclaims, allowedTypeLoop_some, hmem]
  · intro next
    simp [RequireUserType, hclaims, allowedTypeLoop]

/-- Witness of C22: behind the gate for `company` and `wholesaler` the company caller of the
example reaches the handler, and a caller with the role `user` gets 403 with nothing done. -/
theorem RequireUserType_gate_witness :
    RequireUserType ["company", "wholesaler"] id sampleHandler sampleCaller emptyWorld
        = sampleHandler sampleCaller emptyWorld
    ∧ RequireUserType ["company", "wholesaler"] id sampleHandler
          (typedPayload "000000000000000000000001" "a@x.com" "user" StandardClaims.zero)
          emptyWorld
        = (emptyWorld, respond StatusForbidden "Access denied for your user type" .none) := by
  have h1 := (RequireUserType_gate ["company", "wholesaler"] id sampleCaller emptyWorld
    { UserID := "000000000000000000000001", Email := "", UserType := "company",
      Standard := StandardClaims.zero } rfl).1 (by decide) sampleHandler
  have h2 := (RequireUserType_gate ["company", "wholesaler"] id
    (typedPayload "000000000000000000000001" "a@x.com" "user" StandardClaims.zero) emptyWorld
    { UserID := "000000000000000000000001", Email := "a@x.com", UserType := "user",
      Standard := StandardClaims.zero } rfl).2.1 (by decide) sampleHandler
  exact ⟨h1, h2⟩

/-! ## `GoogleLogin` -/

theorem FindOne_updateOneDoc (users : List User) (filter : User → Bool) (update : User → User)
    (hkeep : ∀ u, filter (update u) = filter u) :
    FindOne (updateOneDoc users filter update) filter = (FindOne users filter).map update := by
  induction users with
  | nil => rfl
  | cons u rest ih =>
    unfold updateOneDoc
    cases h : filter u
    · simp only [FindOne] at ih
      simp [FindOne, h, ih]
    · simp [FindOne, h, hkeep]

/-- C21. `GoogleLogin` upserts by email.  For every request with a non-empty email and UID,
when no store call and no signing fails: if no account has the email, the collection gains
one account with the generated `_id`, the role `user`, that email, the given UID, display
name and picture URL, and the credential is issued for that `_id`, the email and `user`; if
an account has the email, that account is stored with its UID, full name, picture and
updated-at overwritten and every other field (`_id`, email, role, password digest,
role-specific payloads) as it was, and the credential is issued for its `_id`, email and
role. -/
theorem GoogleLogin_upsert (lib : AuthLib) (env : AuthEnv) (req : GoogleHTTP) (w : World)
    (g : GoogleUser)
    (hbind : req.bind = .ok g) (hemail : g.Email ≠ "") (huid : g.UID ≠ "")
    (hfind : env.findErr = none) :
    ((∀ u ∈ w.users, u.Email ≠ g.Email) → env.insertErr = none →
      ∀ token, GenerateJWT lib env 1 (ObjectID.Hex env.insertedID) g.Email "user" = .ok token →
        GoogleLogin lib env req w
          = ({ w with users := w.users ++
                [{ User.zero with
                   ID := env.insertedID, Email := g.Email, FullName := g.DisplayName,
                   UserType := "user", GoogleUID := g.UID, ProfilePic := g.PhotoURL,
                   CreatedAt := env.now 0, UpdatedAt := env.now 0 }] },
              respond StatusOK "Login successful"
                (.login token env.insertedID g.Email g.DisplayName "user")))
    ∧ (∀ account, FindOne w.users (User.hasEmail g.Email) = some account →
        env.updateErr = none →
        ∀ token, GenerateJWT lib env 1 (ObjectID.Hex account.ID) account.Email account.UserType
            = .ok token →
          (GoogleLogin lib env req w).2
              = respond StatusOK "Login successful"
                  (.login token account.ID account.Email account.FullName account.UserType)
          ∧ FindOne (GoogleLogin lib env req w).1.users (User.hasEmail g.Email)
              = some { account with
                       GoogleUID := g.UID, FullName := g.DisplayName,
                       ProfilePic := g.PhotoURL, UpdatedAt := env.now 0 }
          ∧ (GoogleLogin lib env req w).1.users.length = w.users.length) := by
  have hvalid : ¬(g.Email = "" ∨ g.UID = "") := by simp [hemail, huid]
  refine ⟨?_, ?_⟩
  · intro hfresh hinsert token hsign
    have hnone := FindOne_none_of_forall w.users (User.hasEmail g.Email)
      (fun u hu => by simp [User.hasEmail, hfresh u hu])
    simp only [GoogleLogin, hbind, hvalid, if_false, hfind, hnone, hinsert, hsign]
    rfl
  · intro account haccount hupdate token hsign
    have hrun : GoogleLogin lib env req w
        = ({ w with users := updateOneDoc w.users (User.hasEmail g.Email)
                               (applyGoogleUpdate env g) },
            respond StatusOK "Login successful"
              (.login token account.ID account.Email account.FullName account.UserType)) := by
      simp only [GoogleLogin, hbind, hvalid, if_false, hfind, haccount, hupdate, hsign]
    rw [hrun]
    refine ⟨rfl, ?_, ?_⟩
    · simp only []
      rw [FindOne_updateOneDoc w.users (User.hasEmail g.Email) (applyGoogleUpdate env g)
        (fun u => rfl), haccount]
      rfl
    · simp only []
      clear hrun haccount
      induction w.users with
      | nil => rfl
      | cons u rest ih =>
        unfold updateOneDoc
        split <;> simp [ih]

/-- Witness of C21: for the Google identity of the example, the empty collection gains a plain
user with the `_id` 7; and where `c@x.com` is a company account with a password, that
account keeps `_id` 8, role and password and takes the UID, name and picture. -/
theorem GoogleLogin_upsert_witness :
    GoogleLogin sampleAuthLib sampleAuthEnv { bind := .ok sampleGoogleUser } emptyWorld
        = ({ users := [{ User.zero with
                         ID := 7, Email := "c@x.com", FullName := "Cleo G", UserType := "user",
                         GoogleUID := "g-1", ProfilePic := "https://pic/1",
                         CreatedAt := 5000, UpdatedAt := 5000 }],
             fs := [] },
            respond StatusOK "Login successful"
              (.login "hs256.000000000000000000000007.c@x.com.user.s3cret" 7 "c@x.com"
                "Cleo G" "user"))
    ∧ FindOne (GoogleLogin sampleAuthLib sampleAuthEnv { bind := .ok sampleGoogleUser }
          sampleTakenWorld).1.users (User.hasEmail "c@x.com")
        = some { User.zero with
                 ID := 8, Email := "c@x.com", Password := "bcrypt$old", FullName := "Cleo G",
                 UserType := "company", GoogleUID := "g-1", ProfilePic := "https://pic/1",
                 UpdatedAt := 5000 } := by
  have h1 := (GoogleLogin_upsert sampleAuthLib sampleAuthEnv { bind := .ok sampleGoogleUser }
    emptyWorld sampleGoogleUser rfl (by decide) (by decide) rfl).1
    (by intro u hu; simp [emptyWorld] at hu) rfl
    "hs256.000000000000000000000007.c@x.com.user.s3cret" rfl
  have h2 := (GoogleLogin_upsert sampleAuthLib sampleAuthEnv { bind := .ok sampleGoogleUser }
    sampleTakenWorld sampleGoogleUser rfl (by decide) (by decide) rfl).2
    { User.zero with ID := 8, Email := "c@x.com", Password := "bcrypt$old",
                     FullName := "Carl", UserType := "company" }
    (by decide) rfl "hs256.000000000000000000000008.c@x.com.company.s3cret" rfl
  exact ⟨h1, h2.2.1⟩

/-! ## Image serving -/

/-- C23 (evaluation of the defect). For the route parameter `..` the path `ServeImage`
resolves and hands to `c.File` is `.`, the directory above `uploads`; for `.`, the empty
string and `/` it is `uploads` itself.  None of these is of the form
`uploads/<component>`; names with slashes and `../` are cut down to a file in `uploads`. -/
theorem ServeImage_leaves_asset_root :
    filepathBase ".." = ".."
    ∧ ServeImage (fun _ => false) ".." = .file "."
    ∧ ServeImage (fun _ => false) "." = .file "uploads"
    ∧ ServeImage (fun _ => false) "" = .file "uploads"
    ∧ ServeImage (fun _ => false) "/" = .file "uploads"
    ∧ ServeImage (fun _ => false) "a/../../etc/passwd" = .file "uploads/passwd"
    ∧ ServeImage (fun _ => false) "../logo.png" = .file "uploads/logo.png" := by
  decide

/-! ## Stored asset names -/

theorem extScan_no_slash (rev acc : List Char) (hacc : ∀ c ∈ acc, c ≠ '/') :
    ∀ c ∈ extScan rev acc, c ≠ '/' := by
  induction rev generalizing acc with
  | nil => simp [extScan]
  | cons x rest ih =>
    unfold extScan
    by_cases h1 : x = '/'
    · simp [h1]
    · by_cases h2 : x = '.'
      · simp only [h1, if_false, h2, if_true]
        intro c hc
        rcases List.mem_cons.mp hc with h | h
        · rw [h]; decide
        · exact hacc c h
      · simp only [h1, h2, if_false]
        apply ih
        intro c hc
        rcases List.mem_cons.mp hc with h | h
        · rw [h]; exact h1
        · exact hacc c h

theorem splitSlash_no_slash (n : List Char) (h : ∀ c ∈ n, c ≠ '/') : splitSlash n = [n] := by
  induction n with
  | nil => rfl
  | cons x rest ih =>
    have hx : x ≠ '/' := h x (List.mem_cons_self _ _)
    have hrest := ih (fun c hc => h c (List.mem_cons_of_mem _ hc))
    simp [splitSlash, hrest, hx]

theorem splitSlash_uploads (n : List Char) (h : ∀ c ∈ n, c ≠ '/') :
    splitSlash ('u' :: 'p' :: 'l' :: 'o' :: 'a' :: 'd' :: 's' :: '/' :: n)
      = [['u', 'p', 'l', 'o', 'a', 'd', 's'], n] := by
  simp [splitSlash, splitSlash_no_slash n h]

theorem intercalate_pair (a b : String) : String.intercalate "/" [a, b] = a ++ "/" ++ b := rfl

theorem cleanStep_keep (out : List (List Char)) (e : List Char)
    (h1 : e ≠ []) (h2 : e ≠ ['.']) (h3 : e ≠ ['.', '.']) :
    cleanStep false out e = e :: out := by
  simp [cleanStep, h1, h2, h3]

theorem filepathJoin_uploads (n : List Char) (hslash : ∀ c ∈ n, c ≠ '/')
    (hlen : 2 < n.length) :
    filepathJoin ["uploads", String.mk n] = String.mk ("uploads/".toList ++ n) := by
  have h1 : n ≠ [] := by intro h; simp [h] at hlen
  have h2 : n ≠ ['.'] := by intro h; simp [h] at hlen
  have h3 : n ≠ ['.', '.'] := by intro h; simp [h] at hlen
  have hu : "uploads" ≠ "" := by decide
  have hdata : (String.intercalate "/" ["uploads", String.mk n]).toList
      = 'u' :: 'p' :: 'l' :: 'o' :: 'a' :: 'd' :: 's' :: '/' :: n := by
    rw [intercalate_pair]
    rfl
  simp only [filepathJoin, hu, if_false, filepathClean, hdata]
  rw [splitSlash_uploads n hslash]
  have hU : cleanStep false [] ['u', 'p', 'l', 'o', 'a', 'd', 's']
      = [['u', 'p', 'l', 'o', 'a', 'd', 's']] := by decide
  have hstack : cleanStep false (cleanStep false [] ['u', 'p', 'l', 'o', 'a', 'd', 's']) n
      = [n, ['u', 'p', 'l', 'o', 'a', 'd', 's']] := by
    rw [hU, cleanStep_keep _ n h1 h2 h3]
  have hd : decide ('u' = '/') = false := by decide
  simp only [List.foldl_cons, List.foldl_nil, hd, Bool.false_eq_true, if_false]
  rw [hstack]
  simp [joinSlash]

theorem isUUIDString_spec (s : String) (h : isUUIDString s = true) :
    s.toList.length = 36 ∧ ∀ c ∈ s.toList, c ≠ '/' := by
  simp only [isUUIDString, Bool.and_eq_true, beq_iff_eq, List.all_eq_true] at h
  refine ⟨h.1, ?_⟩
  intro c hc hslash
  have := h.2 c hc
  rw [hslash] at this
  revert this
  decide

theorem uploadPath_eq (env : Env) (i : Nat) (file : FileHeader)
    (huuid : isUUIDString (env.uuid i) = true) :
    uploadPath env i file = "uploads/" ++ env.uuid i ++ filepathExt file.Filename := by
  obtain ⟨hlen, hslash⟩ := isUUIDString_spec (env.uuid i) huuid
  have hname : env.uuid i ++ filepathExt file.Filename
      = String.mk ((env.uuid i).toList ++ extScan file.Filename.toList.reverse []) := rfl
  unfold uploadPath
  rw [hname, filepathJoin_uploads]
  · apply String.ext
    simp [filepathExt, String.data_append]
  · intro c hc
    rcases List.mem_append.mp hc with h | h
    · exact hslash c h
    · exact extScan_no_slash _ [] (by simp) c h
  · rw [List.length_append, hlen]
    omega

/-- C24. Stored asset names do not collide.  Where the identifier drawn for an uploaded
branch image is a UUID string, the path the image is saved under is `uploads/` followed by
that identifier followed by the extension of the original file name; and two saves that
draw distinct identifiers get distinct paths, whatever the two original file names are. -/
theorem uploadPath_collision_free (env : Env) (i j : Nat) (file1 file2 : FileHeader)
    (hi : isUUIDString (env.uuid i) = true) (hj : isUUIDString (env.uuid j) = true)
    (hne : env.uuid i ≠ env.uuid j) :
    uploadPath env i file1 = "uploads/" ++ env.uuid i ++ filepathExt file1.Filename
    ∧ uploadPath env j file2 = "uploads/" ++ env.uuid j ++ filepathExt file2.Filename
    ∧ uploadPath env i file1 ≠ uploadPath env j file2 := by
  have h1 := uploadPath_eq env i file1 hi
  have h2 := uploadPath_eq env j file2 hj
  refine ⟨h1, h2, ?_⟩
  rw [h1, h2]
  intro heq
  have hdata := congrArg String.data heq
  simp only [String.data_append, List.append_assoc] at hdata
  have htail := List.append_cancel_left hdata
  have hlen : (env.uuid i).data.length = (env.uuid j).data.length := by
    have a := (isUUIDString_spec _ hi).1
    have b := (isUUIDString_spec _ hj).1
    simp only [String.toList] at a b
    rw [a, b]
  exact hne (String.ext (List.append_inj htail hlen).1)

/-- Witness of C24: two images with the same original name `photo.jpg`, saved under two
identifiers, get the two paths made of `uploads/`, the identifier and `.jpg`. -/
theorem uploadPath_collision_free_witness :
    uploadPath sampleTwoUploads 0 { Filename := "photo.jpg" }
        = "uploads/123e4567-e89b-12d3-a456-426614174000.jpg"
    ∧ uploadPath sampleTwoUploads 1 { Filename := "photo.jpg" }
        = "uploads/9b2d7f1c-0a4e-4c6b-8f3a-5d1e2c3b4a59.jpg"
    ∧ uploadPath sampleTwoUploads 0 { Filename := "photo.jpg" }
        ≠ uploadPath sampleTwoUploads 1 { Filename := "photo.jpg" } := by
  obtain ⟨h1, h2, h3⟩ :=
    uploadPath_collision_free sampleTwoUploads 0 1 { Filename := "photo.jpg" }
      { Filename := "photo.jpg" } (by decide) (by decide) (by decide)
  exact ⟨h1.trans (by decide), h2.trans (by decide), h3⟩

/-! ## `UpdateCompanyData` -/

/-- After `$set` on one field, that field holds the new value and every other field is as
before. -/
theorem lookup_setField (doc : Document) (key : String) (v : Bson) (k : String) :
    (setField doc key v).lookup k = if k = key then some v else doc.lookup k := by
  induction doc with
  | nil =>
    by_cases h : k = key
    · subst h
      simp [setField, List.lookup]
    · have hb : (k == key) = false := beq_eq_false_iff_ne.mpr h
      simp [setField, List.lookup, h, hb]
  | cons kv rest ih =>
    obtain ⟨k0, old⟩ := kv
    unfold setField
    by_cases hkey : key = k0
    · subst hkey
      by_cases h : k = key
      · subst h
        simp [List.lookup]
      · have hb : (k == key) = false := beq_eq_false_iff_ne.mpr h
        simp [List.lookup, h, hb]
    · by_cases h0 : k = k0
      · subst h0
        have hne : ¬ k = key := fun h => hkey h.symm
        simp [List.lookup, hkey, hne]
      · have hb : (k == k0) = false := beq_eq_false_iff_ne.mpr h0
        simp [List.lookup, hkey, hb, ih]

/-- The first match of `UpdateOne` splits the collection: the documents before it do not
match, and only the match is rewritten. -/
theorem updateOneRaw_split (docs : List Document) (filter : Document → Bool)
    (update : Document → Document) (doc : Document) (h : docs.find? filter = some doc) :
    ∃ before after, docs = before ++ doc :: after
      ∧ (∀ d ∈ before, filter d = false)
      ∧ filter doc = true
      ∧ updateOneRaw docs filter update = before ++ update doc :: after := by
  induction docs with
  | nil => simp at h
  | cons d rest ih =>
    unfold updateOneRaw
    cases hd : filter d
    · rw [List.find?_cons, hd] at h
      obtain ⟨before, after, hsplit, hbefore, hdoc, hupd⟩ := ih h
      refine ⟨d :: before, after, by simp [hsplit], ?_, hdoc, by simp [hupd]⟩
      intro x hx
      rcases List.mem_cons.mp hx with rfl | hx
      · exact hd
      · exact hbefore x hx
    · rw [List.find?_cons, hd] at h
      cases h
      exact ⟨[], rest, rfl, by simp, hd, by simp⟩

/-- The `$set` document of `UpdateCompanyData` in the order the store applies it. -/
theorem sorted_companyDataSet (env : CompanyDataEnv) (body : JSONMap) :
    (companyDataSet env body).insertionSort (fun a b => a.1.toList < b.1.toList)
      = [("facebook", bodyField body "facebook"),
         ("instagram", bodyField body "instagram"),
         ("phone", bodyField body "phone"),
         ("updatedAt", .dateTime env.now),
         ("website", bodyField body "website"),
         ("whatsapp", bodyField body "whatsapp")] := by
  have h1 : ¬(("website" : String).toList < ("updatedAt" : String).toList) := by decide
  have h2 : ¬(("whatsapp" : String).toList < ("updatedAt" : String).toList) := by decide
  have h3 : ¬(("whatsapp" : String).toList < ("website" : String).toList) := by decide
  have h4 : ¬(("phone" : String).toList < ("facebook" : String).toList) := by decide
  have h5 : ¬(("phone" : String).toList < ("instagram" : String).toList) := by decide
  have h6 : (("phone" : String).toList < ("updatedAt" : String).toList) := by decide
  have h7 : ¬(("instagram" : String).toList < ("facebook" : String).toList) := by decide
  have h8 : (("instagram" : String).toList < ("updatedAt" : String).toList) := by decide
  have h9 : (("facebook" : String).toList < ("updatedAt" : String).toList) := by decide
  have h10 : (("facebook" : String).toList < ("instagram" : String).toList) := by decide
  have h11 : (("instagram" : String).toList < ("phone" : String).toList) := by decide
  have h12 : (("facebook" : String).toList < ("phone" : String).toList) := by decide
  simp only [companyDataSet, List.insertionSort, List.orderedInsert, h1, h2, h3, h4, h5, h6,
    h7, h8, h9, h10, h11, h12, if_true, if_false]

/-- The fields of a document after the `$set` of `UpdateCompanyData`. -/
theorem lookup_companyDataSet (env : CompanyDataEnv) (body : JSONMap) (doc : Document)
    (k : String) :
    (applySet (companyDataSet env body) doc).lookup k =
      if k = "whatsapp" then some (bodyField body "whatsapp")
      else if k = "website" then some (bodyField body "website")
      else if k = "updatedAt" then some (.dateTime env.now)
      else if k = "phone" then some (bodyField body "phone")
      else if k = "instagram" then some (bodyField body "instagram")
      else if k = "facebook" then some (bodyField body "facebook")
      else doc.lookup k := by
  simp only [applySet, sorted_companyDataSet, List.foldl_cons, List.foldl_nil, lookup_setField]

/-- The run of `UpdateCompanyData` for a valid token and a body that binds, when `UpdateOne`
does not fail: the stored collection, and the response when the account exists. -/
theorem UpdateCompanyData_run (env : CompanyDataEnv) (req : CompanyDataHTTP)
    (docs : List Document) (hex : String) (objectID : ObjectID) (body : JSONMap)
    (htoken : ExtractUserID req.user = .value (.ok hex))
    (hbind : req.bind = .ok body)
    (hid : ObjectIDFromHex hex = some objectID)
    (hupdate : env.updateErr = none) :
    (UpdateCompanyData env req docs).1
        = updateOneRaw docs (Document.hasID objectID) (applySet (companyDataSet env body))
      ∧ (∀ doc', (updateOneRaw docs (Document.hasID objectID)
              (applySet (companyDataSet env body))).find? (Document.hasID objectID) = some doc' →
          env.decodeErr = none →
          (UpdateCompanyData env req docs).2
              = respond StatusOK "Company data updated successfully" .none
            ∨ (UpdateCompanyData env req docs).2
              = respond StatusOK "No changes made to company data" .none) := by
  unfold UpdateCompanyData
  simp only [htoken, hbind, hid, hupdate]
  constructor
  · split_ifs
    · split <;> rfl
    · rfl
  · intro doc' hfound hdecode
    split_ifs
    · right
      simp only [hfound, hdecode]
    · left
      rfl

/-- C30. `UpdateCompanyData` overwrites the five contact fields unconditionally.  For every
collection in which `doc` is the account of the caller, every body that binds and a valid
token, when `UpdateOne` does not fail: the collection afterwards differs from the one before
only in that account; each of `phone`, `whatsapp`, `website`, `facebook`, `instagram` of the
account holds the body's value for that key, and null when the body lacks the key; `updatedAt`
holds the instant of the request; every other field is as before; and the response is a 200
when the account decodes. -/
theorem UpdateCompanyData_overwrites_contact_fields (env : CompanyDataEnv)
    (req : CompanyDataHTTP) (docs : List Document) (hex : String) (objectID : ObjectID)
    (body : JSONMap) (doc : Document)
    (htoken : ExtractUserID req.user = .value (.ok hex))
    (hbind : req.bind = .ok body)
    (hid : ObjectIDFromHex hex = some objectID)
    (hupdate : env.updateErr = none)
    (hdoc : docs.find? (Document.hasID objectID) = some doc) :
    ∃ before after doc',
      docs = before ++ doc :: after
      ∧ (UpdateCompanyData env req docs).1 = before ++ doc' :: after
      ∧ (UpdateCompanyData env req docs).1.find? (Document.hasID objectID) = some doc'
      ∧ (∀ key ∈ ["phone", "whatsapp", "website", "facebook", "instagram"],
          ∀ v, mapIndex body key = some v → doc'.lookup key = some (Value.toBson v))
      ∧ (∀ key ∈ ["phone", "whatsapp", "website", "facebook", "instagram"],
          mapIndex body key = none → doc'.lookup key = some .null)
      ∧ doc'.lookup "updatedAt" = some (.dateTime env.now)
      ∧ (∀ key, key ∉ ["phone", "whatsapp", "website", "facebook", "instagram"] →
          key ≠ "updatedAt" → doc'.lookup key = doc.lookup key)
      ∧ (env.decodeErr = none →
          (UpdateCompanyData env req docs).2
              = respond StatusOK "Company data updated successfully" .none
            ∨ (UpdateCompanyData env req docs).2
              = respond StatusOK "No changes made to company data" .none) := by
  obtain ⟨hstore, hresp⟩ := UpdateCompanyData_run env req docs hex objectID body htoken hbind
    hid hupdate
  obtain ⟨before, after, hsplit, hbefore, hmatch, hupd⟩ :=
    updateOneRaw_split docs (Document.hasID objectID) (applySet (companyDataSet env body)) doc
      hdoc
  have hkeep : Document.hasID objectID (applySet (companyDataSet env body) doc) = true := by
    have hsame : (applySet (companyDataSet env body) doc).lookup "_id" = doc.lookup "_id" := by
      rw [lookup_companyDataSet]
      simp
    unfold Document.hasID at hmatch ⊢
    rw [hsame]
    exact hmatch
  have hfound : (updateOneRaw docs (Document.hasID objectID)
      (applySet (companyDataSet env body))).find? (Document.hasID objectID)
        = some (applySet (companyDataSet env body) doc) := by
    rw [hupd, List.find?_append]
    have hnone : before.find? (Document.hasID objectID) = none := by
      rw [List.find?_eq_none]
      intro d hd
      simp [hbefore d hd]
    rw [hnone, List.find?_cons, hkeep]
    rfl
  refine ⟨before, after, applySet (companyDataSet env body) doc, hsplit, ?_, ?_, ?_, ?_, ?_, ?_,
    ?_⟩
  · rw [hstore, hupd]
  · rw [hstore, hfound]
  · intro key hkey v hv
    rw [lookup_companyDataSet]
    simp only [List.mem_cons, List.mem_singleton, List.not_mem_nil, or_false] at hkey
    rcases hkey with h | h | h | h | h <;> subst h <;> simp [bodyField, hv]
  · intro key hkey hv
    rw [lookup_companyDataSet]
    simp only [List.mem_cons, List.mem_singleton, List.not_mem_nil, or_false] at hkey
    rcases hkey with h | h | h | h | h <;> subst h <;> simp [bodyField, hv, Value.toBson]
  · rw [lookup_companyDataSet]
    simp
  · intro key hkey hupdated
    rw [lookup_companyDataSet]
    simp only [List.mem_cons, List.mem_singleton, List.not_mem_nil, or_false, not_or] at hkey
    obtain ⟨h1, h2, h3, h4, h5⟩ := hkey
    simp [hupdated, h1, h2, h3, h4, h5]
  · exact hresp _ hfound

/-- Witness of C30: account 1 holds a phone number and a website, and the body holds only
a phone number; afterwards the phone is the body's, the website, which the body omits, is
null, and the email is kept. -/
theorem UpdateCompanyData_overwrites_contact_fields_witness :
    (UpdateCompanyData sampleCompanyDataEnv sampleCompanyData [sampleCompanyDoc]).1
        = [[("_id", .objectID 1), ("email", .str "a@x.com"), ("phone", .str "02"),
            ("website", .null), ("updatedAt", .dateTime 9), ("facebook", .null),
            ("instagram", .null), ("whatsapp", .null)]]
    ∧ ∃ before after doc',
      [sampleCompanyDoc] = before ++ sampleCompanyDoc :: after
      ∧ (UpdateCompanyData sampleCompanyDataEnv sampleCompanyData [sampleCompanyDoc]).1
          = before ++ doc' :: after
      ∧ doc'.lookup "phone" = some (.str "02")
      ∧ doc'.lookup "website" = some .null
      ∧ doc'.lookup "email" = some (.str "a@x.com") := by
  refine ⟨rfl, ?_⟩
  obtain ⟨before, after, doc', h1, h2, _, h4, h5, _, h7, _⟩ :=
    UpdateCompanyData_overwrites_contact_fields sampleCompanyDataEnv sampleCompanyData
      [sampleCompanyDoc] "000000000000000000000001" 1 [("phone", .str "02")] sampleCompanyDoc
      rfl rfl (by decide) rfl rfl
  refine ⟨before, after, doc', h1, h2, ?_, ?_, ?_⟩
  · exact h4 "phone" (by simp) (.str "02") rfl
  · exact h5 "website" (by simp) rfl
  · rw [h7 "email" (by simp) (by decide)]
    rfl

end Barrim
